import Mathlib

/-!
# eddy-ng: the LDC1612 sample pipeline (`sensor_ldc1612_ng.c`)

A shallow embedding of the sample-processing and trigger-decision code of
`src/eddy-ng/sensor_ldc1612_ng.c`, followed by theorems about it.

Conventions of the embedding

* Unsigned machine integers are `Nat`; every place where the C code narrows a
  value (an 8-bit counter increment, an 8-bit parameter) carries an explicit
  `% 256`, and 32-bit timer arithmetic carries an explicit `% 2 ^ 32`.
* `float` is an abstract carrier `F` with the operations of `FloatOps`.  The
  comparisons are arbitrary boolean functions, except that `lt` is asymmetric
  (true of IEEE-754 `<`, NaN included), so everything proved for all `F` holds
  for the machine floats.  Concrete runs use the instance on `ℚ`.
* Side effects on the outside world (the trigger channel, messages to the host)
  are collected as a list of `Event`s; `shutdown` is the `fatal` field of a step.
* Debug prints (`dprint`) are not modelled.
-/

set_option linter.unusedSectionVars false
set_option linter.unusedVariables false

namespace Ldc1612

/-! ## Floating point carrier -/

/-- Operations on the C `float` type used by the sensor code. -/
class FloatOps (F : Type) where
  /-- The all-zero-bits float, as written by `memset`. -/
  zero : F
  add : F → F → F
  sub : F → F → F
  mul : F → F → F
  div : F → F → F
  /-- Conversion `(float)` of an unsigned 32-bit integer. -/
  ofNat : Nat → F
  /-- Conversion `(float)` of a signed 32-bit integer. -/
  ofInt : Int → F
  /-- The C comparison `a < b` (and `b > a`). -/
  lt : F → F → Bool
  /-- The C comparison `a <= b` (and `b >= a`). -/
  le : F → F → Bool
  lt_asymm : ∀ a b : F, lt a b = true → lt b a = false

instance instFloatOpsRat : FloatOps ℚ where
  zero := 0
  add a b := a + b
  sub a b := a - b
  mul a b := a * b
  div a b := a / b
  ofNat n := (n : ℚ)
  ofInt i := (i : ℚ)
  lt a b := decide (a < b)
  le a b := decide (a ≤ b)
  lt_asymm := by
    intro a b h
    simp only [decide_eq_true_eq] at h
    simp only [decide_eq_false_iff_not, not_lt]
    exact le_of_lt h

/-! ## Constants -/

def LDC_PENDING : Nat := 1
def LDC_HAVE_INTB : Nat := 2

def HOME_MODE_NONE : Nat := 0
def HOME_MODE_HOME : Nat := 1
def HOME_MODE_WMA : Nat := 2
def HOME_MODE_SOS : Nat := 3

def REASON_ERROR_SENSOR : Nat := 0
def REASON_ERROR_PROBE_TOO_LOW : Nat := 1
def REASON_ERROR_TOO_EARLY : Nat := 2

/-- The error flags of a sample: `SAMPLE_ERR(data) = data >> 28`. -/
def SAMPLE_ERR (data : Nat) : Nat := data / 2 ^ 28

def STATUS_UNREADCONV0 : Nat := 0x0008
def STATUS_ERR_AHE : Nat := 0x0400

def MAX_SOS_SECTIONS : Nat := 4

/-- Modelled from the spec: `timer_is_before` is declared in `board/misc.h`,
which is not part of the sources; it is the wrap-around ordering of the 32-bit
timer, `(int32_t)(time1 - time2) < 0`. -/
def timer_is_before (time1 time2 : Nat) : Bool :=
  decide (2 ^ 31 ≤ (time1 + 2 ^ 32 - time2 % 2 ^ 32) % 2 ^ 32)

/-- Conversion of a 32-bit command argument to `int32_t`. -/
def toInt32 (x : Nat) : Int :=
  if x % 2 ^ 32 < 2 ^ 31 then (x % 2 ^ 32 : Nat) else ((x % 2 ^ 32 : Nat) : Int) - 2 ^ 32

/-! ## Data model -/

/-- The record `struct sosfilter_sos`. -/
structure sosfilter_sos (F : Type) where
  num_sections : Nat
  sos : List F
  deriving DecidableEq, Repr

/-- The record `struct ldc1612_ng_homing_sos_tap`. -/
structure ldc1612_ng_homing_sos_tap (F : Type) where
  state : List F
  tap_threshold : F
  frequency_offset : F
  tap_start_value : F
  last_value : F
  deriving DecidableEq, Repr

/-- The record `struct ldc1612_ng_homing`. -/
structure ldc1612_ng_homing (F : Type) where
  mode : Nat
  safe_start_freq : Nat
  safe_start_time : Nat
  homing_trigger_freq : Nat
  trigger_time : Nat
  tap_start_time : Nat
  error_count : Nat
  error_threshold : Nat
  error : Nat
  sos_tap : ldc1612_ng_homing_sos_tap F
  deriving DecidableEq, Repr

/-- The record `struct ldc1612_ng`, without the timer, bus and pin handles.
The trigger channel pointer `ts` is the object id it was looked up from, `0`
for `NULL`. -/
structure ldc1612_ng (F : Type) where
  sensor_cvt : F
  rest_ticks : Nat
  flags : Nat
  last_status : Nat
  last_read_value : Nat
  ts : Nat
  success_reason : Nat
  other_reason_base : Nat
  sos_filter : sosfilter_sos F
  homing : ldc1612_ng_homing F
  buf_next : Nat
  seq_next : Nat
  overflows : Nat
  buffer : List Nat
  deriving DecidableEq, Repr

/-- What the code does to the outside world. -/
inductive Event where
  /-- The call `trsync_do_trigger(ld->ts, reason)`; `mode` is the session mode
  stored in the channel at the moment of the call. -/
  | trigger (ts reason mode : Nat)
  /-- The message `ldc1612_ng_data oid seq ov data`. -/
  | data (oid seq ov : Nat) (payload : List Nat)
  /-- The message `ldc1612_ng_finish_home_reply`. -/
  | finish_home_reply (oid trigger_clock tap_start_clock error : Nat)
  deriving DecidableEq, Repr

/-- Whether an event is a call of the trigger channel. -/
def Event.isTrigger : Event → Bool
  | Event.trigger _ _ _ => true
  | _ => false

/-- The trigger-channel notifications among a list of events. -/
def triggers (evs : List Event) : List Event := evs.filter Event.isTrigger

/-- Result of a function that returns a value and may touch the channel. -/
structure Ret (F : Type) (α : Type) where
  val : α
  ld : ldc1612_ng F
  events : List Event

/-- Result of a `void` function: new channel state, events, and the message of
`shutdown` when the function stopped the machine. -/
structure Step (F : Type) where
  ld : ldc1612_ng F
  events : List Event
  fatal : Option String

/-- Result of processing one sample: as `Step`, together with the value
returned by the call of `check_safe_start`, when one was made. -/
structure SampleStep (F : Type) where
  ld : ldc1612_ng F
  events : List Event
  fatal : Option String
  gate : Option Bool

variable {F : Type} [FloatOps F]

/-! ## The trigger channel -/

/-- Modelled from the spec: `trsync_do_trigger` belongs to the external trigger
channel (`trsync.h`); the call is recorded with the handle, the reason code and
the session mode that is stored when the call is made. -/
def trsync_do_trigger (ld : ldc1612_ng F) (reason : Nat) : Event :=
  Event.trigger ld.ts reason ld.homing.mode

/-- The function `notify_trigger`; `reason` is a `uint8_t` parameter. -/
def notify_trigger (ld : ldc1612_ng F) (_time : Nat) (reason : Nat) : Ret F Unit :=
  let ld1 : ldc1612_ng F := { ld with homing := { ld.homing with mode := 0 } }
  { val := (), ld := ld1, events := [trsync_do_trigger ld1 (reason % 256)] }

/-! ## The cascaded biquad filter -/

/-- The loop of `sosfilter`: `n` iterations remain, `k` is the loop counter and
`p` the position of the moving coefficient pointer `sos`. -/
def sosfilter_loop (sos : List F) : Nat → Nat → Nat → F → List F → F × List F
  | 0, _, _, value, state => (value, state)
  | n + 1, k, p, value, state =>
    let w1 := state.getD (2 * k) FloatOps.zero
    let w2 := state.getD (2 * k + 1) FloatOps.zero
    let b0 := sos.getD p FloatOps.zero
    let b1 := sos.getD (p + 1) FloatOps.zero
    let b2 := sos.getD (p + 2) FloatOps.zero
    let a1 := sos.getD (p + 4) FloatOps.zero
    let a2 := sos.getD (p + 5) FloatOps.zero
    let w0 := FloatOps.sub (FloatOps.sub value (FloatOps.mul a1 w1)) (FloatOps.mul a2 w2)
    let value1 := FloatOps.add (FloatOps.add (FloatOps.mul b0 w0) (FloatOps.mul b1 w1))
      (FloatOps.mul b2 w2)
    let state1 := (state.set (2 * k) w0).set (2 * k + 1) w1
    sosfilter_loop sos n (k + 1) (p + 6) value1 state1

/-- The function `sosfilter`: the filtered value and the updated delay state. -/
def sosfilter (value : F) (filter : sosfilter_sos F) (state : List F) : F × List F :=
  sosfilter_loop filter.sos filter.num_sections 0 0 value state

/-! ## Error and safety gates -/

/-- The function `check_error`. -/
def check_error (ld : ldc1612_ng F) (data _time : Nat) : Ret F Bool :=
  if SAMPLE_ERR data = 0 then
    { val := true, ld := { ld with homing := { ld.homing with error_count := 0 } }, events := [] }
  else
    let is_tap : Bool := decide (ld.homing.mode > 0)
    if (!is_tap) && decide (ld.last_status &&& STATUS_ERR_AHE ≠ 0) then
      { val := false, ld := { ld with homing := { ld.homing with error_count := 0 } },
        events := [] }
    else
      let ld1 : ldc1612_ng F :=
        { ld with homing := { ld.homing with error_count := (ld.homing.error_count + 1) % 256 } }
      if ld1.homing.error_count ≤ ld1.homing.error_threshold then
        { val := false, ld := ld1, events := [] }
      else
        let ld2 : ldc1612_ng F := { ld1 with homing := { ld1.homing with error := data } }
        let r := notify_trigger ld2 0 (ld2.other_reason_base + REASON_ERROR_SENSOR)
        { val := false, ld := r.ld, events := r.events }

/-- The function `check_safe_start`. -/
def check_safe_start (ld : ldc1612_ng F) (data time : Nat) : Ret F Bool :=
  let is_tap : Bool := decide (ld.homing.mode > 0)
  if ld.homing.safe_start_freq = 0 then
    { val := true, ld := ld, events := [] }
  else if data < ld.homing.safe_start_freq then
    { val := false, ld := ld, events := [] }
  else if ld.homing.safe_start_time ≠ 0 ∧ timer_is_before time ld.homing.safe_start_time = true then
    let r := notify_trigger ld 0 (ld.other_reason_base + REASON_ERROR_TOO_EARLY)
    { val := false, ld := r.ld, events := r.events }
  else if is_tap = true ∧ ld.homing.homing_trigger_freq ≠ 0 then
    { val := false,
      ld := { ld with homing := { ld.homing with
                safe_start_freq := ld.homing.homing_trigger_freq,
                homing_trigger_freq := 0 } },
      events := [] }
  else
    { val := true, ld := { ld with homing := { ld.homing with safe_start_freq := 0 } },
      events := [] }

/-! ## Detectors -/

/-- The function `check_homing`. -/
def check_homing (ld : ldc1612_ng F) (data time : Nat) : SampleStep F :=
  let e := check_error ld data time
  if e.val = false then
    { ld := e.ld, events := e.events, fatal := none, gate := none }
  else
    let g := check_safe_start e.ld data time
    if g.val = false then
      { ld := g.ld, events := e.events ++ g.events, fatal := none, gate := some false }
    else if data > g.ld.homing.homing_trigger_freq then
      let r := notify_trigger g.ld time g.ld.success_reason
      { ld := { r.ld with homing := { r.ld.homing with trigger_time := time } },
        events := e.events ++ g.events ++ r.events, fatal := none, gate := some true }
    else
      { ld := g.ld, events := e.events ++ g.events, fatal := none, gate := some true }

/-- The filtered value that `check_sos_tap` computes for a sample when it
reaches the filter: `sosfilter(data * sensor_cvt - frequency_offset, ...)`. -/
def tap_filter (ld : ldc1612_ng F) (data : Nat) : F × List F :=
  sosfilter (FloatOps.sub (FloatOps.mul (FloatOps.ofNat data) ld.sensor_cvt)
      ld.homing.sos_tap.frequency_offset)
    ld.sos_filter ld.homing.sos_tap.state

/-- The function `check_sos_tap`. -/
def check_sos_tap (ld : ldc1612_ng F) (data time : Nat) : SampleStep F :=
  let e := check_error ld data time
  if e.val = false then
    { ld := e.ld, events := e.events, fatal := none, gate := none }
  else
    let freq : F := FloatOps.mul (FloatOps.ofNat data) e.ld.sensor_cvt
    if e.ld.homing.homing_trigger_freq ≠ 0 then
      let ld1 : ldc1612_ng F :=
        { e.ld with homing := { e.ld.homing with
            sos_tap := { e.ld.homing.sos_tap with frequency_offset := freq } } }
      let g := check_safe_start ld1 data time
      if g.val = true then
        { ld := g.ld, events := e.events ++ g.events, fatal := some "bug", gate := some true }
      else
        { ld := g.ld, events := e.events ++ g.events, fatal := none, gate := some false }
    else
      let fv := sosfilter (FloatOps.sub freq e.ld.homing.sos_tap.frequency_offset)
        e.ld.sos_filter e.ld.homing.sos_tap.state
      let val : F := fv.1
      let ld1 : ldc1612_ng F :=
        { e.ld with homing := { e.ld.homing with
            sos_tap := { e.ld.homing.sos_tap with state := fv.2 } } }
      let g := check_safe_start ld1 data time
      if g.val = false then
        { ld := g.ld, events := e.events ++ g.events, fatal := none, gate := some false }
      else if FloatOps.lt val g.ld.homing.sos_tap.last_value = true then
        let diff : F := FloatOps.sub g.ld.homing.sos_tap.tap_start_value val
        if FloatOps.le g.ld.homing.sos_tap.tap_threshold diff = true then
          let ld2 : ldc1612_ng F := { g.ld with homing := { g.ld.homing with trigger_time := time } }
          let r := notify_trigger ld2 time ld2.success_reason
          { ld := r.ld, events := e.events ++ g.events ++ r.events, fatal := none,
            gate := some true }
        else
          { ld := { g.ld with homing := { g.ld.homing with
                      sos_tap := { g.ld.homing.sos_tap with last_value := val } } },
            events := e.events ++ g.events, fatal := none, gate := some true }
      else if FloatOps.lt g.ld.homing.sos_tap.last_value val = true then
        let ld2 : ldc1612_ng F :=
          { g.ld with homing := { g.ld.homing with
              tap_start_time := time,
              sos_tap := { g.ld.homing.sos_tap with tap_start_value := val } } }
        { ld := { ld2 with homing := { ld2.homing with
                    sos_tap := { ld2.homing.sos_tap with last_value := val } } },
          events := e.events ++ g.events, fatal := none, gate := some true }
      else
        { ld := { g.ld with homing := { g.ld.homing with
                    sos_tap := { g.ld.homing.sos_tap with last_value := val } } },
          events := e.events ++ g.events, fatal := none, gate := some true }

/-! ## Sample buffer and dispatcher -/

/-- The function `flush_buffer`. -/
def flush_buffer (ld : ldc1612_ng F) (oid : Nat) : Ret F Unit :=
  if ld.buf_next = 0 then
    { val := (), ld := ld, events := [] }
  else
    { val := (),
      ld := { ld with seq_next := (ld.seq_next + 1) % 256, buf_next := 0, overflows := 0 },
      events := [Event.data oid ld.seq_next ld.overflows (ld.buffer.take ld.buf_next)] }

/-- What the chip and the clock deliver at one data-ready event: the status
word of `read_reg_status`, the value of `timer_read_time` and the 32-bit
DATA0 word. -/
structure Sample where
  status : Nat
  time : Nat
  data : Nat
  deriving DecidableEq, Repr

/-- The statements of `ldc1612_ng_update` that record a sample that was read:
`last_read_value` and the two buffer writes `ld->buffer[ld->buf_next++] = ...`. -/
def update_store (ld : ldc1612_ng F) (s : Sample) : ldc1612_ng F :=
  let ld1 : ldc1612_ng F := { ld with last_read_value := s.data }
  let ld2 : ldc1612_ng F :=
    { ld1 with buffer := ld1.buffer.set ld1.buf_next s.time,
               buf_next := (ld1.buf_next + 1) % 256 }
  { ld2 with buffer := ld2.buffer.set ld2.buf_next s.data,
             buf_next := (ld2.buf_next + 1) % 256 }

/-- The statement `switch (ld->homing.mode)` of `ldc1612_ng_update`. -/
def update_switch (ld : ldc1612_ng F) (s : Sample) : SampleStep F :=
  if ld.homing.mode = HOME_MODE_HOME then check_homing ld s.data s.time
  else if ld.homing.mode = HOME_MODE_SOS then check_sos_tap ld s.data s.time
  else { ld := ld, events := [], fatal := none, gate := none }

/-- The end of `ldc1612_ng_update`: the buffer is flushed when it is full,
unless a detector has stopped the machine before. -/
def update_flush (BUF_COUNT32_MAX : Nat) (oid : Nat) (r : SampleStep F) : SampleStep F :=
  if r.fatal ≠ none then r
  else if r.ld.buf_next ≥ BUF_COUNT32_MAX then
    let f := flush_buffer r.ld oid
    { ld := f.ld, events := r.events ++ f.events, fatal := none, gate := r.gate }
  else r

/-- The function `ldc1612_ng_update`.  `BUF_COUNT32_MAX` is the compile-time
constant of that name, which depends on `MESSAGE_PAYLOAD_MAX` of the transport. -/
def ldc1612_ng_update (BUF_COUNT32_MAX : Nat) (ld : ldc1612_ng F) (oid : Nat) (s : Sample) :
    SampleStep F :=
  let ld0 : ldc1612_ng F := { ld with last_status := s.status, flags := ld.flags &&& 254 }
  if s.status &&& STATUS_UNREADCONV0 = 0 then
    { ld := ld0, events := [], fatal := none, gate := none }
  else
    update_flush BUF_COUNT32_MAX oid (update_switch (update_store ld0 s) s)

/-- Processing of a sequence of data-ready events; a `shutdown` ends it. -/
def run (BUF_COUNT32_MAX : Nat) (oid : Nat) : ldc1612_ng F → List Sample → Step F
  | ld, [] => { ld := ld, events := [], fatal := none }
  | ld, s :: rest =>
    let r := ldc1612_ng_update BUF_COUNT32_MAX ld oid s
    if r.fatal ≠ none then
      { ld := r.ld, events := r.events, fatal := r.fatal }
    else
      let t := run BUF_COUNT32_MAX oid r.ld rest
      { ld := t.ld, events := r.events ++ t.events, fatal := t.fatal }

/-! ## Session commands -/

/-- The arguments `args[1..9]` of `ldc1612_ng_setup_home`, as 32-bit words. -/
structure SetupHomeArgs where
  trsync_oid : Nat
  trigger_reason : Nat
  other_reason_base : Nat
  trigger_freq : Nat
  start_freq : Nat
  start_time : Nat
  mode : Nat
  tap_threshold : Nat
  err_max : Nat
  deriving DecidableEq, Repr

/-- The session record after `memset(lh, 0, sizeof(*lh))`. -/
def homing_zero : ldc1612_ng_homing F :=
  { mode := 0, safe_start_freq := 0, safe_start_time := 0, homing_trigger_freq := 0,
    trigger_time := 0, tap_start_time := 0, error_count := 0, error_threshold := 0, error := 0,
    sos_tap := { state := List.replicate (MAX_SOS_SECTIONS * 4) FloatOps.zero,
                 tap_threshold := FloatOps.zero, frequency_offset := FloatOps.zero,
                 tap_start_value := FloatOps.zero, last_value := FloatOps.zero } }

/-- The function `command_ldc1612_ng_setup_home` (the arm command). -/
def command_ldc1612_ng_setup_home (ld : ldc1612_ng F) (a : SetupHomeArgs) : Step F :=
  let trigger_reason := a.trigger_reason % 256
  let other_reason_base := a.other_reason_base % 256
  let mode := a.mode % 256
  let tap_threshold : Int := toInt32 a.tap_threshold
  let err_max := a.err_max % 256
  if a.trigger_freq = 0 ∨ a.trsync_oid = 0 then
    { ld := { ld with ts := 0, homing := { ld.homing with mode := 0 } },
      events := [], fatal := none }
  else if ld.rest_ticks = 0 then
    let r := notify_trigger ld 0 other_reason_base
    { ld := r.ld, events := r.events, fatal := none }
  else if ld.homing.mode > 0 then
    let r := notify_trigger ld 0 other_reason_base
    { ld := r.ld, events := r.events, fatal := none }
  else
    let lh : ldc1612_ng_homing F :=
      { (homing_zero : ldc1612_ng_homing F) with
        safe_start_freq := a.start_freq,
        safe_start_time := a.start_time,
        homing_trigger_freq := a.trigger_freq,
        error_threshold := err_max,
        mode := mode }
    let ld1 : ldc1612_ng F :=
      { ld with homing := lh, ts := a.trsync_oid, success_reason := trigger_reason,
                other_reason_base := other_reason_base }
    if mode = HOME_MODE_HOME then
      { ld := ld1, events := [], fatal := none }
    else if mode = HOME_MODE_SOS then
      { ld := { ld1 with homing := { ld1.homing with
                  sos_tap := { ld1.homing.sos_tap with
                    tap_threshold :=
                      FloatOps.div (FloatOps.ofInt tap_threshold) (FloatOps.ofNat 65536) } } },
        events := [], fatal := none }
    else
      { ld := ld1, events := [], fatal := some "bad homing mode" }

/-- The function `command_ldc1612_ng_finish_home`. -/
def command_ldc1612_ng_finish_home (ld : ldc1612_ng F) (oid : Nat) : Step F :=
  { ld := { ld with ts := 0, homing := { ld.homing with mode := 0 } },
    events := [Event.finish_home_reply oid ld.homing.trigger_time ld.homing.tap_start_time
      ld.homing.error],
    fatal := none }

/-! ## Predicates of the statements and concrete channels -/

/-- A step that emitted nothing, or exactly one trigger-channel notification
that saw mode `0` and left mode `0`. -/
def QuietOrDone (ld : ldc1612_ng F) (evs : List Event) : Prop :=
  evs = [] ∨ ((∃ ts reason, evs = [Event.trigger ts reason 0]) ∧ ld.homing.mode = 0)

/-- The trigger-channel view of `QuietOrDone`. -/
def TrigQuietOrDone (ld : ldc1612_ng F) (evs : List Event) : Prop :=
  triggers evs = [] ∨
    ((∃ ts reason, triggers evs = [Event.trigger ts reason 0]) ∧ ld.homing.mode = 0)

/-- What a run can have emitted on the trigger channel: nothing, or one
notification that saw mode `0`, after which the session is inactive and the
machine has not been stopped. -/
def RunQuietOrDone (r : Step F) : Prop :=
  triggers r.events = [] ∨
    ((∃ ts reason, triggers r.events = [Event.trigger ts reason 0]) ∧
      r.ld.homing.mode = 0 ∧ r.fatal = none)

/-- A started channel over `ℚ` with an empty filter bank, conversion factor
`1/2` and room for 12 buffered words. -/
def exampleChannel : ldc1612_ng ℚ :=
  { sensor_cvt := 1 / 2, rest_ticks := 1000, flags := 0, last_status := 0, last_read_value := 0,
    ts := 0, success_reason := 0, other_reason_base := 0,
    sos_filter := { num_sections := 0, sos := List.replicate 24 0 },
    homing := homing_zero,
    buf_next := 0, seq_next := 0, overflows := 0, buffer := List.replicate 12 0 }

/-- Arm arguments of a Home session with trigger threshold 3000. -/
def exampleHomeArgs : SetupHomeArgs :=
  { trsync_oid := 5, trigger_reason := 1, other_reason_base := 10, trigger_freq := 3000,
    start_freq := 0, start_time := 0, mode := 1, tap_threshold := 0, err_max := 2 }

/-- Arm arguments of a Tap session without a start-value threshold. -/
def exampleTapArgsNoStart : SetupHomeArgs :=
  { trsync_oid := 5, trigger_reason := 1, other_reason_base := 10, trigger_freq := 3000,
    start_freq := 0, start_time := 0, mode := 3, tap_threshold := 26214, err_max := 2 }

/-- A Tap session over `ℚ` whose gate has opened: empty filter bank (the
filtered value of raw `d` is `d / 2`), tap threshold `2/5`, trigger channel 5,
success reason 1, nothing tracked yet. -/
def exampleTapOpen : ldc1612_ng ℚ :=
  { exampleChannel with
    ts := 5, success_reason := 1, other_reason_base := 10,
    homing := { (homing_zero : ldc1612_ng_homing ℚ) with
      mode := 3, error_threshold := 2,
      sos_tap := { (homing_zero : ldc1612_ng_homing ℚ).sos_tap with tap_threshold := 2 / 5 } } }

/-- The session `exampleTapOpen` after filtered values `1, 2, 3` at times
`100, 200, 300`: the running peak is `3`, recorded at time `300`. -/
def exampleTapAtPeak : ldc1612_ng ℚ :=
  { exampleTapOpen with
    homing := { exampleTapOpen.homing with
      tap_start_time := 300,
      sos_tap := { exampleTapOpen.homing.sos_tap with tap_start_value := 3, last_value := 3 } } }

/-- The sample `s`, arriving in state `ld`, is routed to the tap detector and
reaches its peak evaluation: the safety gate reported ready and the machine
was not stopped. -/
def peak_eval (B oid : Nat) (ld : ldc1612_ng F) (s : Sample) : Prop :=
  ld.homing.mode = HOME_MODE_SOS ∧ (ldc1612_ng_update B ld oid s).gate = some true ∧
    (ldc1612_ng_update B ld oid s).fatal = none

instance (B oid : Nat) (ld : ldc1612_ng F) (s : Sample) : Decidable (peak_eval B oid ld s) := by
  unfold peak_eval
  infer_instance

/-- The sample `s` reaches peak evaluation in state `ld` and its filtered value
is strictly above the previous filtered value. -/
def rises (B oid : Nat) (ld : ldc1612_ng F) (s : Sample) : Prop :=
  peak_eval B oid ld s ∧
    FloatOps.lt ld.homing.sos_tap.last_value (tap_filter ld s.data).1 = true

instance (B oid : Nat) (ld : ldc1612_ng F) (s : Sample) : Decidable (rises B oid ld s) := by
  unfold rises
  infer_instance

/-- The state in which `ldc1612_ng_update` calls a detector for sample `s`. -/
def at_switch (ld : ldc1612_ng F) (s : Sample) : ldc1612_ng F :=
  update_store ({ ld with last_status := s.status, flags := ld.flags &&& 254 }) s

/-- Closed form of the session record after a sample that reaches peak
evaluation; `update_peak` proves that `ldc1612_ng_update` computes it. -/
def peak_homing (ld : ldc1612_ng F) (s : Sample) : ldc1612_ng_homing F :=
  if FloatOps.lt (tap_filter ld s.data).1 ld.homing.sos_tap.last_value = true then
    if FloatOps.le ld.homing.sos_tap.tap_threshold
        (FloatOps.sub ld.homing.sos_tap.tap_start_value (tap_filter ld s.data).1) = true then
      { ld.homing with
          mode := 0, safe_start_freq := 0, error_count := 0, trigger_time := s.time,
          sos_tap := { ld.homing.sos_tap with state := (tap_filter ld s.data).2 } }
    else
      { ld.homing with
          safe_start_freq := 0, error_count := 0,
          sos_tap := { ld.homing.sos_tap with
            state := (tap_filter ld s.data).2, last_value := (tap_filter ld s.data).1 } }
  else if FloatOps.lt ld.homing.sos_tap.last_value (tap_filter ld s.data).1 = true then
    { ld.homing with
        safe_start_freq := 0, error_count := 0, tap_start_time := s.time,
        sos_tap := { ld.homing.sos_tap with
          state := (tap_filter ld s.data).2,
          tap_start_value := (tap_filter ld s.data).1,
          last_value := (tap_filter ld s.data).1 } }
  else
    { ld.homing with
        safe_start_freq := 0, error_count := 0,
        sos_tap := { ld.homing.sos_tap with
          state := (tap_filter ld s.data).2, last_value := (tap_filter ld s.data).1 } }

/-- Closed form of the trigger-channel calls of a sample that reaches peak
evaluation; `update_peak` proves that `ldc1612_ng_update` makes them. -/
def peak_triggers (ld : ldc1612_ng F) (s : Sample) : List Event :=
  if FloatOps.lt (tap_filter ld s.data).1 ld.homing.sos_tap.last_value = true ∧
      FloatOps.le ld.homing.sos_tap.tap_threshold
        (FloatOps.sub ld.homing.sos_tap.tap_start_value (tap_filter ld s.data).1) = true then
    [Event.trigger ld.ts (ld.success_reason % 256) 0]
  else []

/-- No sample of `q` rises when `q` is processed after the samples `pre`,
starting in state `ld0`. -/
def no_rise_after (B oid : Nat) (ld0 : ldc1612_ng F) (pre q : List Sample) : Prop :=
  ∀ q1 r q2, q = q1 ++ r :: q2 → ¬ rises B oid (run B oid ld0 (pre ++ q1)).ld r

/-- The sample `s`, arriving in state `ld`, makes the tap detector notify
success: it reaches peak evaluation and the trigger channel is called. -/
def tap_success (B oid : Nat) (ld : ldc1612_ng F) (s : Sample) : Prop :=
  peak_eval B oid ld s ∧ triggers (ldc1612_ng_update B ld oid s).events ≠ []

instance (B oid : Nat) (ld : ldc1612_ng F) (s : Sample) :
    Decidable (tap_success B oid ld s) := by
  unfold tap_success
  infer_instance

/-- Arm arguments of a Tap session with start-value threshold 1000,
trigger-value threshold 2000 and tap threshold `26214 / 65536`. -/
def exampleTapArgs : SetupHomeArgs :=
  { trsync_oid := 5, trigger_reason := 1, other_reason_base := 10, trigger_freq := 2000,
    start_freq := 1000, start_time := 0, mode := 3, tap_threshold := 26214, err_max := 2 }

/-- The channel `exampleChannel` after arming with `exampleTapArgs`. -/
def exampleTapArmed : ldc1612_ng ℚ :=
  (command_ldc1612_ng_setup_home exampleChannel exampleTapArgs).ld

/-- No sample of `pre`, processed from state `ld0`, reaches peak evaluation. -/
def no_peak_eval (B oid : Nat) (ld0 : ldc1612_ng F) (pre : List Sample) : Prop :=
  ∀ p r q, pre = p ++ r :: q → ¬ peak_eval B oid (run B oid ld0 p).ld r

/-- Arm arguments as `exampleTapArgs`, with tap threshold `131072 / 65536 = 2`. -/
def exampleTapArgsWide : SetupHomeArgs :=
  { exampleTapArgs with tap_threshold := 131072 }

/-- The channel `exampleChannel` after arming with `exampleTapArgsWide`. -/
def exampleTapArmedWide : ldc1612_ng ℚ :=
  (command_ldc1612_ng_setup_home exampleChannel exampleTapArgsWide).ld

/-- A Tap session over `ℚ` whose gate has opened, with conversion factor
`1/10` and tap threshold `1/10`. -/
def examplePlateauOpen : ldc1612_ng ℚ :=
  { exampleTapOpen with
    sensor_cvt := 1 / 10,
    homing := { exampleTapOpen.homing with
      sos_tap := { exampleTapOpen.homing.sos_tap with tap_threshold := 1 / 10 } } }

/-- The sample is too early for the start-time threshold `T`: a threshold is
configured and the timestamp precedes it in the timer ordering. -/
def too_early (T time : Nat) : Prop := T ≠ 0 ∧ timer_is_before time T = true

instance (T time : Nat) : Decidable (too_early T time) := by
  unfold too_early
  infer_instance

/-- Arm arguments of a Home session with start-value threshold 1000 that must
be crossed at or after time 5000. -/
def exampleHomeArgsTimed : SetupHomeArgs :=
  { exampleHomeArgs with start_freq := 1000, start_time := 5000 }

/-- Samples that were read and carry error flags. -/
def flagged (s : Sample) : Prop :=
  s.status &&& STATUS_UNREADCONV0 ≠ 0 ∧ SAMPLE_ERR s.data ≠ 0

instance (s : Sample) : Decidable (flagged s) := by
  unfold flagged
  infer_instance

/-- A sample with the amplitude error flag set. -/
def exampleErrorSample : Sample := ⟨8, 100, 2 ^ 28⟩

/-- Arm arguments of a Home session that tolerates 255 consecutive errors. -/
def exampleHomeArgsMaxErrors : SetupHomeArgs :=
  { exampleHomeArgs with err_max := 255 }

/-- Samples that were read and carry no error flags. -/
def clean (s : Sample) : Prop :=
  s.status &&& STATUS_UNREADCONV0 ≠ 0 ∧ SAMPLE_ERR s.data = 0

instance (s : Sample) : Decidable (clean s) := by
  unfold clean
  infer_instance

/-- The safety gate is called for sample `s`, arriving in state `ld`, and
reports ready. -/
def gate_ready (B oid : Nat) (ld : ldc1612_ng F) (s : Sample) : Prop :=
  (ldc1612_ng_update B ld oid s).gate = some true

instance (B oid : Nat) (ld : ldc1612_ng F) (s : Sample) : Decidable (gate_ready B oid ld s) := by
  unfold gate_ready
  infer_instance

/-- The gate reports ready on no sample of `pre`, processed from state `ld0`. -/
def never_ready (B oid : Nat) (ld0 : ldc1612_ng F) (pre : List Sample) : Prop :=
  ∀ p r q, pre = p ++ r :: q → ¬ gate_ready B oid (run B oid ld0 p).ld r

/-- A Tap session before the promotion: both thresholds are configured. -/
def phaseA (V1 V2 T : Nat) (ld : ldc1612_ng F) : Prop :=
  ld.homing.mode = HOME_MODE_SOS ∧ ld.homing.safe_start_freq = V1 ∧
    ld.homing.homing_trigger_freq = V2 ∧ ld.homing.safe_start_time = T

/-- A Tap session after the promotion, gate still closed. -/
def phaseB (V2 T : Nat) (ld : ldc1612_ng F) : Prop :=
  ld.homing.mode = HOME_MODE_SOS ∧ ld.homing.safe_start_freq = V2 ∧
    ld.homing.homing_trigger_freq = 0 ∧ ld.homing.safe_start_time = T

/-- A Tap session whose gate is open. -/
def phaseC (ld : ldc1612_ng F) : Prop :=
  ld.homing.mode = HOME_MODE_SOS ∧ ld.homing.safe_start_freq = 0 ∧
    ld.homing.homing_trigger_freq = 0

/-- The state of a Tap session armed with thresholds `V1`, `V2` and start time
`T` after the error-free samples `pre`: it has ended with a notification, or
nothing was notified and it is before the promotion (no sample reached `V1`),
after the promotion with the gate still closed, or past the first ready
report of the gate. -/
def gate_inv (B oid V1 V2 T : Nat) (ld0 : ldc1612_ng F) (pre : List Sample) : Prop :=
  (run B oid ld0 pre).fatal = none ∧
  (((run B oid ld0 pre).ld.homing.mode = 0 ∧ triggers (run B oid ld0 pre).events ≠ []) ∨
   (triggers (run B oid ld0 pre).events = [] ∧
     ((phaseA V1 V2 T (run B oid ld0 pre).ld ∧ (∀ r ∈ pre, r.data < V1) ∧
        never_ready B oid ld0 pre) ∨
      (phaseB V2 T (run B oid ld0 pre).ld ∧ (∃ r ∈ pre, V1 ≤ r.data) ∧
        never_ready B oid ld0 pre) ∨
      (phaseC (run B oid ld0 pre).ld ∧ ¬ never_ready B oid ld0 pre))))

/-- Arm arguments as `exampleTapArgs`, with start-time threshold 150. -/
def exampleTapArgsTimed : SetupHomeArgs :=
  { exampleTapArgs with start_time := 150 }

/-- Arm arguments of a Home session that tolerates no error at all. -/
def exampleHomeArgsNoErrors : SetupHomeArgs :=
  { exampleHomeArgs with err_max := 0 }

/-- Arm arguments of a Home session with trigger threshold 3000 and
start-value threshold 1000. -/
def exampleHomeArgsStart : SetupHomeArgs :=
  { exampleHomeArgs with start_freq := 1000 }

/-- Arm arguments of a Home session with trigger threshold 3000 and
start-value threshold 5000. -/
def exampleHomeArgsHighStart : SetupHomeArgs :=
  { exampleHomeArgs with start_freq := 5000 }

/-- The function `ldc1612_ng_timer_event`; `intb_asserted` is the value of
`check_intb_asserted`.  Waking the task and rescheduling the timer are not
modelled. -/
def ldc1612_ng_timer_event (ld : ldc1612_ng F) (intb_asserted : Bool) : ldc1612_ng F :=
  let ld1 : ldc1612_ng F :=
    if ld.flags &&& LDC_PENDING ≠ 0 then { ld with overflows := (ld.overflows + 1) % 256 }
    else ld
  if ld1.flags &&& LDC_HAVE_INTB = 0 ∨ intb_asserted = true then
    { ld1 with flags := ld1.flags ||| LDC_PENDING }
  else ld1

/-- A sequence of timer events, one for each reading of the ready pin. -/
def timer_ticks (ld : ldc1612_ng F) (pins : List Bool) : ldc1612_ng F :=
  pins.foldl ldc1612_ng_timer_event ld

/-- The channel `exampleChannel` with a read pending. -/
def examplePending : ldc1612_ng ℚ :=
  { exampleChannel with flags := LDC_PENDING }

/-- The arguments of `ldc1612_ng_set_sos_section`: `args[1]`, `args[2]` and the
floats that the payload bytes behind `args[3]` encode. -/
structure SosSectionArgs (F : Type) where
  section_idx : Nat
  values_len : Nat
  values : List F

/-- The call `memcpy(&sos[off], data, 4*6)`: six floats are written at
`off .. off + 5`.  A write outside the list, which is undefined in C, is
dropped here; `sos_write_indices` names the indices that are written. -/
def memcpy_sos (sos : List F) (off : Nat) (data : List F) : List F :=
  (((((sos.set off (data.getD 0 FloatOps.zero)).set (off + 1) (data.getD 1 FloatOps.zero)).set
    (off + 2) (data.getD 2 FloatOps.zero)).set (off + 3) (data.getD 3 FloatOps.zero)).set
    (off + 4) (data.getD 4 FloatOps.zero)).set (off + 5) (data.getD 5 FloatOps.zero)

/-- The indices of `sos_filter.sos` that `ldc1612_ng_set_sos_section` writes
for a 24-byte payload: `section*6 .. section*6 + 5`, `section` being 8 bits. -/
def sos_write_indices (section_idx : Nat) : List Nat :=
  (List.range 6).map (fun i => (section_idx % 256) * 6 + i)

/-- The function `command_ldc1612_ng_set_sos_section`. -/
def command_ldc1612_ng_set_sos_section (ld : ldc1612_ng F) (a : SosSectionArgs F) : Step F :=
  let sect := a.section_idx % 256
  let values_len := a.values_len % 256
  if values_len = 0 then
    { ld := { ld with sos_filter := { ld.sos_filter with num_sections := 0 } },
      events := [], fatal := none }
  else if values_len ≠ 4 * 6 then
    { ld := ld, events := [], fatal := some "ldc1612_ng: wrong sos section length" }
  else
    { ld := { ld with sos_filter :=
                { num_sections := (sect + 1) % 256,
                  sos := memcpy_sos ld.sos_filter.sos (sect * 6) a.values } },
      events := [], fatal := none }

/-- Loading the payloads of a list as sections `k, k + 1, ...` with 24-byte
load commands, one after the other; a `shutdown` ends the sequence. -/
def load_sections : ldc1612_ng F → Nat → List (List F) → Step F
  | ld, _, [] => { ld := ld, events := [], fatal := none }
  | ld, k, p :: rest =>
    let r := command_ldc1612_ng_set_sos_section ld ⟨k, 24, p⟩
    if r.fatal ≠ none then r
    else
      let t := load_sections r.ld (k + 1) rest
      { ld := t.ld, events := r.events ++ t.events, fatal := t.fatal }

/-- One biquad section in the words of the specification: from the
coefficients `b0, b1, b2, a1, a2`, the delay pair `w1, w2` and the input, the
output and the new delay pair:
`w0 = in - a1*w1 - a2*w2; out = b0*w0 + b1*w1 + b2*w2; (w1, w2) := (w0, w1)`. -/
def biquad_section (b0 b1 b2 a1 a2 w1 w2 inp : F) : F × F × F :=
  let w0 := FloatOps.sub (FloatOps.sub inp (FloatOps.mul a1 w1)) (FloatOps.mul a2 w2)
  (FloatOps.add (FloatOps.add (FloatOps.mul b0 w0) (FloatOps.mul b1 w1)) (FloatOps.mul b2 w2),
    w0, w1)

/-- Section `k` of the specification applied to a pair of input value and
delay state: its coefficients are entries `6k, 6k+1, 6k+2, 6k+4, 6k+5` of the
bank and its delay pair is entries `2k, 2k+1` of the state. -/
def sos_section_step (sos : List F) (acc : F × List F) (k : Nat) : F × List F :=
  let r := biquad_section (sos.getD (6 * k) FloatOps.zero) (sos.getD (6 * k + 1) FloatOps.zero)
    (sos.getD (6 * k + 2) FloatOps.zero) (sos.getD (6 * k + 4) FloatOps.zero)
    (sos.getD (6 * k + 5) FloatOps.zero)
    (acc.2.getD (2 * k) FloatOps.zero) (acc.2.getD (2 * k + 1) FloatOps.zero) acc.1
  (r.1, (acc.2.set (2 * k) r.2.1).set (2 * k + 1) r.2.2)

/-- The filter in the words of the specification: the left-to-right fold of
the section step over the sections `k = 0 .. n - 1`, each output being the
input of the next section. -/
def sosfilter_spec (n : Nat) (sos : List F) (x : F) (state : List F) : F × List F :=
  (List.range n).foldl (sos_section_step sos) (x, state)

/-- A bank of two sections over `ℚ`, followed by entries that no section of it
uses. -/
def exampleBank : sosfilter_sos ℚ :=
  { num_sections := 2,
    sos := [1, 2, 3, 100, 1 / 2, 1 / 4, 2, 0, 1, 100, 1 / 3, 0] ++ List.replicate 12 7 }

/-- The function `command_ldc1612_ng_start_stop`; the scheduling of the timer
is not modelled. -/
def command_ldc1612_ng_start_stop (ld : ldc1612_ng F) (oid rest_ticks : Nat) : Step F :=
  let ld1 : ldc1612_ng F := { ld with flags := ld.flags &&& 254, rest_ticks := rest_ticks }
  if ld1.rest_ticks = 0 then
    let f := flush_buffer ld1 oid
    { ld := f.ld, events := f.events, fatal := none }
  else
    { ld := { ld1 with buf_next := 0, seq_next := 0, overflows := 0 },
      events := [], fatal := none }

/-- The function `ldc1612_ng_task` for one channel: the sample is read only
when a read is pending. -/
def ldc1612_ng_task (BUF_COUNT32_MAX : Nat) (ld : ldc1612_ng F) (oid : Nat) (s : Sample) :
    SampleStep F :=
  if ld.flags &&& LDC_PENDING = 0 then
    { ld := ld, events := [], fatal := none, gate := none }
  else ldc1612_ng_update BUF_COUNT32_MAX ld oid s

/-- A run of the channel in time: each entry stands for the timer events that
arrive (one reading of the ready pin for each) and the run of the task that
follows them, with what the chip and the clock deliver to it. -/
def run_timed (BUF_COUNT32_MAX : Nat) (oid : Nat) :
    ldc1612_ng F → List (List Bool × Sample) → Step F
  | ld, [] => { ld := ld, events := [], fatal := none }
  | ld, e :: rest =>
    let r := ldc1612_ng_task BUF_COUNT32_MAX (timer_ticks ld e.1) oid e.2
    if r.fatal ≠ none then
      { ld := r.ld, events := r.events, fatal := r.fatal }
    else
      let t := run_timed BUF_COUNT32_MAX oid r.ld rest
      { ld := t.ld, events := r.events ++ t.events, fatal := t.fatal }

/-- Whether an event is a buffer-flush message. -/
def Event.isData : Event → Bool
  | Event.data _ _ _ _ => true
  | _ => false

/-- The buffer-flush messages among a list of events. -/
def data_events (evs : List Event) : List Event := evs.filter Event.isData

/-- The (timestamp, raw value) pairs of the samples of a timed run, in arrival
order, as 32-bit words. -/
def sample_words : List (List Bool × Sample) → List Nat
  | [] => []
  | e :: rest => e.2.time :: e.2.data :: sample_words rest

/-- An entry of a timed run whose sample is processed: the ready pin was
asserted at one of the timer events, and the status word reports an unread
conversion. -/
def processed (e : List Bool × Sample) : Prop :=
  true ∈ e.1 ∧ e.2.status &&& STATUS_UNREADCONV0 ≠ 0

instance (e : List Bool × Sample) : Decidable (processed e) := by
  unfold processed
  infer_instance

/-- Five processed samples, one timer event each. -/
def exampleFill : List (List Bool × Sample) :=
  [([true], ⟨STATUS_UNREADCONV0, 100, 1001⟩), ([true], ⟨STATUS_UNREADCONV0, 200, 1002⟩),
   ([true], ⟨STATUS_UNREADCONV0, 300, 1003⟩), ([true], ⟨STATUS_UNREADCONV0, 400, 1004⟩),
   ([true], ⟨STATUS_UNREADCONV0, 500, 1005⟩)]

/-- A sixth sample that is read after two timer events (one of them found the
previous read still pending), and a seventh. -/
def exampleSixth : List Bool × Sample := ([true, true], ⟨STATUS_UNREADCONV0, 600, 1006⟩)

/-- The seventh sample of the example. -/
def exampleSeventh : List Bool × Sample := ([false, true], ⟨STATUS_UNREADCONV0, 700, 1007⟩)

/-- A started channel without an active session that carries the leftovers of
an earlier Tap session: thresholds, counters, timestamps, a last error, filter
delay entries and peak tracking values, all non-zero. -/
def exampleLeftover : ldc1612_ng ℚ :=
  { exampleChannel with
    ts := 9, success_reason := 4, other_reason_base := 20,
    homing :=
      { mode := 0, safe_start_freq := 7, safe_start_time := 11, homing_trigger_freq := 13,
        trigger_time := 900, tap_start_time := 800, error_count := 3, error_threshold := 6,
        error := 2 ^ 28,
        sos_tap := { state := List.replicate 16 5, tap_threshold := 3, frequency_offset := 9,
                     tap_start_value := 8, last_value := 7 } } }

/-- The converted frequency `data * ld->sensor_cvt` that `check_sos_tap`
computes for a raw value. -/
def converted_freq (ld : ldc1612_ng F) (data : Nat) : F :=
  FloatOps.mul (FloatOps.ofNat data) ld.sensor_cvt

/-- The channel `exampleChannel` with the two-section bank `exampleBank`,
armed with `exampleTapArgs`: start-value threshold 1000, trigger-value
threshold 2000. -/
def exampleTapArmedBank : ldc1612_ng ℚ :=
  (command_ldc1612_ng_setup_home { exampleChannel with sos_filter := exampleBank }
    exampleTapArgs).ld

/-- One step in the life of a configured channel: a call of one of the
functions of the file that read or write `buf_next`, or of a session command. -/
inductive ChannelOp where
  /-- The command `ldc1612_ng_start_stop`: a start, or a stop when the rest
  period is `0`. -/
  | start_stop (rest_ticks : Nat)
  /-- A timer event, with the reading of the ready pin. -/
  | timer_event (intb_asserted : Bool)
  /-- A run of `ldc1612_ng_task`, with what the chip and the clock deliver. -/
  | task (s : Sample)
  /-- A call of `ldc1612_ng_update`. -/
  | update (s : Sample)
  /-- A call of `flush_buffer`. -/
  | flush
  /-- The command `ldc1612_ng_setup_home`. -/
  | setup_home (a : SetupHomeArgs)
  /-- The command `ldc1612_ng_finish_home`. -/
  | finish_home
  deriving DecidableEq, Repr

/-- The effect of one step on the channel. -/
def channel_op (BUF_COUNT32_MAX oid : Nat) (ld : ldc1612_ng F) : ChannelOp → Step F
  | ChannelOp.start_stop rest_ticks => command_ldc1612_ng_start_stop ld oid rest_ticks
  | ChannelOp.timer_event pin =>
    { ld := ldc1612_ng_timer_event ld pin, events := [], fatal := none }
  | ChannelOp.task s =>
    { ld := (ldc1612_ng_task BUF_COUNT32_MAX ld oid s).ld,
      events := (ldc1612_ng_task BUF_COUNT32_MAX ld oid s).events,
      fatal := (ldc1612_ng_task BUF_COUNT32_MAX ld oid s).fatal }
  | ChannelOp.update s =>
    { ld := (ldc1612_ng_update BUF_COUNT32_MAX ld oid s).ld,
      events := (ldc1612_ng_update BUF_COUNT32_MAX ld oid s).events,
      fatal := (ldc1612_ng_update BUF_COUNT32_MAX ld oid s).fatal }
  | ChannelOp.flush =>
    { ld := (flush_buffer ld oid).ld, events := (flush_buffer ld oid).events, fatal := none }
  | ChannelOp.setup_home a => command_ldc1612_ng_setup_home ld a
  | ChannelOp.finish_home => command_ldc1612_ng_finish_home ld oid

/-- A sequence of steps; a `shutdown` ends it. -/
def run_ops (BUF_COUNT32_MAX oid : Nat) : ldc1612_ng F → List ChannelOp → Step F
  | ld, [] => { ld := ld, events := [], fatal := none }
  | ld, op :: rest =>
    let r := channel_op BUF_COUNT32_MAX oid ld op
    if r.fatal ≠ none then r
    else
      let t := run_ops BUF_COUNT32_MAX oid r.ld rest
      { ld := t.ld, events := r.events ++ t.events, fatal := t.fatal }

/-- The buffer index invariant: `buf_next` is even and below `BUF_COUNT32_MAX`. -/
def buf_next_ok (BUF_COUNT32_MAX : Nat) (ld : ldc1612_ng F) : Prop :=
  ld.buf_next % 2 = 0 ∧ ld.buf_next < BUF_COUNT32_MAX

instance (B : Nat) (ld : ldc1612_ng F) : Decidable (buf_next_ok B ld) := by
  unfold buf_next_ok
  infer_instance

/-- The indices of `buffer` that `ldc1612_ng_update` writes for a sample that was
read: `buf_next`, and `buf_next` after the 8-bit increment. -/
def buffer_write_indices (ld : ldc1612_ng F) : List Nat :=
  [ld.buf_next, (ld.buf_next + 1) % 256]

/-- A history on the example channel: start, seven samples read after a timer
event each, a session armed in between, and a final stop and restart. -/
def exampleOps : List ChannelOp :=
  [ChannelOp.start_stop 1000,
   ChannelOp.timer_event true, ChannelOp.task ⟨8, 100, 1001⟩,
   ChannelOp.timer_event true, ChannelOp.task ⟨8, 200, 1002⟩,
   ChannelOp.setup_home exampleTapArgs,
   ChannelOp.timer_event true, ChannelOp.task ⟨8, 300, 1003⟩,
   ChannelOp.timer_event true, ChannelOp.task ⟨8, 400, 1004⟩,
   ChannelOp.timer_event true, ChannelOp.task ⟨8, 500, 1005⟩,
   ChannelOp.timer_event true, ChannelOp.task ⟨8, 600, 1006⟩,
   ChannelOp.timer_event true, ChannelOp.task ⟨8, 700, 1007⟩]

/-- Arm arguments as `exampleHomeArgsTimed`, with success reason `0` and
other-reason base 254. -/
def exampleHomeArgsHighBase : SetupHomeArgs :=
  { exampleHomeArgsTimed with trigger_reason := 0, other_reason_base := 254 }

/-- A configured channel that was never started and never armed: the rest
period is `0` and no trigger channel is stored (`ts` is `NULL`). -/
def exampleNeverStarted : ldc1612_ng ℚ :=
  { exampleChannel with rest_ticks := 0 }

/-! ## Basic facts about single steps -/

theorem notify_trigger_events (ld : ldc1612_ng F) (t reason : Nat) :
    (notify_trigger ld t reason).events = [Event.trigger ld.ts (reason % 256) 0] := by
  simp [notify_trigger, trsync_do_trigger]

theorem notify_trigger_mode (ld : ldc1612_ng F) (t reason : Nat) :
    (notify_trigger ld t reason).ld.homing.mode = 0 := by
  simp [notify_trigger]

theorem check_error_quiet (ld : ldc1612_ng F) (data time : Nat) :
    QuietOrDone (check_error ld data time).ld (check_error ld data time).events ∧
    ((check_error ld data time).val = true → (check_error ld data time).events = []) := by
  unfold check_error QuietOrDone
  simp only []
  split_ifs <;> simp [notify_trigger, trsync_do_trigger]

theorem check_safe_start_quiet (ld : ldc1612_ng F) (data time : Nat) :
    QuietOrDone (check_safe_start ld data time).ld (check_safe_start ld data time).events ∧
    ((check_safe_start ld data time).val = true →
      (check_safe_start ld data time).events = []) := by
  unfold check_safe_start QuietOrDone
  simp only []
  split_ifs <;> simp [notify_trigger, trsync_do_trigger]

theorem check_homing_quiet (ld : ldc1612_ng F) (data time : Nat) :
    QuietOrDone (check_homing ld data time).ld (check_homing ld data time).events := by
  have he := check_error_quiet ld data time
  have hg := check_safe_start_quiet (check_error ld data time).ld data time
  unfold check_homing
  simp only []
  split_ifs with h1 h2 h3
  · exact he.1
  · have : (check_error ld data time).events = [] := he.2 (by simpa using h1)
    simpa [this] using hg.1
  · have h1e : (check_error ld data time).events = [] := he.2 (by simpa using h1)
    have h2e : (check_safe_start (check_error ld data time).ld data time).events = [] :=
      hg.2 (by simpa using h2)
    right
    simp [h1e, h2e, notify_trigger, trsync_do_trigger]
  · have h1e : (check_error ld data time).events = [] := he.2 (by simpa using h1)
    have h2e : (check_safe_start (check_error ld data time).ld data time).events = [] :=
      hg.2 (by simpa using h2)
    left
    simp [h1e, h2e]

theorem check_sos_tap_quiet (ld : ldc1612_ng F) (data time : Nat) :
    QuietOrDone (check_sos_tap ld data time).ld (check_sos_tap ld data time).events := by
  have he := check_error_quiet ld data time
  unfold check_sos_tap
  simp only []
  split_ifs with h1 h2 h3 h4 h5 h6 h7
  · exact he.1
  · have h1e : (check_error ld data time).events = [] := he.2 (by simpa using h1)
    rw [h1e, List.nil_append]
    exact (check_safe_start_quiet _ data time).1
  · have h1e : (check_error ld data time).events = [] := he.2 (by simpa using h1)
    rw [h1e, List.nil_append]
    exact (check_safe_start_quiet _ data time).1
  · have h1e : (check_error ld data time).events = [] := he.2 (by simpa using h1)
    rw [h1e, List.nil_append]
    exact (check_safe_start_quiet _ data time).1
  · have h1e : (check_error ld data time).events = [] := he.2 (by simpa using h1)
    have h2e := (check_safe_start_quiet _ data time).2 (by simpa using h4)
    right
    simp [h1e, h2e, notify_trigger, trsync_do_trigger]
  · have h1e : (check_error ld data time).events = [] := he.2 (by simpa using h1)
    have h2e := (check_safe_start_quiet _ data time).2 (by simpa using h4)
    left
    simp [h1e, h2e]
  · have h1e : (check_error ld data time).events = [] := he.2 (by simpa using h1)
    have h2e := (check_safe_start_quiet _ data time).2 (by simpa using h4)
    left
    simp [h1e, h2e]
  · have h1e : (check_error ld data time).events = [] := he.2 (by simpa using h1)
    have h2e := (check_safe_start_quiet _ data time).2 (by simpa using h4)
    left
    simp [h1e, h2e]

theorem flush_buffer_triggers (ld : ldc1612_ng F) (oid : Nat) :
    triggers (flush_buffer ld oid).events = [] ∧
    (flush_buffer ld oid).ld.homing = ld.homing ∧ (flush_buffer ld oid).ld.ts = ld.ts := by
  unfold flush_buffer triggers
  split_ifs <;> simp [Event.isTrigger]

theorem triggers_append (a b : List Event) : triggers (a ++ b) = triggers a ++ triggers b := by
  simp [triggers]

theorem QuietOrDone.trig {ld : ldc1612_ng F} {evs : List Event} (h : QuietOrDone ld evs) :
    TrigQuietOrDone ld evs := by
  rcases h with h | ⟨⟨ts, r, h⟩, hm⟩
  · left; simp [h, triggers]
  · right; exact ⟨⟨ts, r, by simp [h, triggers, Event.isTrigger]⟩, hm⟩

theorem update_switch_quiet (ld : ldc1612_ng F) (s : Sample) :
    QuietOrDone (update_switch ld s).ld (update_switch ld s).events := by
  unfold update_switch
  split_ifs
  · exact check_homing_quiet _ _ _
  · exact check_sos_tap_quiet _ _ _
  · left; rfl

theorem update_flush_quiet (B oid : Nat) (r : SampleStep F)
    (h : TrigQuietOrDone r.ld r.events) :
    TrigQuietOrDone (update_flush B oid r).ld (update_flush B oid r).events := by
  unfold update_flush
  split_ifs
  · exact h
  · have hfl := flush_buffer_triggers r.ld oid
    unfold TrigQuietOrDone at h ⊢
    simp only [triggers_append, hfl.1, List.append_nil, hfl.2.1]
    exact h
  · exact h

/-- One data-ready event emits at most one trigger-channel notification, and
one that is emitted sees mode `0` and leaves mode `0`. -/
theorem update_quiet (B : Nat) (ld : ldc1612_ng F) (oid : Nat) (s : Sample) :
    TrigQuietOrDone (ldc1612_ng_update B ld oid s).ld (ldc1612_ng_update B ld oid s).events := by
  unfold ldc1612_ng_update
  simp only []
  split_ifs with h0
  · left; simp [triggers]
  · exact update_flush_quiet B oid _ (update_switch_quiet _ s).trig

/-! ## Inactive sessions and fatal stops -/

theorem update_store_homing (ld : ldc1612_ng F) (s : Sample) :
    (update_store ld s).homing = ld.homing := rfl

theorem flush_buffer_homing (ld : ldc1612_ng F) (oid : Nat) :
    (flush_buffer ld oid).ld.homing = ld.homing := (flush_buffer_triggers ld oid).2.1

theorem update_flush_homing (B oid : Nat) (r : SampleStep F) :
    (update_flush B oid r).ld.homing = r.ld.homing := by
  unfold update_flush
  split_ifs
  · rfl
  · exact flush_buffer_homing _ _
  · rfl

theorem update_flush_fatal (B oid : Nat) (r : SampleStep F) :
    (update_flush B oid r).fatal = r.fatal := by
  unfold update_flush
  split_ifs with h1 h2
  · rfl
  · simp only [ne_eq, not_not] at h1
    exact h1.symm
  · rfl

theorem update_flush_gate (B oid : Nat) (r : SampleStep F) :
    (update_flush B oid r).gate = r.gate := by
  unfold update_flush
  split_ifs <;> rfl

theorem update_flush_triggers (B oid : Nat) (r : SampleStep F) :
    triggers (update_flush B oid r).events = triggers r.events := by
  unfold update_flush
  split_ifs
  · rfl
  · simp [triggers_append, (flush_buffer_triggers r.ld oid).1]
  · rfl

/-- While mode is `0`, a data-ready event routes the sample to no detector. -/
theorem update_inactive (B : Nat) (ld : ldc1612_ng F) (oid : Nat) (s : Sample)
    (hm : ld.homing.mode = 0) :
    triggers (ldc1612_ng_update B ld oid s).events = [] ∧
    (ldc1612_ng_update B ld oid s).ld.homing = ld.homing ∧
    (ldc1612_ng_update B ld oid s).fatal = none ∧
    (ldc1612_ng_update B ld oid s).gate = none := by
  unfold ldc1612_ng_update
  simp only []
  split_ifs with h0
  · simp [triggers]
  · have hsw : update_switch (update_store
        ({ ld with last_status := s.status, flags := ld.flags &&& 254 } : ldc1612_ng F) s) s =
        { ld := update_store
            ({ ld with last_status := s.status, flags := ld.flags &&& 254 } : ldc1612_ng F) s,
          events := [], fatal := none, gate := none } := by
      unfold update_switch
      rw [update_store_homing]
      simp [hm, HOME_MODE_HOME, HOME_MODE_SOS]
    rw [update_flush_triggers, update_flush_homing, update_flush_fatal, update_flush_gate, hsw]
    simp [triggers, update_store_homing]

theorem run_cons_fatal (B oid : Nat) (ld : ldc1612_ng F) (s : Sample) (rest : List Sample)
    (h : (ldc1612_ng_update B ld oid s).fatal ≠ none) :
    run B oid ld (s :: rest) =
      { ld := (ldc1612_ng_update B ld oid s).ld, events := (ldc1612_ng_update B ld oid s).events,
        fatal := (ldc1612_ng_update B ld oid s).fatal } := by
  simp only [run]
  rw [if_pos h]

theorem run_cons_ok (B oid : Nat) (ld : ldc1612_ng F) (s : Sample) (rest : List Sample)
    (h : (ldc1612_ng_update B ld oid s).fatal = none) :
    run B oid ld (s :: rest) =
      { ld := (run B oid (ldc1612_ng_update B ld oid s).ld rest).ld,
        events := (ldc1612_ng_update B ld oid s).events ++
          (run B oid (ldc1612_ng_update B ld oid s).ld rest).events,
        fatal := (run B oid (ldc1612_ng_update B ld oid s).ld rest).fatal } := by
  simp only [run]
  rw [if_neg (by simp [h])]

theorem run_inactive (B oid : Nat) (xs : List Sample) :
    ∀ ld : ldc1612_ng F, ld.homing.mode = 0 →
      triggers (run B oid ld xs).events = [] ∧ (run B oid ld xs).ld.homing = ld.homing ∧
      (run B oid ld xs).fatal = none := by
  induction xs with
  | nil => intro ld _; simp [run, triggers]
  | cons s rest ih =>
    intro ld hm
    obtain ⟨h1, h2, h3, _⟩ := update_inactive B ld oid s hm
    have hm2 : (ldc1612_ng_update B ld oid s).ld.homing.mode = 0 := by rw [h2]; exact hm
    obtain ⟨i1, i2, i3⟩ := ih _ hm2
    rw [run_cons_ok B oid ld s rest h3]
    simp only [triggers_append, h1, i1, i2, h2, i3, List.append_nil, and_self]

theorem check_homing_fatal (ld : ldc1612_ng F) (data time : Nat) :
    (check_homing ld data time).fatal = none := by
  unfold check_homing
  simp only []
  split_ifs <;> rfl

/-- The only `shutdown` of the tap detector is the one after a ready gate
during baseline capture, and nothing has been emitted when it is reached. -/
theorem check_sos_tap_fatal (ld : ldc1612_ng F) (data time : Nat)
    (h : (check_sos_tap ld data time).fatal ≠ none) :
    (check_sos_tap ld data time).events = [] ∧
    (check_sos_tap ld data time).fatal = some "bug" := by
  have he := check_error_quiet ld data time
  unfold check_sos_tap at h ⊢
  simp only [] at h ⊢
  split_ifs at h ⊢ with h1 h2 h3 h4 h5 h6 h7
  all_goals first
    | exact absurd rfl h
    | skip
  have h1e : (check_error ld data time).events = [] := he.2 (by simpa using h1)
  have h2e := (check_safe_start_quiet _ data time).2 h3
  simp [h1e, h2e]

theorem update_fatal (B : Nat) (ld : ldc1612_ng F) (oid : Nat) (s : Sample)
    (h : (ldc1612_ng_update B ld oid s).fatal ≠ none) :
    triggers (ldc1612_ng_update B ld oid s).events = [] := by
  unfold ldc1612_ng_update at h ⊢
  simp only [] at h ⊢
  split_ifs at h ⊢ with h0
  · exact absurd rfl h
  · rw [update_flush_fatal] at h
    rw [update_flush_triggers]
    unfold update_switch at h ⊢
    split_ifs at h ⊢
    · exact absurd (check_homing_fatal _ _ _) h
    · rw [(check_sos_tap_fatal _ _ _ h).1]; rfl
    · rfl

theorem run_quiet (B oid : Nat) (xs : List Sample) :
    ∀ ld : ldc1612_ng F, RunQuietOrDone (run B oid ld xs) := by
  induction xs with
  | nil => intro ld; left; simp [run, triggers]
  | cons s rest ih =>
    intro ld
    by_cases hf : (ldc1612_ng_update B ld oid s).fatal ≠ none
    · left
      rw [run_cons_fatal B oid ld s rest hf]
      exact update_fatal B ld oid s hf
    · have hf2 : (ldc1612_ng_update B ld oid s).fatal = none := by simpa using hf
      rw [RunQuietOrDone, run_cons_ok B oid ld s rest hf2]
      rcases update_quiet B ld oid s with hq | ⟨⟨ts, reason, hq⟩, hm⟩
      · rcases ih (ldc1612_ng_update B ld oid s).ld with hr | ⟨⟨ts, reason, hr⟩, hm, hfat⟩
        · left
          simp only [triggers_append, hq, hr, List.append_nil]
        · right
          simp only [triggers_append, hq, hr, List.nil_append]
          exact ⟨⟨ts, reason, rfl⟩, hm, hfat⟩
      · obtain ⟨i1, i2, i3⟩ := run_inactive B oid rest _ hm
        right
        simp only [triggers_append, hq, i1, List.append_nil]
        exact ⟨⟨ts, reason, rfl⟩, by rw [i2]; exact hm, i3⟩

theorem run_append (B oid : Nat) (xs ys : List Sample) :
    ∀ ld : ldc1612_ng F, (run B oid ld xs).fatal = none →
      (run B oid ld (xs ++ ys)).events =
        (run B oid ld xs).events ++ (run B oid (run B oid ld xs).ld ys).events ∧
      (run B oid ld (xs ++ ys)).ld = (run B oid (run B oid ld xs).ld ys).ld ∧
      (run B oid ld (xs ++ ys)).fatal = (run B oid (run B oid ld xs).ld ys).fatal := by
  induction xs with
  | nil => intro ld _; simp [run]
  | cons s rest ih =>
    intro ld hf
    by_cases hf1 : (ldc1612_ng_update B ld oid s).fatal ≠ none
    · rw [run_cons_fatal B oid ld s rest hf1] at hf
      exact absurd hf hf1
    · have hf2 : (ldc1612_ng_update B ld oid s).fatal = none := by simpa using hf1
      rw [run_cons_ok B oid ld s rest hf2] at hf
      obtain ⟨i1, i2, i3⟩ := ih _ hf
      rw [List.cons_append, run_cons_ok B oid ld s _ hf2, run_cons_ok B oid ld s _ hf2]
      simp only [i1, i2, i3, List.append_assoc, and_self]

/-! ## C1: a session notifies at most once -/

theorem setup_home_success (ld : ldc1612_ng F) (a : SetupHomeArgs)
    (hticks : ld.rest_ticks ≠ 0) (hidle : ld.homing.mode = 0)
    (hfreq : a.trigger_freq ≠ 0) (hts : a.trsync_oid ≠ 0)
    (hmode : a.mode % 256 = HOME_MODE_HOME ∨ a.mode % 256 = HOME_MODE_SOS) :
    (command_ldc1612_ng_setup_home ld a).fatal = none ∧
    (command_ldc1612_ng_setup_home ld a).events = [] ∧
    (command_ldc1612_ng_setup_home ld a).ld.homing.mode = a.mode % 256 := by
  unfold command_ldc1612_ng_setup_home
  simp only []
  rw [if_neg (by simp [hfreq, hts]), if_neg hticks, if_neg (by simp [hidle])]
  rcases hmode with h | h
  · rw [if_pos h]; simp
  · have h1 : ¬ a.mode % 256 = HOME_MODE_HOME := by rw [h]; decide
    rw [if_neg h1, if_pos h]; simp

/-- C1: after a successful arm command (sampling running, no session active,
non-zero trigger threshold and trigger channel, mode Home or Tap), for every
sequence of data-ready events `pre ++ post` the pipeline calls the trigger
channel at most once, every such call sees mode `0` (Inactive), and when the
events `pre` have produced the notification, the machine has not been stopped,
the mode is Inactive, and the later events `post` leave the whole session
record unchanged and produce no notification. -/
theorem C1_session_notifies_at_most_once (B oid : Nat) (ld : ldc1612_ng F) (a : SetupHomeArgs)
    (hticks : ld.rest_ticks ≠ 0) (hidle : ld.homing.mode = 0)
    (hfreq : a.trigger_freq ≠ 0) (hts : a.trsync_oid ≠ 0)
    (hmode : a.mode % 256 = HOME_MODE_HOME ∨ a.mode % 256 = HOME_MODE_SOS)
    (pre post : List Sample) :
    (command_ldc1612_ng_setup_home ld a).fatal = none ∧
    (command_ldc1612_ng_setup_home ld a).events = [] ∧
    (command_ldc1612_ng_setup_home ld a).ld.homing.mode = a.mode % 256 ∧
    (triggers (run B oid (command_ldc1612_ng_setup_home ld a).ld (pre ++ post)).events).length ≤ 1 ∧
    (∀ e ∈ triggers (run B oid (command_ldc1612_ng_setup_home ld a).ld (pre ++ post)).events,
      ∃ ts reason, e = Event.trigger ts reason 0) ∧
    (triggers (run B oid (command_ldc1612_ng_setup_home ld a).ld pre).events ≠ [] →
      (run B oid (command_ldc1612_ng_setup_home ld a).ld pre).fatal = none ∧
      (run B oid (command_ldc1612_ng_setup_home ld a).ld pre).ld.homing.mode = 0 ∧
      triggers (run B oid (run B oid (command_ldc1612_ng_setup_home ld a).ld pre).ld post).events
        = [] ∧
      (run B oid (run B oid (command_ldc1612_ng_setup_home ld a).ld pre).ld post).ld.homing =
        (run B oid (command_ldc1612_ng_setup_home ld a).ld pre).ld.homing ∧
      (run B oid (run B oid (command_ldc1612_ng_setup_home ld a).ld pre).ld post).fatal = none ∧
      triggers (run B oid (command_ldc1612_ng_setup_home ld a).ld (pre ++ post)).events =
        triggers (run B oid (command_ldc1612_ng_setup_home ld a).ld pre).events) := by
  obtain ⟨s1, s2, s3⟩ := setup_home_success ld a hticks hidle hfreq hts hmode
  refine ⟨s1, s2, s3, ?_, ?_, ?_⟩
  · rcases run_quiet B oid (pre ++ post) (command_ldc1612_ng_setup_home ld a).ld with
      h | ⟨⟨ts, reason, h⟩, _⟩
    · simp [h]
    · simp [h]
  · intro e he
    rcases run_quiet B oid (pre ++ post) (command_ldc1612_ng_setup_home ld a).ld with
      h | ⟨⟨ts, reason, h⟩, _⟩
    · rw [h] at he; cases he
    · rw [h] at he
      exact ⟨ts, reason, by simpa using he⟩
  · intro hne
    rcases run_quiet B oid pre (command_ldc1612_ng_setup_home ld a).ld with
      h | ⟨_, hm, hfat⟩
    · exact absurd h hne
    · obtain ⟨i1, i2, i3⟩ := run_inactive B oid post _ hm
      obtain ⟨a1, _, _⟩ := run_append B oid pre post _ hfat
      refine ⟨hfat, hm, i1, i2, i3, ?_⟩
      rw [a1, triggers_append, i1, List.append_nil]

/-- C1 on a Home session armed with trigger threshold 3000 that receives raw
values 2000, 3001 and 4000. -/
theorem C1_session_notifies_at_most_once_witness :
    exampleChannel.rest_ticks ≠ 0 ∧ exampleChannel.homing.mode = 0 ∧
    exampleHomeArgs.trigger_freq ≠ 0 ∧ exampleHomeArgs.trsync_oid ≠ 0 ∧
    (triggers (run 12 7 (command_ldc1612_ng_setup_home exampleChannel exampleHomeArgs).ld
      ([⟨8, 100, 2000⟩, ⟨8, 200, 3001⟩] ++ [⟨8, 300, 4000⟩])).events).length ≤ 1 :=
  ⟨by decide, by decide, by decide, by decide,
    (C1_session_notifies_at_most_once 12 7 exampleChannel exampleHomeArgs (by decide) (by decide)
      (by decide) (by decide) (Or.inl (by decide))
      [⟨8, 100, 2000⟩, ⟨8, 200, 3001⟩] [⟨8, 300, 4000⟩]).2.2.2.1⟩

/-- The Home session of the example does fire, on its second sample. -/
theorem example_home_run_triggers :
    triggers (run 12 7 (command_ldc1612_ng_setup_home exampleChannel exampleHomeArgs).ld
      [⟨8, 100, 2000⟩, ⟨8, 200, 3001⟩]).events = [Event.trigger 5 1 0] := by decide

/-! ## C2: the gate during baseline capture -/

/-- C2 (failing input): a Tap session armed with trigger threshold 3000 and
start-value threshold 0 is created without error, and on its first error-free
sample the safety gate called during baseline capture returns ready, so the
code reaches `shutdown("bug")`. -/
theorem C2_baseline_gate_ready_when_no_start_value :
    (command_ldc1612_ng_setup_home exampleChannel exampleTapArgsNoStart).fatal = none ∧
    (command_ldc1612_ng_setup_home exampleChannel exampleTapArgsNoStart).ld.homing.mode
      = HOME_MODE_SOS ∧
    SAMPLE_ERR 2000 = 0 ∧
    (ldc1612_ng_update 12 (command_ldc1612_ng_setup_home exampleChannel exampleTapArgsNoStart).ld
      7 ⟨8, 100, 2000⟩).gate = some true ∧
    (ldc1612_ng_update 12 (command_ldc1612_ng_setup_home exampleChannel exampleTapArgsNoStart).ld
      7 ⟨8, 100, 2000⟩).fatal = some "bug" := by
  refine ⟨by decide, by decide, by decide, by decide, by decide⟩

/-! ## The tap detector at peak evaluation -/

@[simp] theorem rat_zero : (FloatOps.zero : ℚ) = 0 := rfl
@[simp] theorem rat_add (a b : ℚ) : FloatOps.add a b = a + b := rfl
@[simp] theorem rat_sub (a b : ℚ) : FloatOps.sub a b = a - b := rfl
@[simp] theorem rat_mul (a b : ℚ) : FloatOps.mul a b = a * b := rfl
@[simp] theorem rat_div (a b : ℚ) : FloatOps.div a b = a / b := rfl
@[simp] theorem rat_ofNat (n : Nat) : (FloatOps.ofNat n : ℚ) = (n : ℚ) := rfl
@[simp] theorem rat_ofInt (i : Int) : (FloatOps.ofInt i : ℚ) = (i : ℚ) := rfl
@[simp] theorem rat_lt (a b : ℚ) : FloatOps.lt a b = decide (a < b) := rfl
@[simp] theorem rat_le (a b : ℚ) : FloatOps.le a b = decide (a ≤ b) := rfl

theorem check_error_clean (ld : ldc1612_ng F) (data time : Nat) (h : SAMPLE_ERR data = 0) :
    check_error ld data time =
      { val := true, ld := { ld with homing := { ld.homing with error_count := 0 } },
        events := [] } := by
  unfold check_error
  rw [if_pos h]

theorem check_safe_start_open (ld : ldc1612_ng F) (data time : Nat)
    (h : ld.homing.safe_start_freq = 0) :
    check_safe_start ld data time = { val := true, ld := ld, events := [] } := by
  unfold check_safe_start
  simp only []
  rw [if_pos h]

/-- The tap detector on an error-free sample once the gate is open, written
out: `val` is the filtered value of the sample. -/
theorem check_sos_tap_open (ld : ldc1612_ng F) (data time : Nat)
    (herr : SAMPLE_ERR data = 0)
    (hopen : ld.homing.safe_start_freq = 0 ∧ ld.homing.homing_trigger_freq = 0) :
    check_sos_tap ld data time =
      if FloatOps.lt (tap_filter ld data).1 ld.homing.sos_tap.last_value = true then
        if FloatOps.le ld.homing.sos_tap.tap_threshold
            (FloatOps.sub ld.homing.sos_tap.tap_start_value (tap_filter ld data).1) = true then
          { ld := { ld with homing := { ld.homing with
                      mode := 0, error_count := 0, trigger_time := time,
                      sos_tap := { ld.homing.sos_tap with state := (tap_filter ld data).2 } } },
            events := [Event.trigger ld.ts (ld.success_reason % 256) 0],
            fatal := none, gate := some true }
        else
          { ld := { ld with homing := { ld.homing with
                      error_count := 0,
                      sos_tap := { ld.homing.sos_tap with
                        state := (tap_filter ld data).2,
                        last_value := (tap_filter ld data).1 } } },
            events := [], fatal := none, gate := some true }
      else if FloatOps.lt ld.homing.sos_tap.last_value (tap_filter ld data).1 = true then
        { ld := { ld with homing := { ld.homing with
                    error_count := 0, tap_start_time := time,
                    sos_tap := { ld.homing.sos_tap with
                      state := (tap_filter ld data).2,
                      tap_start_value := (tap_filter ld data).1,
                      last_value := (tap_filter ld data).1 } } },
          events := [], fatal := none, gate := some true }
      else
        { ld := { ld with homing := { ld.homing with
                    error_count := 0,
                    sos_tap := { ld.homing.sos_tap with
                      state := (tap_filter ld data).2,
                      last_value := (tap_filter ld data).1 } } },
          events := [], fatal := none, gate := some true } := by
  obtain ⟨h1, h2⟩ := hopen
  unfold check_sos_tap
  simp only [check_error_clean ld data time herr]
  rw [if_neg (by simp), if_neg (by simp [h2])]
  rw [check_safe_start_open _ data time (by simpa using h1)]
  simp only [tap_filter]
  rw [if_neg (by simp)]
  split_ifs <;> simp [notify_trigger, trsync_do_trigger]

/-! ## C3: peak and fall -/

theorem float_lt_irrefl (a : F) : FloatOps.lt a a = false := by
  cases h : FloatOps.lt a a
  · rfl
  · rw [FloatOps.lt_asymm a a h] at h
    cases h

/-- When the gate reports ready it has emitted nothing and the only field it
may have written is `safe_start_freq`, which is `0` afterwards. -/
theorem check_safe_start_ready (ld : ldc1612_ng F) (data time : Nat)
    (h : (check_safe_start ld data time).val = true) :
    (check_safe_start ld data time).ld =
      { ld with homing := { ld.homing with safe_start_freq := 0 } } ∧
    (check_safe_start ld data time).events = [] := by
  unfold check_safe_start at h ⊢
  simp only [] at h ⊢
  split_ifs at h ⊢ with h1 h2 h3 h4
  · refine ⟨?_, rfl⟩
    simp only []
    rw [← h1]
  · exact ⟨rfl, rfl⟩

/-- The gate reports ready exactly when no start-value threshold is left, or
the sample reaches the threshold, is not too early, and no promotion of the
trigger-value threshold is pending. -/
theorem check_safe_start_val (ld : ldc1612_ng F) (data time : Nat) :
    (check_safe_start ld data time).val = true ↔
      (ld.homing.safe_start_freq = 0 ∨
        (ld.homing.safe_start_freq ≤ data ∧
          ¬ (ld.homing.safe_start_time ≠ 0 ∧
              timer_is_before time ld.homing.safe_start_time = true) ∧
          ¬ (ld.homing.mode > 0 ∧ ld.homing.homing_trigger_freq ≠ 0))) := by
  unfold check_safe_start
  simp only []
  split_ifs with h1 h2 h3 h4
  · simp [h1]
  · simp only [Bool.false_eq_true, false_iff, not_or, not_and]
    exact ⟨h1, fun h => absurd h (by omega)⟩
  · simp only [notify_trigger, Bool.false_eq_true, false_iff, not_or, not_and]
    exact ⟨h1, fun _ h => absurd h3.2 (h h3.1)⟩
  · simp only [Bool.false_eq_true, false_iff, not_or, not_and]
    refine ⟨h1, fun _ _ h => ?_⟩
    simp only [decide_eq_true_eq] at h4
    exact absurd h4.2 (h h4.1)
  · simp only [true_iff]
    right
    refine ⟨by omega, h3, ?_⟩
    simpa using h4

/-- The value returned by the gate depends on the session thresholds and the
mode only. -/
theorem check_safe_start_val_congr (ld1 ld2 : ldc1612_ng F) (data time : Nat)
    (hm : ld1.homing.mode = ld2.homing.mode)
    (h1 : ld1.homing.safe_start_freq = ld2.homing.safe_start_freq)
    (h2 : ld1.homing.safe_start_time = ld2.homing.safe_start_time)
    (h3 : ld1.homing.homing_trigger_freq = ld2.homing.homing_trigger_freq) :
    (check_safe_start ld1 data time).val = (check_safe_start ld2 data time).val := by
  have e1 := check_safe_start_val ld1 data time
  have e2 := check_safe_start_val ld2 data time
  rw [hm, h1, h2, h3] at e1
  cases h : (check_safe_start ld2 data time).val
  · cases h' : (check_safe_start ld1 data time).val
    · rfl
    · rw [← h]; exact (e2.mpr (e1.mp h')).symm
  · exact e1.mpr (e2.mp h)

/-- The tap detector on an error-free sample for which the gate reports
ready after the promotion, written out: `val` is the filtered value. -/
theorem check_sos_tap_ready (ld : ldc1612_ng F) (data time : Nat)
    (herr : SAMPLE_ERR data = 0)
    (htf : ld.homing.homing_trigger_freq = 0)
    (hgate : (check_safe_start ld data time).val = true) :
    check_sos_tap ld data time =
      if FloatOps.lt (tap_filter ld data).1 ld.homing.sos_tap.last_value = true then
        if FloatOps.le ld.homing.sos_tap.tap_threshold
            (FloatOps.sub ld.homing.sos_tap.tap_start_value (tap_filter ld data).1) = true then
          { ld := { ld with homing := { ld.homing with
                      mode := 0, safe_start_freq := 0, error_count := 0, trigger_time := time,
                      sos_tap := { ld.homing.sos_tap with state := (tap_filter ld data).2 } } },
            events := [Event.trigger ld.ts (ld.success_reason % 256) 0],
            fatal := none, gate := some true }
        else
          { ld := { ld with homing := { ld.homing with
                      safe_start_freq := 0, error_count := 0,
                      sos_tap := { ld.homing.sos_tap with
                        state := (tap_filter ld data).2,
                        last_value := (tap_filter ld data).1 } } },
            events := [], fatal := none, gate := some true }
      else if FloatOps.lt ld.homing.sos_tap.last_value (tap_filter ld data).1 = true then
        { ld := { ld with homing := { ld.homing with
                    safe_start_freq := 0, error_count := 0, tap_start_time := time,
                    sos_tap := { ld.homing.sos_tap with
                      state := (tap_filter ld data).2,
                      tap_start_value := (tap_filter ld data).1,
                      last_value := (tap_filter ld data).1 } } },
          events := [], fatal := none, gate := some true }
      else
        { ld := { ld with homing := { ld.homing with
                    safe_start_freq := 0, error_count := 0,
                    sos_tap := { ld.homing.sos_tap with
                      state := (tap_filter ld data).2,
                      last_value := (tap_filter ld data).1 } } },
          events := [], fatal := none, gate := some true } := by
  unfold check_sos_tap
  simp only [check_error_clean ld data time herr]
  rw [if_neg (by simp), if_neg (by simp [htf])]
  have hg : (check_safe_start
      ({ ld with homing := { ld.homing with
          error_count := 0,
          sos_tap := { ld.homing.sos_tap with
            state := (sosfilter (FloatOps.sub (FloatOps.mul (FloatOps.ofNat data) ld.sensor_cvt)
              ld.homing.sos_tap.frequency_offset) ld.sos_filter ld.homing.sos_tap.state).2 } } } :
        ldc1612_ng F) data time).val = true := by
    rw [← hgate]
    exact check_safe_start_val_congr _ _ data time rfl rfl rfl rfl
  obtain ⟨hl, he⟩ := check_safe_start_ready _ data time hg
  simp only [] at hl he hg
  simp only [hl, he, hg, tap_filter]
  rw [if_neg (by simp)]
  split_ifs <;> simp [notify_trigger, trsync_do_trigger]

/-! ## Frame properties -/

/-- The error check writes only `mode`, `error_count` and `error`. -/
theorem check_error_frame (ld : ldc1612_ng F) (data time : Nat) :
    (check_error ld data time).ld =
      { ld with homing := { ld.homing with
          mode := (check_error ld data time).ld.homing.mode,
          error_count := (check_error ld data time).ld.homing.error_count,
          error := (check_error ld data time).ld.homing.error } } := by
  unfold check_error
  simp only []
  split_ifs <;> simp [notify_trigger]

/-- The safety gate writes only `mode`, `safe_start_freq` and
`homing_trigger_freq`. -/
theorem check_safe_start_frame (ld : ldc1612_ng F) (data time : Nat) :
    (check_safe_start ld data time).ld =
      { ld with homing := { ld.homing with
          mode := (check_safe_start ld data time).ld.homing.mode,
          safe_start_freq := (check_safe_start ld data time).ld.homing.safe_start_freq,
          homing_trigger_freq :=
            (check_safe_start ld data time).ld.homing.homing_trigger_freq } } := by
  unfold check_safe_start
  simp only []
  split_ifs <;> simp [notify_trigger]

/-- The Home detector does not touch the tap sub-state or the peak timestamp. -/
theorem check_homing_frame (ld : ldc1612_ng F) (data time : Nat) :
    (check_homing ld data time).ld.homing.sos_tap = ld.homing.sos_tap ∧
    (check_homing ld data time).ld.homing.tap_start_time = ld.homing.tap_start_time := by
  have he := check_error_frame ld data time
  have hg := check_safe_start_frame (check_error ld data time).ld data time
  unfold check_homing
  simp only []
  split_ifs
  · rw [he]; exact ⟨rfl, rfl⟩
  · rw [hg, he]; exact ⟨rfl, rfl⟩
  · simp only [notify_trigger]
    rw [hg, he]; exact ⟨rfl, rfl⟩
  · rw [hg, he]; exact ⟨rfl, rfl⟩

/-- Unless the tap detector reaches peak evaluation, it leaves the running
peak, its timestamp, the previous filtered value and `trigger_time` alone. -/
theorem check_sos_tap_frame (ld : ldc1612_ng F) (data time : Nat)
    (h : ¬ ((check_sos_tap ld data time).gate = some true ∧
            (check_sos_tap ld data time).fatal = none)) :
    (check_sos_tap ld data time).ld.homing.tap_start_time = ld.homing.tap_start_time ∧
    (check_sos_tap ld data time).ld.homing.sos_tap.tap_start_value
      = ld.homing.sos_tap.tap_start_value ∧
    (check_sos_tap ld data time).ld.homing.sos_tap.last_value = ld.homing.sos_tap.last_value ∧
    (check_sos_tap ld data time).ld.homing.trigger_time = ld.homing.trigger_time := by
  have he := check_error_frame ld data time
  unfold check_sos_tap at h ⊢
  simp only [] at h ⊢
  split_ifs at h ⊢ with h1 h2 h3 h4 h5 h6 h7
  · rw [he]; exact ⟨rfl, rfl, rfl, rfl⟩
  · rw [check_safe_start_frame, he]; exact ⟨rfl, rfl, rfl, rfl⟩
  · rw [check_safe_start_frame, he]; exact ⟨rfl, rfl, rfl, rfl⟩
  · rw [check_safe_start_frame, he]; exact ⟨rfl, rfl, rfl, rfl⟩
  all_goals exact absurd ⟨rfl, rfl⟩ h

/-! ## Peak evaluation at the level of the dispatcher -/

theorem check_error_val (ld : ldc1612_ng F) (data time : Nat) :
    (check_error ld data time).val = true ↔ SAMPLE_ERR data = 0 := by
  unfold check_error
  simp only []
  split_ifs with h1 h2 h3 <;> simp [h1]

theorem check_sos_tap_gate (ld : ldc1612_ng F) (data time : Nat)
    (h : (check_sos_tap ld data time).gate = some true ∧
         (check_sos_tap ld data time).fatal = none) :
    SAMPLE_ERR data = 0 ∧ ld.homing.homing_trigger_freq = 0 ∧
    (check_safe_start ld data time).val = true := by
  have hev := check_error_val ld data time
  have hef := check_error_frame ld data time
  unfold check_sos_tap at h
  simp only [] at h
  split_ifs at h with h1 h2 h3 h4 h5 h6 h7
  · simp at h
  · simp at h
  · simp at h
  · simp at h
  all_goals
    have herr : SAMPLE_ERR data = 0 := hev.mp (by simpa using h1)
    have htf : ld.homing.homing_trigger_freq = 0 := by
      have h2' : (check_error ld data time).ld.homing.homing_trigger_freq = 0 := by
        simpa using h2
      rw [hef] at h2'
      exact h2'
    refine ⟨herr, htf, ?_⟩
    have h4' := (Bool.not_eq_false _).mp h4
    rw [← h4']
    rw [check_error_clean ld data time herr]
    exact check_safe_start_val_congr _ _ data time rfl rfl rfl rfl

theorem at_switch_homing (ld : ldc1612_ng F) (s : Sample) :
    (at_switch ld s).homing = ld.homing := rfl

theorem update_tap (B oid : Nat) (ld : ldc1612_ng F) (s : Sample)
    (hst : s.status &&& STATUS_UNREADCONV0 ≠ 0) (hm : ld.homing.mode = HOME_MODE_SOS) :
    ldc1612_ng_update B ld oid s =
      update_flush B oid (check_sos_tap (at_switch ld s) s.data s.time) := by
  unfold ldc1612_ng_update
  simp only []
  rw [if_neg hst]
  unfold update_switch
  have h1 : ¬ (update_store
      ({ ld with last_status := s.status, flags := ld.flags &&& 254 } : ldc1612_ng F)
      s).homing.mode = HOME_MODE_HOME := by
    rw [update_store_homing]
    simp only []
    rw [hm]
    decide
  have h2 : (update_store
      ({ ld with last_status := s.status, flags := ld.flags &&& 254 } : ldc1612_ng F)
      s).homing.mode = HOME_MODE_SOS := by
    rw [update_store_homing]
    exact hm
  rw [if_neg h1, if_pos h2]
  rfl

theorem update_home (B oid : Nat) (ld : ldc1612_ng F) (s : Sample)
    (hst : s.status &&& STATUS_UNREADCONV0 ≠ 0) (hm : ld.homing.mode = HOME_MODE_HOME) :
    ldc1612_ng_update B ld oid s =
      update_flush B oid (check_homing (at_switch ld s) s.data s.time) := by
  unfold ldc1612_ng_update
  simp only []
  rw [if_neg hst]
  unfold update_switch
  have h1 : (update_store
      ({ ld with last_status := s.status, flags := ld.flags &&& 254 } : ldc1612_ng F)
      s).homing.mode = HOME_MODE_HOME := by
    rw [update_store_homing]
    exact hm
  rw [if_pos h1]
  rfl

theorem update_not_ready (B oid : Nat) (ld : ldc1612_ng F) (s : Sample)
    (hst : s.status &&& STATUS_UNREADCONV0 = 0) :
    ldc1612_ng_update B ld oid s =
      { ld := { ld with last_status := s.status, flags := ld.flags &&& 254 },
        events := [], fatal := none, gate := none } := by
  unfold ldc1612_ng_update
  simp only []
  rw [if_pos hst]

theorem update_other (B oid : Nat) (ld : ldc1612_ng F) (s : Sample)
    (hst : s.status &&& STATUS_UNREADCONV0 ≠ 0)
    (h1 : ld.homing.mode ≠ HOME_MODE_HOME) (h3 : ld.homing.mode ≠ HOME_MODE_SOS) :
    ldc1612_ng_update B ld oid s =
      update_flush B oid { ld := at_switch ld s, events := [], fatal := none, gate := none } := by
  unfold ldc1612_ng_update
  simp only []
  rw [if_neg hst]
  unfold update_switch
  rw [if_neg (by rw [update_store_homing]; exact h1),
    if_neg (by rw [update_store_homing]; exact h3)]
  rfl

/-- What peak evaluation means in terms of the state and the sample. -/
theorem peak_eval_iff (B oid : Nat) (ld : ldc1612_ng F) (s : Sample) :
    peak_eval B oid ld s ↔
      (s.status &&& STATUS_UNREADCONV0 ≠ 0 ∧ ld.homing.mode = HOME_MODE_SOS ∧
        SAMPLE_ERR s.data = 0 ∧ ld.homing.homing_trigger_freq = 0 ∧
        (check_safe_start ld s.data s.time).val = true) := by
  constructor
  · rintro ⟨hm, hg, hf⟩
    by_cases hst : s.status &&& STATUS_UNREADCONV0 = 0
    · rw [update_not_ready B oid ld s hst] at hg
      cases hg
    · rw [update_tap B oid ld s hst hm, update_flush_gate] at hg
      rw [update_tap B oid ld s hst hm, update_flush_fatal] at hf
      obtain ⟨a, b, c⟩ := check_sos_tap_gate _ _ _ ⟨hg, hf⟩
      refine ⟨hst, hm, a, b, ?_⟩
      rw [← c]
      exact check_safe_start_val_congr _ _ _ _ rfl rfl rfl rfl
  · rintro ⟨hst, hm, herr, htf, hg⟩
    have hg' : (check_safe_start (at_switch ld s) s.data s.time).val = true := by
      rw [← hg]
      exact check_safe_start_val_congr _ _ _ _ rfl rfl rfl rfl
    refine ⟨hm, ?_, ?_⟩
    · rw [update_tap B oid ld s hst hm, update_flush_gate,
        check_sos_tap_ready (at_switch ld s) s.data s.time herr htf hg']
      split_ifs <;> rfl
    · rw [update_tap B oid ld s hst hm, update_flush_fatal,
        check_sos_tap_ready (at_switch ld s) s.data s.time herr htf hg']
      split_ifs <;> rfl

/-- A data-ready event whose sample reaches peak evaluation, written out. -/
theorem update_peak (B oid : Nat) (ld : ldc1612_ng F) (s : Sample)
    (h : peak_eval B oid ld s) :
    (ldc1612_ng_update B ld oid s).ld.homing = peak_homing ld s ∧
    triggers (ldc1612_ng_update B ld oid s).events = peak_triggers ld s := by
  obtain ⟨hst, hm, herr, htf, hg⟩ := (peak_eval_iff B oid ld s).mp h
  have hg' : (check_safe_start (at_switch ld s) s.data s.time).val = true := by
    rw [← hg]
    exact check_safe_start_val_congr _ _ _ _ rfl rfl rfl rfl
  have hready := check_sos_tap_ready (at_switch ld s) s.data s.time herr htf hg'
  have htfl : tap_filter (at_switch ld s) s.data = tap_filter ld s.data := rfl
  rw [update_tap B oid ld s hst hm, update_flush_homing, update_flush_triggers, hready]
  simp only [htfl, at_switch_homing]
  unfold peak_homing peak_triggers
  by_cases h1 : FloatOps.lt (tap_filter ld s.data).1 ld.homing.sos_tap.last_value = true
  · by_cases h2 : FloatOps.le ld.homing.sos_tap.tap_threshold
        (FloatOps.sub ld.homing.sos_tap.tap_start_value (tap_filter ld s.data).1) = true
    · rw [if_pos h1, if_pos h2, if_pos h1, if_pos h2, if_pos ⟨h1, h2⟩]
      exact ⟨rfl, rfl⟩
    · rw [if_pos h1, if_neg h2, if_pos h1, if_neg h2, if_neg (fun hh => h2 hh.2)]
      exact ⟨rfl, rfl⟩
  · by_cases h3 : FloatOps.lt ld.homing.sos_tap.last_value (tap_filter ld s.data).1 = true
    · rw [if_neg h1, if_pos h3, if_neg h1, if_pos h3, if_neg (fun hh => h1 hh.1)]
      exact ⟨rfl, rfl⟩
    · rw [if_neg h1, if_neg h3, if_neg h1, if_neg h3, if_neg (fun hh => h1 hh.1)]
      exact ⟨rfl, rfl⟩

/-- A data-ready event whose sample does not reach peak evaluation leaves the
running peak, its timestamp and the previous filtered value alone. -/
theorem update_not_peak (B oid : Nat) (ld : ldc1612_ng F) (s : Sample)
    (h : ¬ peak_eval B oid ld s) :
    (ldc1612_ng_update B ld oid s).ld.homing.tap_start_time = ld.homing.tap_start_time ∧
    (ldc1612_ng_update B ld oid s).ld.homing.sos_tap.tap_start_value
      = ld.homing.sos_tap.tap_start_value ∧
    (ldc1612_ng_update B ld oid s).ld.homing.sos_tap.last_value
      = ld.homing.sos_tap.last_value := by
  by_cases hst : s.status &&& STATUS_UNREADCONV0 = 0
  · rw [update_not_ready B oid ld s hst]
    exact ⟨rfl, rfl, rfl⟩
  · by_cases h3 : ld.homing.mode = HOME_MODE_SOS
    · have hp : ¬ ((check_sos_tap (at_switch ld s) s.data s.time).gate = some true ∧
          (check_sos_tap (at_switch ld s) s.data s.time).fatal = none) := by
        intro hh
        apply h
        refine ⟨h3, ?_, ?_⟩
        · rw [update_tap B oid ld s hst h3, update_flush_gate]; exact hh.1
        · rw [update_tap B oid ld s hst h3, update_flush_fatal]; exact hh.2
      obtain ⟨a, b, c, _⟩ := check_sos_tap_frame (at_switch ld s) s.data s.time hp
      rw [update_tap B oid ld s hst h3, update_flush_homing]
      exact ⟨a, b, c⟩
    · by_cases h1 : ld.homing.mode = HOME_MODE_HOME
      · obtain ⟨a, b⟩ := check_homing_frame (at_switch ld s) s.data s.time
        rw [update_home B oid ld s hst h1, update_flush_homing, a, b]
        exact ⟨rfl, rfl, rfl⟩
      · rw [update_other B oid ld s hst h1 h3, update_flush_homing]
        exact ⟨rfl, rfl, rfl⟩

/-! ## The peak timestamp along a run -/

/-- The peak timestamp is written by rising samples and by no other. -/
theorem update_tap_start_time (B oid : Nat) (ld : ldc1612_ng F) (s : Sample) :
    (rises B oid ld s →
      (ldc1612_ng_update B ld oid s).ld.homing.tap_start_time = s.time ∧
      (ldc1612_ng_update B ld oid s).ld.homing.sos_tap.tap_start_value
        = (tap_filter ld s.data).1 ∧
      triggers (ldc1612_ng_update B ld oid s).events = []) ∧
    (¬ rises B oid ld s →
      (ldc1612_ng_update B ld oid s).ld.homing.tap_start_time = ld.homing.tap_start_time ∧
      (ldc1612_ng_update B ld oid s).ld.homing.sos_tap.tap_start_value
        = ld.homing.sos_tap.tap_start_value) := by
  constructor
  · rintro ⟨hp, hr⟩
    obtain ⟨h1, h2⟩ := update_peak B oid ld s hp
    have hf := FloatOps.lt_asymm _ _ hr
    rw [h1, h2]
    unfold peak_homing peak_triggers
    rw [if_neg (by simp [hf]), if_pos hr, if_neg (by simp [hf])]
    exact ⟨rfl, rfl, rfl⟩
  · intro hn
    by_cases hp : peak_eval B oid ld s
    · have hr : ¬ FloatOps.lt ld.homing.sos_tap.last_value (tap_filter ld s.data).1 = true :=
        fun hr => hn ⟨hp, hr⟩
      rw [(update_peak B oid ld s hp).1]
      unfold peak_homing
      rw [if_neg hr]
      split_ifs <;> exact ⟨rfl, rfl⟩
    · obtain ⟨a, b, _⟩ := update_not_peak B oid ld s hp
      exact ⟨a, b⟩

/-- A sample that makes the tap detector notify success does not rise. -/
theorem tap_success_not_rises (B oid : Nat) (ld : ldc1612_ng F) (s : Sample)
    (h : tap_success B oid ld s) : ¬ rises B oid ld s := by
  intro hr
  exact h.2 ((update_tap_start_time B oid ld s).1 hr).2.2

theorem run_cons_ld (B oid : Nat) (ld : ldc1612_ng F) (s : Sample) (rest : List Sample)
    (h : (ldc1612_ng_update B ld oid s).fatal = none) :
    (run B oid ld (s :: rest)).ld = (run B oid (ldc1612_ng_update B ld oid s).ld rest).ld ∧
    (run B oid ld (s :: rest)).fatal = (run B oid (ldc1612_ng_update B ld oid s).ld rest).fatal := by
  rw [run_cons_ok B oid ld s rest h]
  exact ⟨rfl, rfl⟩

theorem run_cons_fatal_none (B oid : Nat) (ld : ldc1612_ng F) (s : Sample) (rest : List Sample)
    (h : (run B oid ld (s :: rest)).fatal = none) :
    (ldc1612_ng_update B ld oid s).fatal = none := by
  by_contra hf
  rw [run_cons_fatal B oid ld s rest hf] at h
  exact hf h

/-- Along a run that is not stopped, the peak timestamp is the timestamp of
the last sample that rose, or still its initial value when no sample rose. -/
theorem run_tap_start_time (B oid : Nat) (pre : List Sample) :
    ∀ ld0 : ldc1612_ng F, (run B oid ld0 pre).fatal = none →
      (∃ p r q, pre = p ++ r :: q ∧ rises B oid (run B oid ld0 p).ld r ∧
          no_rise_after B oid ld0 (p ++ [r]) q ∧
          (run B oid ld0 pre).ld.homing.tap_start_time = r.time) ∨
      (no_rise_after B oid ld0 [] pre ∧
        (run B oid ld0 pre).ld.homing.tap_start_time = ld0.homing.tap_start_time) := by
  induction pre with
  | nil =>
    intro ld0 _
    right
    refine ⟨?_, rfl⟩
    intro q1 r q2 h
    simp at h
  | cons s rest ih =>
    intro ld0 hfat
    have hu := run_cons_fatal_none B oid ld0 s rest hfat
    obtain ⟨hld, hfa⟩ := run_cons_ld B oid ld0 s rest hu
    rw [hfa] at hfat
    have hstate : ∀ l, (run B oid ld0 (s :: l)).ld =
        (run B oid (ldc1612_ng_update B ld0 oid s).ld l).ld :=
      fun l => (run_cons_ld B oid ld0 s l hu).1
    rcases ih _ hfat with ⟨p, r, q, hpre, hr, hno, ht⟩ | ⟨hno, ht⟩
    · left
      refine ⟨s :: p, r, q, by rw [hpre]; rfl, ?_, ?_, ?_⟩
      · rw [hstate]; exact hr
      · intro q1 r' q2 hq
        have := hno q1 r' q2 hq
        rw [List.cons_append, List.cons_append, hstate]
        exact this
      · rw [hld]; exact ht
    · by_cases hrs : rises B oid ld0 s
      · left
        refine ⟨[], s, rest, rfl, hrs, ?_, ?_⟩
        · intro q1 r' q2 hq
          have := hno q1 r' q2 hq
          rw [List.nil_append, List.singleton_append, hstate]
          simpa using this
        · rw [hld, ht]
          exact ((update_tap_start_time B oid ld0 s).1 hrs).1
      · right
        refine ⟨?_, ?_⟩
        · intro q1 r' q2 hq
          rw [List.nil_append]
          cases q1 with
          | nil =>
            simp only [List.nil_append, List.cons.injEq] at hq
            rw [← hq.1]
            exact hrs
          | cons x q1' =>
            simp only [List.cons_append, List.cons.injEq] at hq
            rw [← hq.1, hstate]
            have := hno q1' r' q2 hq.2
            simpa using this
        · rw [hld, ht]
          exact ((update_tap_start_time B oid ld0 s).2 hrs).1

/-! ## C4: the peak timestamp reported with a tap -/

/-- C4 (failing input): a Tap session armed with thresholds 1000 and 2000.
The sample at time 100 (raw 5000) consumes the promotion and fixes the offset,
the sample at time 200 (raw 2100) opens the gate with a negative filtered
value, which counts as a fall from the initial peak `0`: the session notifies
success on it and reports the peak timestamp `0` left by arming, which is the
timestamp of no sample of the session. -/
theorem C4_success_reports_initial_peak_time :
    (command_ldc1612_ng_setup_home exampleChannel exampleTapArgs).fatal = none ∧
    (run 12 7 exampleTapArmed [⟨8, 100, 5000⟩]).fatal = none ∧
    tap_success 12 7 (run 12 7 exampleTapArmed [⟨8, 100, 5000⟩]).ld ⟨8, 200, 2100⟩ ∧
    (ldc1612_ng_update 12 (run 12 7 exampleTapArmed [⟨8, 100, 5000⟩]).ld 7 ⟨8, 200, 2100⟩).events
      = [Event.trigger 5 1 0] ∧
    (ldc1612_ng_update 12 (run 12 7 exampleTapArmed [⟨8, 100, 5000⟩]).ld 7
      ⟨8, 200, 2100⟩).ld.homing.tap_start_time = 0 ∧
    ¬ (∃ s ∈ [(⟨8, 100, 5000⟩ : Sample)],
        (ldc1612_ng_update 12 (run 12 7 exampleTapArmed [⟨8, 100, 5000⟩]).ld 7
          ⟨8, 200, 2100⟩).ld.homing.tap_start_time = s.time) := by
  decide!

/-- What the code reports with a tap: when a Tap session, armed
successfully, notifies success on a sample `s` that follows the samples `pre`,
the peak timestamp is the timestamp of the last sample of `pre` that reached
peak evaluation with a filtered value strictly above its predecessor; when no
sample of `pre` did so, it is the value `0` left by arming.  The trigger time
is the timestamp of `s`. -/
theorem tap_success_peak_time (B oid : Nat) (ld : ldc1612_ng F) (a : SetupHomeArgs)
    (hticks : ld.rest_ticks ≠ 0) (hidle : ld.homing.mode = 0)
    (hfreq : a.trigger_freq ≠ 0) (hts : a.trsync_oid ≠ 0)
    (hmode : a.mode % 256 = HOME_MODE_SOS)
    (pre : List Sample) (s : Sample)
    (hfat : (run B oid (command_ldc1612_ng_setup_home ld a).ld pre).fatal = none)
    (hs : tap_success B oid (run B oid (command_ldc1612_ng_setup_home ld a).ld pre).ld s) :
    (ldc1612_ng_update B (run B oid (command_ldc1612_ng_setup_home ld a).ld pre).ld oid
      s).ld.homing.trigger_time = s.time ∧
    ((∃ p r q, pre = p ++ r :: q ∧
        rises B oid (run B oid (command_ldc1612_ng_setup_home ld a).ld p).ld r ∧
        no_rise_after B oid (command_ldc1612_ng_setup_home ld a).ld (p ++ [r]) q ∧
        (ldc1612_ng_update B (run B oid (command_ldc1612_ng_setup_home ld a).ld pre).ld oid
          s).ld.homing.tap_start_time = r.time) ∨
     (no_rise_after B oid (command_ldc1612_ng_setup_home ld a).ld [] pre ∧
        (ldc1612_ng_update B (run B oid (command_ldc1612_ng_setup_home ld a).ld pre).ld oid
          s).ld.homing.tap_start_time = 0)) := by
  have harm : (command_ldc1612_ng_setup_home ld a).ld.homing.tap_start_time = 0 := by
    unfold command_ldc1612_ng_setup_home
    simp only []
    rw [if_neg (by simp [hfreq, hts]), if_neg hticks, if_neg (by simp [hidle])]
    have h1 : ¬ a.mode % 256 = HOME_MODE_HOME := by rw [hmode]; decide
    rw [if_neg h1, if_pos hmode]
    rfl
  have hkeep := ((update_tap_start_time B oid _ s).2 (tap_success_not_rises B oid _ s hs)).1
  constructor
  · have hp := update_peak B oid _ s hs.1
    have hne := hs.2
    rw [hp.2] at hne
    rw [hp.1]
    unfold peak_triggers at hne
    unfold peak_homing
    split_ifs at hne with hc
    · rw [if_pos hc.1, if_pos hc.2]
    · exact absurd rfl hne
  · rw [hkeep]
    rcases run_tap_start_time B oid pre _ hfat with h | ⟨hno, ht⟩
    · left; exact h
    · right
      exact ⟨hno, by rw [ht, harm]⟩

/-- The theorem `tap_success_peak_time` on a run in which the filtered values
rise at times 200 and 300 and fall at time 400. -/
theorem tap_success_peak_time_example :
    exampleChannel.rest_ticks ≠ 0 ∧ exampleChannel.homing.mode = 0 ∧
    exampleTapArgs.trigger_freq ≠ 0 ∧ exampleTapArgs.trsync_oid ≠ 0 ∧
    exampleTapArgs.mode % 256 = HOME_MODE_SOS ∧
    (run 12 7 (command_ldc1612_ng_setup_home exampleChannel exampleTapArgs).ld
      [⟨8, 100, 1500⟩, ⟨8, 200, 2100⟩, ⟨8, 300, 2200⟩]).fatal = none ∧
    tap_success 12 7 (run 12 7 (command_ldc1612_ng_setup_home exampleChannel exampleTapArgs).ld
      [⟨8, 100, 1500⟩, ⟨8, 200, 2100⟩, ⟨8, 300, 2200⟩]).ld ⟨8, 400, 2000⟩ ∧
    (ldc1612_ng_update 12 (run 12 7 (command_ldc1612_ng_setup_home exampleChannel exampleTapArgs).ld
      [⟨8, 100, 1500⟩, ⟨8, 200, 2100⟩, ⟨8, 300, 2200⟩]).ld 7
      ⟨8, 400, 2000⟩).ld.homing.tap_start_time = 300 ∧
    (ldc1612_ng_update 12 (run 12 7 (command_ldc1612_ng_setup_home exampleChannel exampleTapArgs).ld
      [⟨8, 100, 1500⟩, ⟨8, 200, 2100⟩, ⟨8, 300, 2200⟩]).ld 7
      ⟨8, 400, 2000⟩).ld.homing.trigger_time = (⟨8, 400, 2000⟩ : Sample).time :=
  ⟨by decide, by decide, by decide, by decide, by decide, by decide!, by decide!, by decide!,
    (tap_success_peak_time 12 7 exampleChannel exampleTapArgs (by decide) (by decide)
      (by decide) (by decide) (by decide)
      [⟨8, 100, 1500⟩, ⟨8, 200, 2100⟩, ⟨8, 300, 2200⟩] ⟨8, 400, 2000⟩
      (by decide!) (by decide!)).1⟩

/-! ## C5: the first sample after the gate opens -/

/-- As long as no sample reaches peak evaluation, the running peak, its
timestamp and the previous filtered value keep their values. -/
theorem run_no_peak_eval (B oid : Nat) (pre : List Sample) :
    ∀ ld0 : ldc1612_ng F, (run B oid ld0 pre).fatal = none → no_peak_eval B oid ld0 pre →
      (run B oid ld0 pre).ld.homing.tap_start_time = ld0.homing.tap_start_time ∧
      (run B oid ld0 pre).ld.homing.sos_tap.tap_start_value
        = ld0.homing.sos_tap.tap_start_value ∧
      (run B oid ld0 pre).ld.homing.sos_tap.last_value = ld0.homing.sos_tap.last_value := by
  induction pre with
  | nil => intro ld0 _ _; exact ⟨rfl, rfl, rfl⟩
  | cons s rest ih =>
    intro ld0 hfat hno
    have hu := run_cons_fatal_none B oid ld0 s rest hfat
    obtain ⟨hld, hfa⟩ := run_cons_ld B oid ld0 s rest hu
    rw [hfa] at hfat
    have h0 : ¬ peak_eval B oid ld0 s := hno [] s rest rfl
    have hrest : no_peak_eval B oid (ldc1612_ng_update B ld0 oid s).ld rest := by
      intro p r q hq
      have := hno (s :: p) r q (by rw [hq]; rfl)
      rw [(run_cons_ld B oid ld0 s p hu).1] at this
      exact this
    obtain ⟨a, b, c⟩ := ih _ hfat hrest
    obtain ⟨a0, b0, c0⟩ := update_not_peak B oid ld0 s h0
    rw [hld, a, b, c, a0, b0, c0]
    exact ⟨rfl, rfl, rfl⟩

theorem setup_home_tap_fields (ld : ldc1612_ng F) (a : SetupHomeArgs)
    (hticks : ld.rest_ticks ≠ 0) (hidle : ld.homing.mode = 0)
    (hfreq : a.trigger_freq ≠ 0) (hts : a.trsync_oid ≠ 0)
    (hmode : a.mode % 256 = HOME_MODE_SOS) :
    (command_ldc1612_ng_setup_home ld a).ld.homing =
      { (homing_zero : ldc1612_ng_homing F) with
        mode := HOME_MODE_SOS,
        safe_start_freq := a.start_freq,
        safe_start_time := a.start_time,
        homing_trigger_freq := a.trigger_freq,
        error_threshold := a.err_max % 256,
        sos_tap := { (homing_zero : ldc1612_ng_homing F).sos_tap with
          tap_threshold :=
            FloatOps.div (FloatOps.ofInt (toInt32 a.tap_threshold)) (FloatOps.ofNat 65536) } } ∧
    (command_ldc1612_ng_setup_home ld a).ld.ts = a.trsync_oid ∧
    (command_ldc1612_ng_setup_home ld a).ld.success_reason = a.trigger_reason % 256 ∧
    (command_ldc1612_ng_setup_home ld a).ld.other_reason_base = a.other_reason_base % 256 ∧
    (command_ldc1612_ng_setup_home ld a).ld.sos_filter = ld.sos_filter ∧
    (command_ldc1612_ng_setup_home ld a).ld.sensor_cvt = ld.sensor_cvt := by
  unfold command_ldc1612_ng_setup_home
  simp only []
  rw [if_neg (by simp [hfreq, hts]), if_neg hticks, if_neg (by simp [hidle])]
  have h1 : ¬ a.mode % 256 = HOME_MODE_HOME := by rw [hmode]; decide
  rw [if_neg h1, if_pos hmode, hmode]
  exact ⟨rfl, rfl, rfl, rfl, rfl, rfl⟩

/-- C5 (counterexample): a Tap session armed with thresholds 1000 and 2000
and tap threshold 2.  The sample at time 100 (raw 5000) consumes the promotion,
the sample at time 200 (raw 4999) is the first on which the gate reports
ready; its filtered value is `-1/2`.  After it the running peak is still `0`
and the peak timestamp is still `0`: the sample was not captured. -/
theorem C5_counterexample_negative_first_sample :
    (run 12 7 exampleTapArmedWide [⟨8, 100, 5000⟩]).fatal = none ∧
    ¬ peak_eval 12 7 exampleTapArmedWide ⟨8, 100, 5000⟩ ∧
    peak_eval 12 7 (run 12 7 exampleTapArmedWide [⟨8, 100, 5000⟩]).ld ⟨8, 200, 4999⟩ ∧
    (tap_filter (run 12 7 exampleTapArmedWide [⟨8, 100, 5000⟩]).ld 4999).1 = -1 / 2 ∧
    (ldc1612_ng_update 12 (run 12 7 exampleTapArmedWide [⟨8, 100, 5000⟩]).ld 7
      ⟨8, 200, 4999⟩).ld.homing.sos_tap.tap_start_value = 0 ∧
    (ldc1612_ng_update 12 (run 12 7 exampleTapArmedWide [⟨8, 100, 5000⟩]).ld 7
      ⟨8, 200, 4999⟩).ld.homing.tap_start_time = 0 ∧
    (ldc1612_ng_update 12 (run 12 7 exampleTapArmedWide [⟨8, 100, 5000⟩]).ld 7
      ⟨8, 200, 4999⟩).ld.homing.mode = HOME_MODE_SOS ∧
    ¬ ((ldc1612_ng_update 12 (run 12 7 exampleTapArmedWide [⟨8, 100, 5000⟩]).ld 7
        ⟨8, 200, 4999⟩).ld.homing.sos_tap.tap_start_value
          = (tap_filter (run 12 7 exampleTapArmedWide [⟨8, 100, 5000⟩]).ld 4999).1 ∧
       (ldc1612_ng_update 12 (run 12 7 exampleTapArmedWide [⟨8, 100, 5000⟩]).ld 7
        ⟨8, 200, 4999⟩).ld.homing.tap_start_time = (⟨8, 200, 4999⟩ : Sample).time) := by
  decide!

/-- C5 (amended): in a Tap session, armed successfully, let `s` be the first
sample for which the safety gate reports ready (no sample of `pre` reached peak
evaluation).  If the filtered value of `s` is strictly above `0`, the previous
filtered value left by arming, then after processing `s` the running peak
equals that filtered value, the peak timestamp equals the timestamp of `s`, the
previous filtered value is that filtered value, and nothing is notified. -/
theorem C5_first_ready_sample_captured_when_positive (B oid : Nat) (ld : ldc1612_ng F)
    (a : SetupHomeArgs)
    (hticks : ld.rest_ticks ≠ 0) (hidle : ld.homing.mode = 0)
    (hfreq : a.trigger_freq ≠ 0) (hts : a.trsync_oid ≠ 0)
    (hmode : a.mode % 256 = HOME_MODE_SOS)
    (pre : List Sample) (s : Sample)
    (hfat : (run B oid (command_ldc1612_ng_setup_home ld a).ld pre).fatal = none)
    (hfirst : no_peak_eval B oid (command_ldc1612_ng_setup_home ld a).ld pre)
    (hs : peak_eval B oid (run B oid (command_ldc1612_ng_setup_home ld a).ld pre).ld s)
    (hpos : FloatOps.lt FloatOps.zero
      (tap_filter (run B oid (command_ldc1612_ng_setup_home ld a).ld pre).ld s.data).1 = true) :
    (ldc1612_ng_update B (run B oid (command_ldc1612_ng_setup_home ld a).ld pre).ld oid
      s).ld.homing.sos_tap.tap_start_value
        = (tap_filter (run B oid (command_ldc1612_ng_setup_home ld a).ld pre).ld s.data).1 ∧
    (ldc1612_ng_update B (run B oid (command_ldc1612_ng_setup_home ld a).ld pre).ld oid
      s).ld.homing.tap_start_time = s.time ∧
    (ldc1612_ng_update B (run B oid (command_ldc1612_ng_setup_home ld a).ld pre).ld oid
      s).ld.homing.sos_tap.last_value
        = (tap_filter (run B oid (command_ldc1612_ng_setup_home ld a).ld pre).ld s.data).1 ∧
    triggers (ldc1612_ng_update B (run B oid (command_ldc1612_ng_setup_home ld a).ld pre).ld oid
      s).events = [] := by
  obtain ⟨harm, _⟩ := setup_home_tap_fields ld a hticks hidle hfreq hts hmode
  obtain ⟨_, _, hlast⟩ := run_no_peak_eval B oid pre _ hfat hfirst
  have hl0 : (run B oid (command_ldc1612_ng_setup_home ld a).ld pre).ld.homing.sos_tap.last_value
      = FloatOps.zero := by
    rw [hlast, harm]
    rfl
  have hr : rises B oid (run B oid (command_ldc1612_ng_setup_home ld a).ld pre).ld s :=
    ⟨hs, by rw [hl0]; exact hpos⟩
  obtain ⟨h1, h2, h3⟩ := (update_tap_start_time B oid _ s).1 hr
  refine ⟨h2, h1, ?_, h3⟩
  rw [(update_peak B oid _ s hs).1]
  unfold peak_homing
  rw [if_neg (by simp [FloatOps.lt_asymm _ _ hr.2]), if_pos hr.2]

/-- C5 (amended) on the run of `tap_success_peak_time_example`: the gate opens
at time 200 with filtered value `300`. -/
theorem C5_first_ready_sample_captured_when_positive_witness :
    exampleChannel.rest_ticks ≠ 0 ∧ exampleChannel.homing.mode = 0 ∧
    exampleTapArgs.trigger_freq ≠ 0 ∧ exampleTapArgs.trsync_oid ≠ 0 ∧
    exampleTapArgs.mode % 256 = HOME_MODE_SOS ∧
    (tap_filter (run 12 7 (command_ldc1612_ng_setup_home exampleChannel exampleTapArgs).ld
      [⟨8, 100, 1500⟩]).ld 2100).1 = 300 ∧
    ((ldc1612_ng_update 12
        (run 12 7 (command_ldc1612_ng_setup_home exampleChannel exampleTapArgs).ld
          [⟨8, 100, 1500⟩]).ld 7 ⟨8, 200, 2100⟩).ld.homing.sos_tap.tap_start_value = 300 ∧
      (ldc1612_ng_update 12
        (run 12 7 (command_ldc1612_ng_setup_home exampleChannel exampleTapArgs).ld
          [⟨8, 100, 1500⟩]).ld 7 ⟨8, 200, 2100⟩).ld.homing.tap_start_time = 200) := by
  have hv : (tap_filter (run 12 7 (command_ldc1612_ng_setup_home exampleChannel exampleTapArgs).ld
      [⟨8, 100, 1500⟩]).ld 2100).1 = 300 := by decide!
  have h := C5_first_ready_sample_captured_when_positive 12 7 exampleChannel exampleTapArgs
    (by decide) (by decide) (by decide) (by decide) (by decide)
    [⟨8, 100, 1500⟩] ⟨8, 200, 2100⟩ (by decide!)
    (by
      intro p r q hq
      cases p with
      | nil =>
        simp only [List.nil_append, List.cons.injEq] at hq
        rw [← hq.1]
        decide!
      | cons x p' =>
        simp only [List.cons_append, List.cons.injEq] at hq
        have := hq.2
        simp at this)
    (by decide!) (by decide!)
  rw [hv] at h
  exact ⟨by decide, by decide, by decide, by decide, by decide, hv, h.1, h.2.1⟩

/-! ## C6: the previous filtered value -/

/-- C6 (counterexample): in the session `exampleTapAtPeak` (previous filtered
value `3`) the sample with filtered value `5/2` reaches peak evaluation and
fires the trigger; afterwards the stored previous filtered value is still `3`,
not `5/2`. -/
theorem C6_counterexample_trigger_keeps_last_value :
    exampleTapAtPeak.homing.mode = HOME_MODE_SOS ∧
    SAMPLE_ERR 5 = 0 ∧
    (check_sos_tap exampleTapAtPeak 5 400).gate = some true ∧
    (check_sos_tap exampleTapAtPeak 5 400).events = [Event.trigger 5 1 0] ∧
    (tap_filter exampleTapAtPeak 5).1 = 5 / 2 ∧
    (check_sos_tap exampleTapAtPeak 5 400).ld.homing.sos_tap.last_value = 3 ∧
    (check_sos_tap exampleTapAtPeak 5 400).ld.homing.sos_tap.last_value
      ≠ (tap_filter exampleTapAtPeak 5).1 := by
  decide!

/-- C6 (amended): for a Tap-session sample that reaches peak evaluation
(error-free, promotion consumed, gate ready), after `check_sos_tap` returns the
stored previous filtered value equals the sample's filtered value when the
sample did not fire the trigger; when it fired the trigger, the stored value
is the one from before the sample and the session is Inactive. -/
theorem C6_last_value_after_peak_evaluation (ld : ldc1612_ng F) (data time : Nat)
    (hmode : ld.homing.mode = HOME_MODE_SOS)
    (herr : SAMPLE_ERR data = 0)
    (htf : ld.homing.homing_trigger_freq = 0)
    (hgate : (check_safe_start ld data time).val = true) :
    ((check_sos_tap ld data time).events = [] →
      (check_sos_tap ld data time).ld.homing.sos_tap.last_value = (tap_filter ld data).1 ∧
      (check_sos_tap ld data time).ld.homing.mode = HOME_MODE_SOS) ∧
    ((check_sos_tap ld data time).events ≠ [] →
      (check_sos_tap ld data time).events = [Event.trigger ld.ts (ld.success_reason % 256) 0] ∧
      (check_sos_tap ld data time).ld.homing.sos_tap.last_value = ld.homing.sos_tap.last_value ∧
      (check_sos_tap ld data time).ld.homing.mode = 0) := by
  rw [check_sos_tap_ready ld data time herr htf hgate]
  split_ifs with h1 h2 h3
  · simp
  · simp [hmode]
  · simp [hmode]
  · simp [hmode]

/-- C6 (amended) on the session `exampleTapAtPeak` and a sample with filtered
value `7/2`, which rises and does not fire. -/
theorem C6_last_value_after_peak_evaluation_witness :
    exampleTapAtPeak.homing.mode = HOME_MODE_SOS ∧ SAMPLE_ERR 7 = 0 ∧
    exampleTapAtPeak.homing.homing_trigger_freq = 0 ∧
    (check_safe_start exampleTapAtPeak 7 400).val = true ∧
    (check_sos_tap exampleTapAtPeak 7 400).events = [] ∧
    (check_sos_tap exampleTapAtPeak 7 400).ld.homing.sos_tap.last_value
      = (tap_filter exampleTapAtPeak 7).1 :=
  ⟨by decide, by decide, by decide, by decide, by decide!,
    ((C6_last_value_after_peak_evaluation exampleTapAtPeak 7 400 (by decide) (by decide)
      (by decide) (by decide)).1 (by decide!)).1⟩

/-! ## C7: a plateau -/

/-- C7: in a Tap session whose gate is open, an error-free sample whose
filtered value equals the previous filtered value emits nothing and leaves the
running peak, its timestamp, the trigger time and the mode unchanged.  For the
error-free sample that follows, the fall is therefore decided against the
peak recorded before the plateau: if it is strictly below the plateau value,
it fires exactly when `peak - val2 >= tap_threshold` for that old peak, and the
peak timestamp it leaves is the old one. -/
theorem C7_equal_value_keeps_peak (ld : ldc1612_ng F) (data time data2 time2 : Nat)
    (hmode : ld.homing.mode = HOME_MODE_SOS)
    (hopen : ld.homing.safe_start_freq = 0 ∧ ld.homing.homing_trigger_freq = 0)
    (herr : SAMPLE_ERR data = 0)
    (heq : (tap_filter ld data).1 = ld.homing.sos_tap.last_value)
    (herr2 : SAMPLE_ERR data2 = 0) :
    (check_sos_tap ld data time).events = [] ∧
    (check_sos_tap ld data time).fatal = none ∧
    (check_sos_tap ld data time).ld.homing.sos_tap.tap_start_value
      = ld.homing.sos_tap.tap_start_value ∧
    (check_sos_tap ld data time).ld.homing.tap_start_time = ld.homing.tap_start_time ∧
    (check_sos_tap ld data time).ld.homing.trigger_time = ld.homing.trigger_time ∧
    (check_sos_tap ld data time).ld.homing.mode = HOME_MODE_SOS ∧
    (FloatOps.lt (tap_filter (check_sos_tap ld data time).ld data2).1 (tap_filter ld data).1
        = true →
      ((check_sos_tap (check_sos_tap ld data time).ld data2 time2).events ≠ [] ↔
        FloatOps.le ld.homing.sos_tap.tap_threshold
          (FloatOps.sub ld.homing.sos_tap.tap_start_value
            (tap_filter (check_sos_tap ld data time).ld data2).1) = true) ∧
      (check_sos_tap (check_sos_tap ld data time).ld data2 time2).ld.homing.tap_start_time
        = ld.homing.tap_start_time) := by
  have h1 : ¬ FloatOps.lt (tap_filter ld data).1 ld.homing.sos_tap.last_value = true := by
    rw [heq, float_lt_irrefl]; simp
  have h2 : ¬ FloatOps.lt ld.homing.sos_tap.last_value (tap_filter ld data).1 = true := by
    rw [heq, float_lt_irrefl]; simp
  have hstep : check_sos_tap ld data time =
      { ld := { ld with homing := { ld.homing with
                  error_count := 0,
                  sos_tap := { ld.homing.sos_tap with
                    state := (tap_filter ld data).2,
                    last_value := (tap_filter ld data).1 } } },
        events := [], fatal := none, gate := some true } := by
    rw [check_sos_tap_open ld data time herr hopen, if_neg h1, if_neg h2]
  refine ⟨by rw [hstep], by rw [hstep], by rw [hstep], by rw [hstep], by rw [hstep],
    by rw [hstep]; exact hmode, ?_⟩
  intro hfall
  rw [check_sos_tap_open (check_sos_tap ld data time).ld data2 time2 herr2
    (by rw [hstep]; exact hopen)]
  have hl : (check_sos_tap ld data time).ld.homing.sos_tap.last_value = (tap_filter ld data).1 := by
    rw [hstep]
  have hp : (check_sos_tap ld data time).ld.homing.sos_tap.tap_start_value
      = ld.homing.sos_tap.tap_start_value := by rw [hstep]
  have ht : (check_sos_tap ld data time).ld.homing.sos_tap.tap_threshold
      = ld.homing.sos_tap.tap_threshold := by rw [hstep]
  have hts : (check_sos_tap ld data time).ld.homing.tap_start_time
      = ld.homing.tap_start_time := by rw [hstep]
  rw [hl, hp, ht, if_pos hfall]
  split_ifs with h3
  · simp [h3, hts]
  · simp [h3, hts]

/-- C7 at the spec's plateau `3.0, 3.0, 2.9` with tap threshold `0.1`: the
first `3.0` (time 100) is the peak, the second `3.0` (time 200) emits nothing
and keeps it, and the sample `2.9` (time 300) fires with peak timestamp 100. -/
theorem C7_equal_value_keeps_peak_witness :
    (check_sos_tap examplePlateauOpen 30 100).ld.homing.mode = HOME_MODE_SOS ∧
    (tap_filter (check_sos_tap examplePlateauOpen 30 100).ld 30).1 = 3 ∧
    (check_sos_tap examplePlateauOpen 30 100).ld.homing.sos_tap.last_value = 3 ∧
    (check_sos_tap examplePlateauOpen 30 100).ld.homing.sos_tap.tap_start_value = 3 ∧
    (check_sos_tap examplePlateauOpen 30 100).ld.homing.tap_start_time = 100 ∧
    (tap_filter (check_sos_tap (check_sos_tap examplePlateauOpen 30 100).ld 30 200).ld 29).1
      = 29 / 10 ∧
    (check_sos_tap (check_sos_tap examplePlateauOpen 30 100).ld 30 200).events = [] ∧
    (check_sos_tap (check_sos_tap examplePlateauOpen 30 100).ld 30 200).ld.homing.tap_start_time
      = 100 ∧
    (check_sos_tap (check_sos_tap (check_sos_tap examplePlateauOpen 30 100).ld 30 200).ld
      29 300).events = [Event.trigger 5 1 0] ∧
    (check_sos_tap (check_sos_tap (check_sos_tap examplePlateauOpen 30 100).ld 30 200).ld
      29 300).ld.homing.tap_start_time = 100 := by
  have h := C7_equal_value_keeps_peak (check_sos_tap examplePlateauOpen 30 100).ld 30 200 29 300
    (by decide!) ⟨by decide!, by decide!⟩ (by decide) (by decide!) (by decide)
  have ht : (check_sos_tap examplePlateauOpen 30 100).ld.homing.tap_start_time = 100 := by
    decide!
  refine ⟨by decide!, by decide!, by decide!, by decide!, ht, by decide!, h.1, ?_, by decide!, ?_⟩
  · rw [h.2.2.2.1, ht]
  · rw [(h.2.2.2.2.2.2 (by decide!)).2, ht]

/-! ## The four outcomes of the safety gate -/

theorem check_safe_start_below (ld : ldc1612_ng F) (data time : Nat)
    (h0 : ld.homing.safe_start_freq ≠ 0) (h1 : data < ld.homing.safe_start_freq) :
    check_safe_start ld data time = { val := false, ld := ld, events := [] } := by
  unfold check_safe_start
  simp only []
  rw [if_neg h0, if_pos h1]

theorem check_safe_start_early (ld : ldc1612_ng F) (data time : Nat)
    (h0 : ld.homing.safe_start_freq ≠ 0) (h1 : ld.homing.safe_start_freq ≤ data)
    (h2 : too_early ld.homing.safe_start_time time) :
    check_safe_start ld data time =
      { val := false,
        ld := { ld with homing := { ld.homing with mode := 0 } },
        events := [Event.trigger ld.ts ((ld.other_reason_base + REASON_ERROR_TOO_EARLY) % 256)
          0] } := by
  unfold check_safe_start
  simp only []
  have h2' : ld.homing.safe_start_time ≠ 0 ∧
      timer_is_before time ld.homing.safe_start_time = true := h2
  rw [if_neg h0, if_neg (by omega), if_pos h2']
  rfl

theorem check_safe_start_promote (ld : ldc1612_ng F) (data time : Nat)
    (h0 : ld.homing.safe_start_freq ≠ 0) (h1 : ld.homing.safe_start_freq ≤ data)
    (h2 : ¬ too_early ld.homing.safe_start_time time)
    (h3 : ld.homing.mode ≠ 0) (h4 : ld.homing.homing_trigger_freq ≠ 0) :
    check_safe_start ld data time =
      { val := false,
        ld := { ld with homing := { ld.homing with
                  safe_start_freq := ld.homing.homing_trigger_freq,
                  homing_trigger_freq := 0 } },
        events := [] } := by
  unfold check_safe_start
  simp only []
  have h2' : ¬ (ld.homing.safe_start_time ≠ 0 ∧
      timer_is_before time ld.homing.safe_start_time = true) := h2
  rw [if_neg h0, if_neg (by omega), if_neg h2', if_pos ⟨by simp; omega, h4⟩]

theorem check_safe_start_pass (ld : ldc1612_ng F) (data time : Nat)
    (h0 : ld.homing.safe_start_freq ≠ 0) (h1 : ld.homing.safe_start_freq ≤ data)
    (h2 : ¬ too_early ld.homing.safe_start_time time)
    (h4 : ld.homing.homing_trigger_freq = 0) :
    check_safe_start ld data time =
      { val := true,
        ld := { ld with homing := { ld.homing with safe_start_freq := 0 } },
        events := [] } := by
  unfold check_safe_start
  simp only []
  have h2' : ¬ (ld.homing.safe_start_time ≠ 0 ∧
      timer_is_before time ld.homing.safe_start_time = true) := h2
  rw [if_neg h0, if_neg (by omega), if_neg h2', if_neg (fun h => h.2 h4)]

/-- What the gate emits and what it leaves in the fields it writes depends
on the thresholds, the mode, the trigger channel and the reason base only. -/
theorem check_safe_start_gatefields (ld1 ld2 : ldc1612_ng F) (data time : Nat)
    (hm : ld1.homing.mode = ld2.homing.mode)
    (h1 : ld1.homing.safe_start_freq = ld2.homing.safe_start_freq)
    (h2 : ld1.homing.safe_start_time = ld2.homing.safe_start_time)
    (h3 : ld1.homing.homing_trigger_freq = ld2.homing.homing_trigger_freq)
    (h4 : ld1.ts = ld2.ts) (h5 : ld1.other_reason_base = ld2.other_reason_base) :
    (check_safe_start ld1 data time).events = (check_safe_start ld2 data time).events ∧
    (check_safe_start ld1 data time).ld.homing.mode
      = (check_safe_start ld2 data time).ld.homing.mode ∧
    (check_safe_start ld1 data time).ld.homing.safe_start_freq
      = (check_safe_start ld2 data time).ld.homing.safe_start_freq ∧
    (check_safe_start ld1 data time).ld.homing.homing_trigger_freq
      = (check_safe_start ld2 data time).ld.homing.homing_trigger_freq := by
  unfold check_safe_start
  simp only [hm, h1, h2, h3, h4, h5, notify_trigger, trsync_do_trigger]
  split_ifs <;> simp [hm, h1, h3, h4]

/-- The tap detector during baseline capture, when the gate is not ready. -/
theorem check_sos_tap_baseline (ld : ldc1612_ng F) (data time : Nat)
    (herr : SAMPLE_ERR data = 0) (htf : ld.homing.homing_trigger_freq ≠ 0)
    (hg : (check_safe_start ld data time).val = false) :
    (check_sos_tap ld data time).fatal = none ∧
    (check_sos_tap ld data time).gate = some false ∧
    (check_sos_tap ld data time).events = (check_safe_start ld data time).events ∧
    (check_sos_tap ld data time).ld.homing.mode = (check_safe_start ld data time).ld.homing.mode ∧
    (check_sos_tap ld data time).ld.homing.safe_start_freq
      = (check_safe_start ld data time).ld.homing.safe_start_freq ∧
    (check_sos_tap ld data time).ld.homing.homing_trigger_freq
      = (check_safe_start ld data time).ld.homing.homing_trigger_freq ∧
    (check_sos_tap ld data time).ld.homing.safe_start_time = ld.homing.safe_start_time := by
  have hg1 : (check_safe_start
      ({ ld with homing := { ld.homing with
          error_count := 0,
          sos_tap := { ld.homing.sos_tap with
            frequency_offset := FloatOps.mul (FloatOps.ofNat data) ld.sensor_cvt } } } :
        ldc1612_ng F) data time).val = false := by
    rw [← hg]
    exact check_safe_start_val_congr _ _ data time rfl rfl rfl rfl
  have hfr := check_safe_start_frame ld data time
  have hfr1 := check_safe_start_frame
      ({ ld with homing := { ld.homing with
          error_count := 0,
          sos_tap := { ld.homing.sos_tap with
            frequency_offset := FloatOps.mul (FloatOps.ofNat data) ld.sensor_cvt } } } :
        ldc1612_ng F) data time
  have hsame := check_safe_start_gatefields ld
      ({ ld with homing := { ld.homing with
          error_count := 0,
          sos_tap := { ld.homing.sos_tap with
            frequency_offset := FloatOps.mul (FloatOps.ofNat data) ld.sensor_cvt } } } :
        ldc1612_ng F) data time rfl rfl rfl rfl rfl rfl
  unfold check_sos_tap
  simp only [check_error_clean ld data time herr]
  rw [if_neg (by simp), if_pos (by simpa using htf)]
  simp only [] at hg1 ⊢
  rw [if_neg (by rw [hg1]; simp)]
  refine ⟨rfl, rfl, ?_, ?_, ?_, ?_, ?_⟩
  · simp only [List.nil_append]; exact hsame.1.symm
  · exact hsame.2.1.symm
  · exact hsame.2.2.1.symm
  · exact hsame.2.2.2.symm
  · rw [hfr1]

/-- The tap detector after the promotion, when the gate is not ready. -/
theorem check_sos_tap_closed (ld : ldc1612_ng F) (data time : Nat)
    (herr : SAMPLE_ERR data = 0) (htf : ld.homing.homing_trigger_freq = 0)
    (hg : (check_safe_start ld data time).val = false) :
    (check_sos_tap ld data time).fatal = none ∧
    (check_sos_tap ld data time).gate = some false ∧
    (check_sos_tap ld data time).events = (check_safe_start ld data time).events ∧
    (check_sos_tap ld data time).ld.homing.mode = (check_safe_start ld data time).ld.homing.mode ∧
    (check_sos_tap ld data time).ld.homing.safe_start_freq
      = (check_safe_start ld data time).ld.homing.safe_start_freq ∧
    (check_sos_tap ld data time).ld.homing.homing_trigger_freq
      = (check_safe_start ld data time).ld.homing.homing_trigger_freq ∧
    (check_sos_tap ld data time).ld.homing.safe_start_time = ld.homing.safe_start_time := by
  have hg1 : (check_safe_start
      ({ ld with homing := { ld.homing with
          error_count := 0,
          sos_tap := { ld.homing.sos_tap with
            state := (sosfilter (FloatOps.sub (FloatOps.mul (FloatOps.ofNat data) ld.sensor_cvt)
              ld.homing.sos_tap.frequency_offset) ld.sos_filter ld.homing.sos_tap.state).2 } } } :
        ldc1612_ng F) data time).val = false := by
    rw [← hg]
    exact check_safe_start_val_congr _ _ data time rfl rfl rfl rfl
  have hfr1 := check_safe_start_frame
      ({ ld with homing := { ld.homing with
          error_count := 0,
          sos_tap := { ld.homing.sos_tap with
            state := (sosfilter (FloatOps.sub (FloatOps.mul (FloatOps.ofNat data) ld.sensor_cvt)
              ld.homing.sos_tap.frequency_offset) ld.sos_filter ld.homing.sos_tap.state).2 } } } :
        ldc1612_ng F) data time
  have hsame := check_safe_start_gatefields ld
      ({ ld with homing := { ld.homing with
          error_count := 0,
          sos_tap := { ld.homing.sos_tap with
            state := (sosfilter (FloatOps.sub (FloatOps.mul (FloatOps.ofNat data) ld.sensor_cvt)
              ld.homing.sos_tap.frequency_offset) ld.sos_filter ld.homing.sos_tap.state).2 } } } :
        ldc1612_ng F) data time rfl rfl rfl rfl rfl rfl
  unfold check_sos_tap
  simp only [check_error_clean ld data time herr]
  rw [if_neg (by simp), if_neg (by simpa using htf)]
  simp only [] at hg1 ⊢
  rw [if_pos hg1]
  refine ⟨rfl, rfl, ?_, ?_, ?_, ?_, ?_⟩
  · simp only [List.nil_append]; exact hsame.1.symm
  · exact hsame.2.1.symm
  · exact hsame.2.2.1.symm
  · exact hsame.2.2.2.symm
  · rw [hfr1]

/-! ## C9: the too-early abort -/

/-- The Home detector on an error-free sample for which the gate is not ready. -/
theorem check_homing_closed (ld : ldc1612_ng F) (data time : Nat)
    (herr : SAMPLE_ERR data = 0)
    (hg : (check_safe_start ld data time).val = false) :
    (check_homing ld data time).fatal = none ∧
    (check_homing ld data time).gate = some false ∧
    (check_homing ld data time).events = (check_safe_start ld data time).events ∧
    (check_homing ld data time).ld.homing.mode = (check_safe_start ld data time).ld.homing.mode ∧
    (check_homing ld data time).ld.homing.safe_start_freq
      = (check_safe_start ld data time).ld.homing.safe_start_freq ∧
    (check_homing ld data time).ld.homing.homing_trigger_freq
      = (check_safe_start ld data time).ld.homing.homing_trigger_freq := by
  have hg1 : (check_safe_start
      ({ ld with homing := { ld.homing with error_count := 0 } } : ldc1612_ng F)
      data time).val = false := by
    rw [← hg]
    exact check_safe_start_val_congr _ _ data time rfl rfl rfl rfl
  have hsame := check_safe_start_gatefields ld
      ({ ld with homing := { ld.homing with error_count := 0 } } : ldc1612_ng F)
      data time rfl rfl rfl rfl rfl rfl
  unfold check_homing
  simp only [check_error_clean ld data time herr]
  rw [if_neg (by simp)]
  simp only [] at hg1 ⊢
  rw [if_pos hg1]
  refine ⟨rfl, rfl, ?_, ?_, ?_, ?_⟩
  · simp only [List.nil_append]; exact hsame.1.symm
  · exact hsame.2.1.symm
  · exact hsame.2.2.1.symm
  · exact hsame.2.2.2.symm

/-- C9 (counterexample): a Home session armed with other-reason base 254,
success reason `0`, start value 1000 and start time 5000.  The error-free
sample with raw value 1500 at time 100 is too early; the abort notification
carries the reason `0`, the 8-bit value of `254 + 2`, which is not
`other_reason_base + 2 = 256` and is the success reason of the session. -/
theorem C9_counterexample_reason_wraps :
    (command_ldc1612_ng_setup_home exampleChannel exampleHomeArgsHighBase).fatal = none ∧
    (command_ldc1612_ng_setup_home exampleChannel exampleHomeArgsHighBase).ld.homing.mode
      = HOME_MODE_HOME ∧
    (command_ldc1612_ng_setup_home exampleChannel exampleHomeArgsHighBase).ld.other_reason_base
      = 254 ∧
    (command_ldc1612_ng_setup_home exampleChannel exampleHomeArgsHighBase).ld.success_reason
      = 0 ∧
    (command_ldc1612_ng_setup_home exampleChannel
      exampleHomeArgsHighBase).ld.homing.safe_start_freq = 1000 ∧
    (command_ldc1612_ng_setup_home exampleChannel
      exampleHomeArgsHighBase).ld.homing.safe_start_time = 5000 ∧
    clean ⟨8, 100, 1500⟩ ∧ timer_is_before 100 5000 = true ∧
    (check_safe_start
      (command_ldc1612_ng_setup_home exampleChannel exampleHomeArgsHighBase).ld 1500 100).events
      = [Event.trigger 5 0 0] ∧
    triggers (ldc1612_ng_update 12
      (command_ldc1612_ng_setup_home exampleChannel exampleHomeArgsHighBase).ld 7
      ⟨8, 100, 1500⟩).events = [Event.trigger 5 0 0] ∧
    (0 : Nat) ≠ 254 + REASON_ERROR_TOO_EARLY := by
  decide

/-- C9 (amended): in an active session (Home or Tap) with start-value threshold
`V != 0` and start-time threshold `T != 0`, an error-free sample that was read,
has raw value `>= V` and a timestamp before `T` in the wrap-around ordering of
the 32-bit timer makes `check_safe_start` report not-ready, emit exactly one
abort notification whose reason is the 8-bit sum `(other_reason_base + 2) mod
256`, and set the mode to `0`.  The data-ready event as a whole emits exactly
this notification, leaves the session Inactive without stopping the machine,
and every later sequence of samples emits no notification and leaves the
session record unchanged.  The reason is `other_reason_base + 2` itself
whenever `other_reason_base <= 253`. -/
theorem C9_too_early_aborts (B oid : Nat) (ld : ldc1612_ng F) (s : Sample)
    (later : List Sample)
    (hst : s.status &&& STATUS_UNREADCONV0 ≠ 0)
    (hactive : ld.homing.mode = HOME_MODE_HOME ∨ ld.homing.mode = HOME_MODE_SOS)
    (hV : ld.homing.safe_start_freq ≠ 0) (hT : ld.homing.safe_start_time ≠ 0)
    (herr : SAMPLE_ERR s.data = 0)
    (hge : ld.homing.safe_start_freq ≤ s.data)
    (hbefore : timer_is_before s.time ld.homing.safe_start_time = true) :
    (check_safe_start ld s.data s.time).val = false ∧
    (check_safe_start ld s.data s.time).events =
      [Event.trigger ld.ts ((ld.other_reason_base + REASON_ERROR_TOO_EARLY) % 256) 0] ∧
    (check_safe_start ld s.data s.time).ld.homing.mode = 0 ∧
    triggers (ldc1612_ng_update B ld oid s).events =
      [Event.trigger ld.ts ((ld.other_reason_base + REASON_ERROR_TOO_EARLY) % 256) 0] ∧
    (ldc1612_ng_update B ld oid s).ld.homing.mode = 0 ∧
    (ldc1612_ng_update B ld oid s).fatal = none ∧
    (ldc1612_ng_update B ld oid s).gate = some false ∧
    triggers (run B oid (ldc1612_ng_update B ld oid s).ld later).events = [] ∧
    (run B oid (ldc1612_ng_update B ld oid s).ld later).ld.homing
      = (ldc1612_ng_update B ld oid s).ld.homing ∧
    (run B oid (ldc1612_ng_update B ld oid s).ld later).fatal = none ∧
    (ld.other_reason_base ≤ 253 →
      (ld.other_reason_base + REASON_ERROR_TOO_EARLY) % 256 = ld.other_reason_base + 2) := by
  have hearly := check_safe_start_early ld s.data s.time hV hge ⟨hT, hbefore⟩
  have hearly' := check_safe_start_early (at_switch ld s) s.data s.time hV hge ⟨hT, hbefore⟩
  have hval : (check_safe_start (at_switch ld s) s.data s.time).val = false := by rw [hearly']
  have hev : (check_safe_start (at_switch ld s) s.data s.time).events =
      [Event.trigger ld.ts ((ld.other_reason_base + REASON_ERROR_TOO_EARLY) % 256) 0] := by
    rw [hearly']; rfl
  have hmo : (check_safe_start (at_switch ld s) s.data s.time).ld.homing.mode = 0 := by
    rw [hearly']
  have hupd : triggers (ldc1612_ng_update B ld oid s).events =
        [Event.trigger ld.ts ((ld.other_reason_base + REASON_ERROR_TOO_EARLY) % 256) 0] ∧
      (ldc1612_ng_update B ld oid s).ld.homing.mode = 0 ∧
      (ldc1612_ng_update B ld oid s).fatal = none ∧
      (ldc1612_ng_update B ld oid s).gate = some false := by
    rcases hactive with hm | hm
    · obtain ⟨a, b, c, d, _⟩ := check_homing_closed (at_switch ld s) s.data s.time herr hval
      rw [update_home B oid ld s hst hm, update_flush_triggers, update_flush_homing,
        update_flush_fatal, update_flush_gate, a, b, c, d, hev, hmo]
      exact ⟨rfl, rfl, rfl, rfl⟩
    · by_cases htf : ld.homing.homing_trigger_freq = 0
      · obtain ⟨a, b, c, d, _⟩ :=
          check_sos_tap_closed (at_switch ld s) s.data s.time herr htf hval
        rw [update_tap B oid ld s hst hm, update_flush_triggers, update_flush_homing,
          update_flush_fatal, update_flush_gate, a, b, c, d, hev, hmo]
        exact ⟨rfl, rfl, rfl, rfl⟩
      · obtain ⟨a, b, c, d, _⟩ :=
          check_sos_tap_baseline (at_switch ld s) s.data s.time herr htf hval
        rw [update_tap B oid ld s hst hm, update_flush_triggers, update_flush_homing,
          update_flush_fatal, update_flush_gate, a, b, c, d, hev, hmo]
        exact ⟨rfl, rfl, rfl, rfl⟩
  obtain ⟨u1, u2, u3, u4⟩ := hupd
  obtain ⟨r1, r2, r3⟩ := run_inactive B oid later _ u2
  refine ⟨by rw [hearly], by rw [hearly], by rw [hearly], u1, u2, u3, u4, r1, r2, r3, ?_⟩
  intro hb
  unfold REASON_ERROR_TOO_EARLY
  exact Nat.mod_eq_of_lt (by omega)

/-- C9 on a Home session armed with start value 1000 and start time 5000: the
sample with raw value 1500 at time 100 aborts with reason `10 + 2`. -/
theorem C9_too_early_aborts_witness :
    (8 : Nat) &&& STATUS_UNREADCONV0 ≠ 0 ∧
    (command_ldc1612_ng_setup_home exampleChannel exampleHomeArgsTimed).ld.homing.mode
      = HOME_MODE_HOME ∧
    (command_ldc1612_ng_setup_home exampleChannel exampleHomeArgsTimed).ld.homing.safe_start_freq
      = 1000 ∧
    (command_ldc1612_ng_setup_home exampleChannel exampleHomeArgsTimed).ld.homing.safe_start_time
      = 5000 ∧
    SAMPLE_ERR 1500 = 0 ∧ timer_is_before 100 5000 = true ∧
    triggers (ldc1612_ng_update 12
      (command_ldc1612_ng_setup_home exampleChannel exampleHomeArgsTimed).ld 7
      ⟨8, 100, 1500⟩).events = [Event.trigger 5 12 0] ∧
    triggers (run 12 7 (ldc1612_ng_update 12
      (command_ldc1612_ng_setup_home exampleChannel exampleHomeArgsTimed).ld 7
      ⟨8, 100, 1500⟩).ld [⟨8, 6000, 4000⟩, ⟨8, 7000, 4000⟩]).events = [] := by
  have h := C9_too_early_aborts 12 7
    (command_ldc1612_ng_setup_home exampleChannel exampleHomeArgsTimed).ld ⟨8, 100, 1500⟩
    [⟨8, 6000, 4000⟩, ⟨8, 7000, 4000⟩] (by decide) (Or.inl (by decide)) (by decide) (by decide)
    (by decide) (by decide) (by decide)
  exact ⟨by decide, by decide, by decide, by decide, by decide, by decide, h.2.2.2.1,
    h.2.2.2.2.2.2.2.1⟩

/-! ## C10: error streaks -/

/-- The error check on a sample with error flags in an active session: the
consecutive-error counter is incremented as an 8-bit value and compared with
the threshold. -/
theorem check_error_flagged (ld : ldc1612_ng F) (data time : Nat)
    (herr : SAMPLE_ERR data ≠ 0) (hm : ld.homing.mode ≠ 0) :
    check_error ld data time =
      if (ld.homing.error_count + 1) % 256 ≤ ld.homing.error_threshold then
        { val := false,
          ld := { ld with homing := { ld.homing with
                    error_count := (ld.homing.error_count + 1) % 256 } },
          events := [] }
      else
        { val := false,
          ld := { ld with homing := { ld.homing with
                    mode := 0,
                    error_count := (ld.homing.error_count + 1) % 256,
                    error := data } },
          events := [Event.trigger ld.ts ((ld.other_reason_base + REASON_ERROR_SENSOR) % 256)
            0] } := by
  unfold check_error
  rw [if_neg herr]
  simp only []
  have h1 : ¬ ((!decide (ld.homing.mode > 0)) && decide (ld.last_status &&& STATUS_ERR_AHE ≠ 0))
      = true := by
    have : ld.homing.mode > 0 := Nat.pos_of_ne_zero hm
    simp [this]
  rw [if_neg h1]
  split_ifs <;> rfl

/-- A data-ready event whose sample has error flags, in an active session:
the sample only goes through the error check. -/
theorem update_error_sample (B oid : Nat) (ld : ldc1612_ng F) (s : Sample)
    (hst : s.status &&& STATUS_UNREADCONV0 ≠ 0)
    (hactive : ld.homing.mode = HOME_MODE_HOME ∨ ld.homing.mode = HOME_MODE_SOS)
    (herr : SAMPLE_ERR s.data ≠ 0) :
    (ldc1612_ng_update B ld oid s).ld.homing
      = (check_error (at_switch ld s) s.data s.time).ld.homing ∧
    triggers (ldc1612_ng_update B ld oid s).events
      = triggers (check_error (at_switch ld s) s.data s.time).events ∧
    (ldc1612_ng_update B ld oid s).fatal = none ∧
    (ldc1612_ng_update B ld oid s).gate = none ∧
    (ldc1612_ng_update B ld oid s).ld.ts = ld.ts ∧
    (ldc1612_ng_update B ld oid s).ld.other_reason_base = ld.other_reason_base := by
  have hv : (check_error (at_switch ld s) s.data s.time).val = false := by
    cases h : (check_error (at_switch ld s) s.data s.time).val
    · rfl
    · exact absurd ((check_error_val _ _ _).mp h) herr
  have hfr := check_error_frame (at_switch ld s) s.data s.time
  have hts : ∀ r : SampleStep F, (update_flush B oid r).ld.ts = r.ld.ts ∧
      (update_flush B oid r).ld.other_reason_base = r.ld.other_reason_base := by
    intro r
    unfold update_flush flush_buffer
    split_ifs <;> exact ⟨rfl, rfl⟩
  rcases hactive with hm | hm
  · have hstep : check_homing (at_switch ld s) s.data s.time =
        { ld := (check_error (at_switch ld s) s.data s.time).ld,
          events := (check_error (at_switch ld s) s.data s.time).events,
          fatal := none, gate := none } := by
      unfold check_homing
      simp only []
      rw [if_pos hv]
    rw [update_home B oid ld s hst hm, update_flush_homing, update_flush_triggers,
      update_flush_fatal, update_flush_gate, (hts _).1, (hts _).2, hstep]
    refine ⟨rfl, rfl, rfl, rfl, ?_, ?_⟩
    · simp only []; rw [hfr]; rfl
    · simp only []; rw [hfr]; rfl
  · have hstep : check_sos_tap (at_switch ld s) s.data s.time =
        { ld := (check_error (at_switch ld s) s.data s.time).ld,
          events := (check_error (at_switch ld s) s.data s.time).events,
          fatal := none, gate := none } := by
      unfold check_sos_tap
      simp only []
      rw [if_pos hv]
    rw [update_tap B oid ld s hst hm, update_flush_homing, update_flush_triggers,
      update_flush_fatal, update_flush_gate, (hts _).1, (hts _).2, hstep]
    refine ⟨rfl, rfl, rfl, rfl, ?_, ?_⟩
    · simp only []; rw [hfr]; rfl
    · simp only []; rw [hfr]; rfl

/-- A streak of flagged samples that stays within the error threshold is
dropped: only the error counter moves. -/
theorem run_tolerated_errors (B oid : Nat) (xs : List Sample) :
    ∀ ld : ldc1612_ng F,
      (ld.homing.mode = HOME_MODE_HOME ∨ ld.homing.mode = HOME_MODE_SOS) →
      (∀ x ∈ xs, flagged x) →
      ld.homing.error_count + xs.length ≤ ld.homing.error_threshold →
      ld.homing.error_threshold ≤ 255 →
      (run B oid ld xs).fatal = none ∧
      triggers (run B oid ld xs).events = [] ∧
      (run B oid ld xs).ld.homing =
        { ld.homing with error_count := ld.homing.error_count + xs.length } ∧
      (run B oid ld xs).ld.ts = ld.ts ∧
      (run B oid ld xs).ld.other_reason_base = ld.other_reason_base := by
  induction xs with
  | nil =>
    intro ld _ _ _ _
    simp [run, triggers]
  | cons s rest ih =>
    intro ld hact hfl hle h255
    have hs := hfl s (List.mem_cons_self _ _)
    obtain ⟨u1, u2, u3, _, u5, u6⟩ := update_error_sample B oid ld s hs.1 hact hs.2
    have hm : (at_switch ld s).homing.mode ≠ 0 := by
      rw [at_switch_homing]
      rcases hact with h | h <;> rw [h] <;> decide
    have hlen : (s :: rest).length = rest.length + 1 := rfl
    rw [hlen] at hle
    have hce := check_error_flagged (at_switch ld s) s.data s.time hs.2 hm
    have hmod : (ld.homing.error_count + 1) % 256 = ld.homing.error_count + 1 :=
      Nat.mod_eq_of_lt (by omega)
    rw [at_switch_homing, hmod, if_pos (by omega)] at hce
    rw [hce] at u1 u2
    simp only [] at u1 u2
    have hact' : (ldc1612_ng_update B ld oid s).ld.homing.mode = HOME_MODE_HOME ∨
        (ldc1612_ng_update B ld oid s).ld.homing.mode = HOME_MODE_SOS := by
      rw [u1]; exact hact
    obtain ⟨i1, i2, i3, i4, i5⟩ := ih (ldc1612_ng_update B ld oid s).ld hact'
      (fun x hx => hfl x (List.mem_cons_of_mem _ hx))
      (by rw [u1]; simp only []; omega) (by rw [u1]; exact h255)
    rw [run_cons_ok B oid ld s rest u3]
    refine ⟨i1, ?_, ?_, ?_, ?_⟩
    · simp only [triggers_append, u2, i2]
      rfl
    · simp only []
      rw [i3, u1]
      simp only [hlen]
      congr 1
      omega
    · simp only []; rw [i4, u5]
    · simp only []; rw [i5, u6]

/-- C10 (amended): for every error threshold `n` in `0..254` and every active
session whose error counter is `0`, feeding `n + 1` consecutive samples with
error flags behaves as follows: the first `n` emit no notification, leave the
session active and change only the error counter; the `(n+1)`-th emits exactly
one abort notification with the 8-bit reason `other_reason_base + 0`, sets the
mode to `0` and records that sample as the last error. -/
theorem C10_error_streak_aborts (B oid : Nat) (ld : ldc1612_ng F) (pre : List Sample)
    (s : Sample)
    (hactive : ld.homing.mode = HOME_MODE_HOME ∨ ld.homing.mode = HOME_MODE_SOS)
    (hcount : ld.homing.error_count = 0)
    (hn : ld.homing.error_threshold ≤ 254)
    (hlen : pre.length = ld.homing.error_threshold)
    (hpre : ∀ x ∈ pre, flagged x)
    (hs : flagged s) :
    (run B oid ld pre).fatal = none ∧
    triggers (run B oid ld pre).events = [] ∧
    (run B oid ld pre).ld.homing = { ld.homing with error_count := pre.length } ∧
    (run B oid ld pre).ld.homing.mode = ld.homing.mode ∧
    triggers (ldc1612_ng_update B (run B oid ld pre).ld oid s).events =
      [Event.trigger ld.ts ((ld.other_reason_base + REASON_ERROR_SENSOR) % 256) 0] ∧
    (ldc1612_ng_update B (run B oid ld pre).ld oid s).ld.homing.mode = 0 ∧
    (ldc1612_ng_update B (run B oid ld pre).ld oid s).ld.homing.error = s.data ∧
    (ldc1612_ng_update B (run B oid ld pre).ld oid s).fatal = none := by
  obtain ⟨r1, r2, r3, r4, r5⟩ := run_tolerated_errors B oid pre ld hactive hpre
    (by rw [hcount, hlen]; omega) (by omega)
  rw [hcount, Nat.zero_add] at r3
  have hmode : (run B oid ld pre).ld.homing.mode = ld.homing.mode := by rw [r3]
  have hact' : (run B oid ld pre).ld.homing.mode = HOME_MODE_HOME ∨
      (run B oid ld pre).ld.homing.mode = HOME_MODE_SOS := by rw [hmode]; exact hactive
  obtain ⟨u1, u2, u3, _, _, _⟩ :=
    update_error_sample B oid (run B oid ld pre).ld s hs.1 hact' hs.2
  have hm : (at_switch (run B oid ld pre).ld s).homing.mode ≠ 0 := by
    rw [at_switch_homing, hmode]
    rcases hactive with h | h <;> rw [h] <;> decide
  have hce := check_error_flagged (at_switch (run B oid ld pre).ld s) s.data s.time hs.2 hm
  have hcnt : (at_switch (run B oid ld pre).ld s).homing.error_count = pre.length := by
    rw [at_switch_homing, r3]
  have hthr : (at_switch (run B oid ld pre).ld s).homing.error_threshold
      = ld.homing.error_threshold := by
    rw [at_switch_homing, r3]
  have hmod : (pre.length + 1) % 256 = pre.length + 1 := Nat.mod_eq_of_lt (by omega)
  rw [hcnt, hthr, hmod, if_neg (by omega)] at hce
  rw [hce] at u1 u2
  refine ⟨r1, r2, r3, hmode, ?_, ?_, ?_, u3⟩
  · rw [u2]
    simp only [triggers, List.filter, Event.isTrigger]
    have e1 : (at_switch (run B oid ld pre).ld s).ts = ld.ts := r4
    have e2 : (at_switch (run B oid ld pre).ld s).other_reason_base = ld.other_reason_base := r5
    rw [e1, e2]
  · rw [u1]
  · rw [u1]

/-- C10 (counterexample): with error threshold 255, a Home session whose error
counter is `0` receives 256 consecutive samples with error flags.  The first
255 are dropped, and so is the 256-th: the 8-bit counter wraps from 255 to `0`,
which does not exceed the threshold, so no abort is notified and the session
stays active. -/
theorem C10_counterexample_threshold_255 :
    (command_ldc1612_ng_setup_home exampleChannel exampleHomeArgsMaxErrors).ld.homing.mode
      = HOME_MODE_HOME ∧
    (command_ldc1612_ng_setup_home exampleChannel exampleHomeArgsMaxErrors).ld.homing.error_threshold
      = 255 ∧
    (command_ldc1612_ng_setup_home exampleChannel exampleHomeArgsMaxErrors).ld.homing.error_count
      = 0 ∧
    flagged exampleErrorSample ∧
    (run 12 7 (command_ldc1612_ng_setup_home exampleChannel exampleHomeArgsMaxErrors).ld
      (List.replicate 255 exampleErrorSample)).ld.homing.error_count = 255 ∧
    triggers (ldc1612_ng_update 12
      (run 12 7 (command_ldc1612_ng_setup_home exampleChannel exampleHomeArgsMaxErrors).ld
        (List.replicate 255 exampleErrorSample)).ld 7 exampleErrorSample).events = [] ∧
    (ldc1612_ng_update 12
      (run 12 7 (command_ldc1612_ng_setup_home exampleChannel exampleHomeArgsMaxErrors).ld
        (List.replicate 255 exampleErrorSample)).ld 7 exampleErrorSample).ld.homing.mode
      = HOME_MODE_HOME ∧
    (ldc1612_ng_update 12
      (run 12 7 (command_ldc1612_ng_setup_home exampleChannel exampleHomeArgsMaxErrors).ld
        (List.replicate 255 exampleErrorSample)).ld 7 exampleErrorSample).ld.homing.error_count
      = 0 := by
  decide!

/-- C10 (amended) on a Home session armed with error threshold 2. -/
theorem C10_error_streak_aborts_witness :
    (command_ldc1612_ng_setup_home exampleChannel exampleHomeArgs).ld.homing.mode
      = HOME_MODE_HOME ∧
    (command_ldc1612_ng_setup_home exampleChannel exampleHomeArgs).ld.homing.error_count = 0 ∧
    (command_ldc1612_ng_setup_home exampleChannel exampleHomeArgs).ld.homing.error_threshold
      = 2 ∧
    flagged exampleErrorSample ∧
    triggers (run 12 7 (command_ldc1612_ng_setup_home exampleChannel exampleHomeArgs).ld
      [exampleErrorSample, exampleErrorSample]).events = [] ∧
    triggers (ldc1612_ng_update 12
      (run 12 7 (command_ldc1612_ng_setup_home exampleChannel exampleHomeArgs).ld
        [exampleErrorSample, exampleErrorSample]).ld 7 exampleErrorSample).events
      = [Event.trigger 5 10 0] ∧
    (ldc1612_ng_update 12
      (run 12 7 (command_ldc1612_ng_setup_home exampleChannel exampleHomeArgs).ld
        [exampleErrorSample, exampleErrorSample]).ld 7 exampleErrorSample).ld.homing.error
      = 2 ^ 28 := by
  have h := C10_error_streak_aborts 12 7
    (command_ldc1612_ng_setup_home exampleChannel exampleHomeArgs).ld
    [exampleErrorSample, exampleErrorSample] exampleErrorSample
    (Or.inl (by decide)) (by decide) (by decide) (by decide) (by decide) (by decide)
  exact ⟨by decide, by decide, by decide, by decide, h.2.1, h.2.2.2.2.1, h.2.2.2.2.2.2.1⟩

/-! ## C8: two-stage gating of a Tap session -/

/-- A data-ready event of a Tap session with an error-free sample for which
the gate is not ready: the event does to the gate fields what the gate does. -/
theorem update_tap_not_ready (B oid : Nat) (ld : ldc1612_ng F) (s : Sample)
    (hm : ld.homing.mode = HOME_MODE_SOS) (hc : clean s)
    (hg : (check_safe_start ld s.data s.time).val = false) :
    (ldc1612_ng_update B ld oid s).fatal = none ∧
    (ldc1612_ng_update B ld oid s).gate = some false ∧
    triggers (ldc1612_ng_update B ld oid s).events
      = triggers (check_safe_start ld s.data s.time).events ∧
    (ldc1612_ng_update B ld oid s).ld.homing.mode
      = (check_safe_start ld s.data s.time).ld.homing.mode ∧
    (ldc1612_ng_update B ld oid s).ld.homing.safe_start_freq
      = (check_safe_start ld s.data s.time).ld.homing.safe_start_freq ∧
    (ldc1612_ng_update B ld oid s).ld.homing.homing_trigger_freq
      = (check_safe_start ld s.data s.time).ld.homing.homing_trigger_freq ∧
    (ldc1612_ng_update B ld oid s).ld.homing.safe_start_time = ld.homing.safe_start_time := by
  have hg' : (check_safe_start (at_switch ld s) s.data s.time).val = false := by
    rw [← hg]
    exact check_safe_start_val_congr _ _ _ _ rfl rfl rfl rfl
  obtain ⟨e1, e2, e3, e4⟩ := check_safe_start_gatefields (at_switch ld s) ld s.data s.time
    rfl rfl rfl rfl rfl rfl
  rw [update_tap B oid ld s hc.1 hm, update_flush_fatal, update_flush_gate,
    update_flush_triggers, update_flush_homing]
  by_cases htf : ld.homing.homing_trigger_freq = 0
  · obtain ⟨a, b, c, d, e, f, g⟩ :=
      check_sos_tap_closed (at_switch ld s) s.data s.time hc.2 htf hg'
    rw [a, b, c, d, e, f, g, e1, e2, e3, e4]
    exact ⟨rfl, rfl, rfl, rfl, rfl, rfl, rfl⟩
  · obtain ⟨a, b, c, d, e, f, g⟩ :=
      check_sos_tap_baseline (at_switch ld s) s.data s.time hc.2 htf hg'
    rw [a, b, c, d, e, f, g, e1, e2, e3, e4]
    exact ⟨rfl, rfl, rfl, rfl, rfl, rfl, rfl⟩

/-- After peak evaluation the session has either ended with a notification or
continues with an open gate and without one. -/
theorem peak_homing_cases (ld : ldc1612_ng F) (s : Sample) :
    (peak_triggers ld s = [] ∧ (peak_homing ld s).mode = ld.homing.mode ∧
      (peak_homing ld s).safe_start_freq = 0 ∧
      (peak_homing ld s).homing_trigger_freq = ld.homing.homing_trigger_freq) ∨
    (peak_triggers ld s ≠ [] ∧ (peak_homing ld s).mode = 0) := by
  unfold peak_homing peak_triggers
  by_cases h1 : FloatOps.lt (tap_filter ld s.data).1 ld.homing.sos_tap.last_value = true
  · by_cases h2 : FloatOps.le ld.homing.sos_tap.tap_threshold
        (FloatOps.sub ld.homing.sos_tap.tap_start_value (tap_filter ld s.data).1) = true
    · right
      rw [if_pos h1, if_pos h2, if_pos ⟨h1, h2⟩]
      exact ⟨by simp, rfl⟩
    · left
      rw [if_pos h1, if_neg h2, if_neg (fun hh => h2 hh.2)]
      exact ⟨rfl, rfl, rfl, rfl⟩
  · left
    rw [if_neg h1, if_neg (fun hh => h1 hh.1)]
    split_ifs <;> exact ⟨rfl, rfl, rfl, rfl⟩

/-- A step of a Tap session before the promotion. -/
theorem step_phaseA (B oid V1 V2 T : Nat) (ld : ldc1612_ng F) (s : Sample)
    (hV1 : V1 ≠ 0) (hV2 : V2 ≠ 0) (hA : phaseA V1 V2 T ld) (hc : clean s) :
    (ldc1612_ng_update B ld oid s).fatal = none ∧
    (ldc1612_ng_update B ld oid s).gate = some false ∧
    (s.data < V1 → phaseA V1 V2 T (ldc1612_ng_update B ld oid s).ld ∧
      triggers (ldc1612_ng_update B ld oid s).events = []) ∧
    (V1 ≤ s.data → too_early T s.time →
      (ldc1612_ng_update B ld oid s).ld.homing.mode = 0 ∧
      triggers (ldc1612_ng_update B ld oid s).events ≠ []) ∧
    (V1 ≤ s.data → ¬ too_early T s.time →
      phaseB V2 T (ldc1612_ng_update B ld oid s).ld ∧
      triggers (ldc1612_ng_update B ld oid s).events = []) := by
  obtain ⟨hm, h1, h2, h3⟩ := hA
  have hm0 : ld.homing.mode ≠ 0 := by rw [hm]; decide
  have hg : (check_safe_start ld s.data s.time).val = false := by
    cases h : (check_safe_start ld s.data s.time).val
    · rfl
    · rcases (check_safe_start_val ld s.data s.time).mp h with h0 | ⟨_, _, h5⟩
      · exact absurd (h1 ▸ h0) hV1
      · exact absurd ⟨Nat.pos_of_ne_zero hm0, by rw [h2]; exact hV2⟩ h5
  obtain ⟨a, b, c, d, e, f, g⟩ := update_tap_not_ready B oid ld s hm hc hg
  refine ⟨a, b, ?_, ?_, ?_⟩
  · intro hlt
    have hcs := check_safe_start_below ld s.data s.time (by rw [h1]; exact hV1)
      (by rw [h1]; exact hlt)
    rw [hcs] at c d e f
    exact ⟨⟨by rw [d]; exact hm, by rw [e]; exact h1, by rw [f]; exact h2, by rw [g]; exact h3⟩,
      by rw [c]; rfl⟩
  · intro hge hearly
    have hcs := check_safe_start_early ld s.data s.time (by rw [h1]; exact hV1)
      (by rw [h1]; exact hge) (by rw [h3]; exact hearly)
    rw [hcs] at c d
    exact ⟨by rw [d], by rw [c]; simp [triggers, Event.isTrigger]⟩
  · intro hge hearly
    have hcs := check_safe_start_promote ld s.data s.time (by rw [h1]; exact hV1)
      (by rw [h1]; exact hge) (by rw [h3]; exact hearly) hm0 (by rw [h2]; exact hV2)
    rw [hcs] at c d e f
    exact ⟨⟨by rw [d]; exact hm, by rw [e]; exact h2, by rw [f], by rw [g]; exact h3⟩,
      by rw [c]; rfl⟩

/-- A step of a Tap session whose gate reports ready. -/
theorem step_ready (B oid : Nat) (ld : ldc1612_ng F) (s : Sample)
    (hm : ld.homing.mode = HOME_MODE_SOS) (htf : ld.homing.homing_trigger_freq = 0)
    (hc : clean s) (hg : (check_safe_start ld s.data s.time).val = true) :
    (ldc1612_ng_update B ld oid s).fatal = none ∧
    gate_ready B oid ld s ∧
    ((phaseC (ldc1612_ng_update B ld oid s).ld ∧
        triggers (ldc1612_ng_update B ld oid s).events = []) ∨
      ((ldc1612_ng_update B ld oid s).ld.homing.mode = 0 ∧
        triggers (ldc1612_ng_update B ld oid s).events ≠ [])) := by
  have hp : peak_eval B oid ld s := (peak_eval_iff B oid ld s).mpr ⟨hc.1, hm, hc.2, htf, hg⟩
  obtain ⟨u1, u2⟩ := update_peak B oid ld s hp
  refine ⟨hp.2.2, hp.2.1, ?_⟩
  rw [u2]
  unfold phaseC
  rw [u1]
  rcases peak_homing_cases ld s with ⟨a, b, c, d⟩ | ⟨a, b⟩
  · left
    exact ⟨⟨by rw [b]; exact hm, c, by rw [d]; exact htf⟩, a⟩
  · right
    exact ⟨b, a⟩

/-- A step of a Tap session after the promotion, gate still closed. -/
theorem step_phaseB (B oid V2 T : Nat) (ld : ldc1612_ng F) (s : Sample)
    (hV2 : V2 ≠ 0) (hB : phaseB V2 T ld) (hc : clean s) :
    (ldc1612_ng_update B ld oid s).fatal = none ∧
    (s.data < V2 → ¬ gate_ready B oid ld s ∧ phaseB V2 T (ldc1612_ng_update B ld oid s).ld ∧
      triggers (ldc1612_ng_update B ld oid s).events = []) ∧
    (V2 ≤ s.data → too_early T s.time →
      ¬ gate_ready B oid ld s ∧ (ldc1612_ng_update B ld oid s).ld.homing.mode = 0 ∧
      triggers (ldc1612_ng_update B ld oid s).events ≠ []) ∧
    (V2 ≤ s.data → ¬ too_early T s.time →
      gate_ready B oid ld s ∧
      ((phaseC (ldc1612_ng_update B ld oid s).ld ∧
          triggers (ldc1612_ng_update B ld oid s).events = []) ∨
        ((ldc1612_ng_update B ld oid s).ld.homing.mode = 0 ∧
          triggers (ldc1612_ng_update B ld oid s).events ≠ []))) := by
  obtain ⟨hm, h1, h2, h3⟩ := hB
  have hss : ld.homing.safe_start_freq ≠ 0 := by rw [h1]; exact hV2
  by_cases hlt : s.data < V2
  · have hcs := check_safe_start_below ld s.data s.time hss (by rw [h1]; exact hlt)
    obtain ⟨a, b, c, d, e, f, g⟩ := update_tap_not_ready B oid ld s hm hc (by rw [hcs])
    rw [hcs] at c d e f
    refine ⟨a, fun _ => ⟨?_, ⟨by rw [d]; exact hm, by rw [e]; exact h1, by rw [f]; exact h2,
      by rw [g]; exact h3⟩, by rw [c]; rfl⟩, fun h => absurd hlt (by omega),
      fun h => absurd hlt (by omega)⟩
    unfold gate_ready
    rw [b]
    simp
  · have hge : V2 ≤ s.data := by omega
    by_cases hearly : too_early T s.time
    · have hcs := check_safe_start_early ld s.data s.time hss (by rw [h1]; exact hge)
        (by rw [h3]; exact hearly)
      obtain ⟨a, b, c, d, e, f, g⟩ := update_tap_not_ready B oid ld s hm hc (by rw [hcs])
      rw [hcs] at c d
      refine ⟨a, fun h => absurd h hlt, fun _ _ => ⟨?_, by rw [d], ?_⟩,
        fun _ h => absurd hearly h⟩
      · unfold gate_ready
        rw [b]
        simp
      · rw [c]; simp [triggers, Event.isTrigger]
    · have hcs := check_safe_start_pass ld s.data s.time hss (by rw [h1]; exact hge)
        (by rw [h3]; exact hearly) h2
      obtain ⟨a, b, c⟩ := step_ready B oid ld s hm h2 hc (by rw [hcs])
      exact ⟨a, fun h => absurd h hlt, fun _ h => absurd h hearly, fun _ _ => ⟨b, c⟩⟩

/-- A step of a Tap session whose gate is open. -/
theorem step_phaseC (B oid : Nat) (ld : ldc1612_ng F) (s : Sample)
    (hC : phaseC ld) (hc : clean s) :
    (ldc1612_ng_update B ld oid s).fatal = none ∧
    gate_ready B oid ld s ∧
    ((phaseC (ldc1612_ng_update B ld oid s).ld ∧
        triggers (ldc1612_ng_update B ld oid s).events = []) ∨
      ((ldc1612_ng_update B ld oid s).ld.homing.mode = 0 ∧
        triggers (ldc1612_ng_update B ld oid s).events ≠ [])) := by
  obtain ⟨hm, h1, h2⟩ := hC
  exact step_ready B oid ld s hm h2 hc (by rw [check_safe_start_open ld s.data s.time h1])

theorem run_snoc (B oid : Nat) (ld : ldc1612_ng F) (pre : List Sample) (x : Sample)
    (h : (run B oid ld pre).fatal = none) :
    (run B oid ld (pre ++ [x])).ld = (ldc1612_ng_update B (run B oid ld pre).ld oid x).ld ∧
    triggers (run B oid ld (pre ++ [x])).events =
      triggers (run B oid ld pre).events ++
        triggers (ldc1612_ng_update B (run B oid ld pre).ld oid x).events ∧
    (run B oid ld (pre ++ [x])).fatal
      = (ldc1612_ng_update B (run B oid ld pre).ld oid x).fatal := by
  obtain ⟨a1, a2, a3⟩ := run_append B oid pre [x] ld h
  rw [a1, a2, a3, triggers_append]
  by_cases hf : (ldc1612_ng_update B (run B oid ld pre).ld oid x).fatal = none
  · rw [run_cons_ok B oid _ x [] hf]
    simp [run, hf]
  · rw [run_cons_fatal B oid _ x [] hf]
    exact ⟨rfl, rfl, rfl⟩

theorem snoc_eq_append_cons {α : Type} (pre : List α) (x : α) (p : List α) (r : α)
    (q : List α) (h : pre ++ [x] = p ++ r :: q) :
    (q = [] ∧ p = pre ∧ r = x) ∨ ∃ q1, q = q1 ++ [x] ∧ pre = p ++ r :: q1 := by
  rcases List.eq_nil_or_concat q with hq | ⟨q1, b, hq⟩
  · left
    subst hq
    have h2 : pre ++ [x] = p ++ [r] := h
    obtain ⟨e1, e2⟩ := List.append_inj' h2 rfl
    simp only [List.cons.injEq, and_true] at e2
    exact ⟨rfl, e1.symm, e2.symm⟩
  · right
    subst hq
    have h2 : pre ++ [x] = (p ++ r :: q1) ++ [b] := by
      rw [h]; simp
    obtain ⟨e1, e2⟩ := List.append_inj' h2 rfl
    simp only [List.cons.injEq, and_true] at e2
    exact ⟨q1, by rw [e2]; simp, e1⟩

theorem never_ready_snoc (B oid : Nat) (ld0 : ldc1612_ng F) (pre : List Sample) (x : Sample) :
    never_ready B oid ld0 (pre ++ [x]) ↔
      (never_ready B oid ld0 pre ∧ ¬ gate_ready B oid (run B oid ld0 pre).ld x) := by
  constructor
  · intro h
    refine ⟨?_, h pre x [] rfl⟩
    intro p r q hq
    exact h p r (q ++ [x]) (by rw [hq]; simp)
  · rintro ⟨h1, h2⟩ p r q hq
    rcases snoc_eq_append_cons pre x p r q hq with ⟨_, e2, e3⟩ | ⟨q1, _, e2⟩
    · rw [e2, e3]; exact h2
    · exact h1 p r q1 e2

theorem gate_inv_run (B oid V1 V2 T : Nat) (ld0 : ldc1612_ng F) (hV1 : V1 ≠ 0) (hV2 : V2 ≠ 0)
    (hA : phaseA V1 V2 T ld0) (pre : List Sample) :
    (∀ x ∈ pre, clean x) → gate_inv B oid V1 V2 T ld0 pre := by
  induction pre using List.reverseRecOn with
  | nil =>
    intro _
    refine ⟨rfl, Or.inr ⟨rfl, Or.inl ⟨hA, ?_, ?_⟩⟩⟩
    · intro r hr; cases hr
    · intro p r q hq; simp at hq
  | append_singleton pre x ih =>
    intro hcl
    have hx : clean x := hcl x (by simp)
    obtain ⟨hfat, hcases⟩ := ih (fun y hy => hcl y (by simp [hy]))
    obtain ⟨s1, s2, s3⟩ := run_snoc B oid ld0 pre x hfat
    unfold gate_inv
    rw [s1, s2, s3, never_ready_snoc]
    rcases hcases with ⟨hm, hne⟩ | ⟨hnil, hph⟩
    · obtain ⟨u1, u2, u3, _⟩ := update_inactive B (run B oid ld0 pre).ld oid x hm
      refine ⟨u3, Or.inl ⟨by rw [u2]; exact hm, ?_⟩⟩
      rw [u1, List.append_nil]
      exact hne
    · rw [hnil, List.nil_append]
      rcases hph with ⟨hPA, hall, hnr⟩ | ⟨hPB, hex, hnr⟩ | ⟨hPC, hnr⟩
      · obtain ⟨a, b, c, d, e⟩ := step_phaseA B oid V1 V2 T _ x hV1 hV2 hPA hx
        have hng : ¬ gate_ready B oid (run B oid ld0 pre).ld x := by
          unfold gate_ready; rw [b]; simp
        refine ⟨a, ?_⟩
        by_cases hlt : x.data < V1
        · obtain ⟨c1, c2⟩ := c hlt
          refine Or.inr ⟨c2, Or.inl ⟨c1, ?_, hnr, hng⟩⟩
          intro r hr
          rcases List.mem_append.mp hr with h | h
          · exact hall r h
          · rw [List.mem_singleton.mp h]; exact hlt
        · by_cases hearly : too_early T x.time
          · exact Or.inl (d (by omega) hearly)
          · obtain ⟨e1, e2⟩ := e (by omega) hearly
            exact Or.inr ⟨e2, Or.inr (Or.inl ⟨e1, ⟨x, by simp, by omega⟩, hnr, hng⟩)⟩
      · obtain ⟨a, b, c, d⟩ := step_phaseB B oid V2 T _ x hV2 hPB hx
        refine ⟨a, ?_⟩
        obtain ⟨r0, hr0, hr0V⟩ := hex
        by_cases hlt : x.data < V2
        · obtain ⟨b1, b2, b3⟩ := b hlt
          exact Or.inr ⟨b3, Or.inr (Or.inl ⟨b2, ⟨r0, by simp [hr0], hr0V⟩, hnr, b1⟩)⟩
        · by_cases hearly : too_early T x.time
          · obtain ⟨_, c2, c3⟩ := c (by omega) hearly
            exact Or.inl ⟨c2, c3⟩
          · obtain ⟨d1, d2⟩ := d (by omega) hearly
            rcases d2 with ⟨d3, d4⟩ | ⟨d3, d4⟩
            · exact Or.inr ⟨d4, Or.inr (Or.inr ⟨d3, fun hh => hh.2 d1⟩)⟩
            · exact Or.inl ⟨d3, d4⟩
      · obtain ⟨a, b, c⟩ := step_phaseC B oid _ x hPC hx
        refine ⟨a, ?_⟩
        rcases c with ⟨c1, c2⟩ | ⟨c1, c2⟩
        · exact Or.inr ⟨c2, Or.inr (Or.inr ⟨c1, fun hh => hh.2 b⟩)⟩
        · exact Or.inl ⟨c1, c2⟩

/-- C8 (counterexample), on the Tap session armed with `V1 = 1000`,
`V2 = 2000` and no start-time threshold (`T = 0`).  First run: the samples with
raw values 1500 and 2100 consume the promotion and open the gate; on the third
sample the gate reports ready although its raw value 1900 is below `V2`.
Second run: after the promotion, the gate reports ready on a sample whose
timestamp `3000000000` is before `T = 0` in the wrap-around ordering. -/
theorem C8_counterexample_gate_stays_open :
    (∀ x ∈ [(⟨8, 100, 1500⟩ : Sample), ⟨8, 200, 2100⟩, ⟨8, 300, 1900⟩], clean x) ∧
    exampleTapArgs.start_freq = 1000 ∧ exampleTapArgs.trigger_freq = 2000 ∧
    exampleTapArgs.start_time = 0 ∧
    (run 12 7 exampleTapArmed [⟨8, 100, 1500⟩, ⟨8, 200, 2100⟩]).fatal = none ∧
    triggers (run 12 7 exampleTapArmed [⟨8, 100, 1500⟩, ⟨8, 200, 2100⟩]).events = [] ∧
    gate_ready 12 7 (run 12 7 exampleTapArmed [⟨8, 100, 1500⟩, ⟨8, 200, 2100⟩]).ld
      ⟨8, 300, 1900⟩ ∧
    ¬ (exampleTapArgs.trigger_freq ≤ (⟨8, 300, 1900⟩ : Sample).data) ∧
    clean ⟨8, 3000000000, 2100⟩ ∧
    gate_ready 12 7 (run 12 7 exampleTapArmed [⟨8, 100, 1500⟩]).ld ⟨8, 3000000000, 2100⟩ ∧
    timer_is_before (⟨8, 3000000000, 2100⟩ : Sample).time exampleTapArgs.start_time = true := by
  decide!

/-- C8 (amended): a Tap session armed successfully with start-value threshold
`V1 != 0`, trigger-value threshold `V2 != 0` and start-time threshold `T`,
fed with error-free samples `pre` and then `s`, is never stopped, and:
the first sample on which the safety gate reports ready comes after a sample
with raw value `>= V1`, has raw value `>= V2` and is not too early (`T = 0`, or
its timestamp is not before `T`); when nothing was notified before, the gate
does report ready on every sample that meets these conditions, in particular
on the first one; and once the gate has reported ready it reports ready on
every later sample as long as nothing was notified. -/
theorem C8_two_stage_gating (B oid : Nat) (ld : ldc1612_ng F) (a : SetupHomeArgs)
    (hticks : ld.rest_ticks ≠ 0) (hidle : ld.homing.mode = 0)
    (hV2 : a.trigger_freq ≠ 0) (hts : a.trsync_oid ≠ 0)
    (hmode : a.mode % 256 = HOME_MODE_SOS)
    (hV1 : a.start_freq ≠ 0)
    (pre : List Sample) (s : Sample)
    (hclean : ∀ x ∈ pre ++ [s], clean x) :
    (run B oid (command_ldc1612_ng_setup_home ld a).ld pre).fatal = none ∧
    (ldc1612_ng_update B (run B oid (command_ldc1612_ng_setup_home ld a).ld pre).ld oid s).fatal
      = none ∧
    (never_ready B oid (command_ldc1612_ng_setup_home ld a).ld pre →
      gate_ready B oid (run B oid (command_ldc1612_ng_setup_home ld a).ld pre).ld s →
      (∃ r ∈ pre, a.start_freq ≤ r.data) ∧ a.trigger_freq ≤ s.data ∧
        ¬ too_early a.start_time s.time) ∧
    (triggers (run B oid (command_ldc1612_ng_setup_home ld a).ld pre).events = [] →
      (∃ r ∈ pre, a.start_freq ≤ r.data) → a.trigger_freq ≤ s.data →
      ¬ too_early a.start_time s.time →
      gate_ready B oid (run B oid (command_ldc1612_ng_setup_home ld a).ld pre).ld s) ∧
    (triggers (run B oid (command_ldc1612_ng_setup_home ld a).ld pre).events = [] →
      ¬ never_ready B oid (command_ldc1612_ng_setup_home ld a).ld pre →
      gate_ready B oid (run B oid (command_ldc1612_ng_setup_home ld a).ld pre).ld s) := by
  obtain ⟨harm, _⟩ := setup_home_tap_fields ld a hticks hidle hV2 hts hmode
  have hA : phaseA a.start_freq a.trigger_freq a.start_time
      (command_ldc1612_ng_setup_home ld a).ld := by
    unfold phaseA
    rw [harm]
    exact ⟨rfl, rfl, rfl, rfl⟩
  have hs : clean s := hclean s (by simp)
  obtain ⟨hfat, hcases⟩ := gate_inv_run B oid a.start_freq a.trigger_freq a.start_time _
    hV1 hV2 hA pre (fun y hy => hclean y (by simp [hy]))
  refine ⟨hfat, ?_, ?_, ?_, ?_⟩
  · rcases hcases with ⟨hm, _⟩ | ⟨_, ⟨hPA, _, _⟩ | ⟨hPB, _, _⟩ | ⟨hPC, _⟩⟩
    · exact (update_inactive B _ oid s hm).2.2.1
    · exact (step_phaseA B oid _ _ _ _ s hV1 hV2 hPA hs).1
    · exact (step_phaseB B oid _ _ _ s hV2 hPB hs).1
    · exact (step_phaseC B oid _ s hPC hs).1
  · intro hnr hg
    rcases hcases with ⟨hm, _⟩ | ⟨_, ⟨hPA, _, _⟩ | ⟨hPB, hex, _⟩ | ⟨_, hn⟩⟩
    · have := (update_inactive B _ oid s hm).2.2.2
      unfold gate_ready at hg
      rw [this] at hg
      cases hg
    · have := (step_phaseA B oid _ _ _ _ s hV1 hV2 hPA hs).2.1
      unfold gate_ready at hg
      rw [this] at hg
      cases hg
    · obtain ⟨_, b, c, _⟩ := step_phaseB B oid _ _ _ s hV2 hPB hs
      by_cases hlt : s.data < a.trigger_freq
      · exact absurd hg (b hlt).1
      · by_cases hearly : too_early a.start_time s.time
        · exact absurd hg (c (by omega) hearly).1
        · exact ⟨hex, by omega, hearly⟩
    · exact absurd hnr hn
  · intro hnil hex hge hearly
    rcases hcases with ⟨_, hne⟩ | ⟨_, ⟨_, hall, _⟩ | ⟨hPB, _, _⟩ | ⟨hPC, _⟩⟩
    · exact absurd hnil hne
    · obtain ⟨r, hr, hrV⟩ := hex
      have := hall r hr
      omega
    · exact ((step_phaseB B oid _ _ _ s hV2 hPB hs).2.2.2 hge hearly).1
    · exact (step_phaseC B oid _ s hPC hs).2.1
  · intro hnil hn
    rcases hcases with ⟨_, hne⟩ | ⟨_, ⟨_, _, hnr⟩ | ⟨_, _, hnr⟩ | ⟨hPC, _⟩⟩
    · exact absurd hnil hne
    · exact absurd hnr hn
    · exact absurd hnr hn
    · exact (step_phaseC B oid _ s hPC hs).2.1

/-- C8 (amended) on a session with `V1 = 1000`, `V2 = 2000`, `T = 150`: raw 900
at time 100 is below `V1`, raw 1500 at time 200 consumes the promotion, and the
gate reports ready on raw 2100 at time 300. -/
theorem C8_two_stage_gating_witness :
    exampleChannel.rest_ticks ≠ 0 ∧ exampleChannel.homing.mode = 0 ∧
    exampleTapArgsTimed.trigger_freq ≠ 0 ∧ exampleTapArgsTimed.trsync_oid ≠ 0 ∧
    exampleTapArgsTimed.mode % 256 = HOME_MODE_SOS ∧ exampleTapArgsTimed.start_freq ≠ 0 ∧
    (∀ x ∈ [(⟨8, 100, 900⟩ : Sample), ⟨8, 200, 1500⟩] ++ [⟨8, 300, 2100⟩], clean x) ∧
    gate_ready 12 7
      (run 12 7 (command_ldc1612_ng_setup_home exampleChannel exampleTapArgsTimed).ld
        [⟨8, 100, 900⟩, ⟨8, 200, 1500⟩]).ld ⟨8, 300, 2100⟩ :=
  ⟨by decide, by decide, by decide, by decide, by decide, by decide, by decide,
    (C8_two_stage_gating 12 7 exampleChannel exampleTapArgsTimed (by decide) (by decide)
      (by decide) (by decide) (by decide) (by decide)
      [⟨8, 100, 900⟩, ⟨8, 200, 1500⟩] ⟨8, 300, 2100⟩ (by decide)).2.2.2.1
      (by decide!) ⟨⟨8, 200, 1500⟩, by simp, by decide⟩ (by decide) (by decide)⟩

/-! ## The baseline gate of a Tap session with a start-value threshold -/

theorem check_safe_start_keeps (ld : ldc1612_ng F) (data time : Nat)
    (hm : ld.homing.mode ≠ 0)
    (hJ : ld.homing.homing_trigger_freq ≠ 0 → ld.homing.safe_start_freq ≠ 0) :
    ((check_safe_start ld data time).ld.homing.homing_trigger_freq ≠ 0 →
      (check_safe_start ld data time).ld.homing.safe_start_freq ≠ 0) ∧
    ((check_safe_start ld data time).ld.homing.mode = 0 ∨
      (check_safe_start ld data time).ld.homing.mode = ld.homing.mode) := by
  unfold check_safe_start
  simp only []
  split_ifs with h1 h2 h3 h4
  · exact ⟨hJ, Or.inr rfl⟩
  · exact ⟨hJ, Or.inr rfl⟩
  · exact ⟨hJ, Or.inl rfl⟩
  · exact ⟨fun h => absurd rfl h, Or.inr rfl⟩
  · refine ⟨fun h => ?_, Or.inr rfl⟩
    exact absurd ⟨by simpa using Nat.pos_of_ne_zero hm, h⟩ h4

/-- One data-ready event of a Tap session in which a configured
trigger-value threshold comes with a configured start-value threshold: the
machine is not stopped, the session stays a Tap session or ends, the relation
between the thresholds is kept, and the gate called during baseline capture
reports not-ready. -/
theorem tap_step_no_bug (B oid : Nat) (ld : ldc1612_ng F) (s : Sample)
    (hm : ld.homing.mode = HOME_MODE_SOS)
    (hJ : ld.homing.homing_trigger_freq ≠ 0 → ld.homing.safe_start_freq ≠ 0) :
    (ldc1612_ng_update B ld oid s).fatal = none ∧
    ((ldc1612_ng_update B ld oid s).ld.homing.mode = 0 ∨
      (ldc1612_ng_update B ld oid s).ld.homing.mode = HOME_MODE_SOS) ∧
    ((ldc1612_ng_update B ld oid s).ld.homing.homing_trigger_freq ≠ 0 →
      (ldc1612_ng_update B ld oid s).ld.homing.safe_start_freq ≠ 0) ∧
    (ld.homing.homing_trigger_freq ≠ 0 → clean s →
      (ldc1612_ng_update B ld oid s).gate = some false) := by
  by_cases hst : s.status &&& STATUS_UNREADCONV0 = 0
  · rw [update_not_ready B oid ld s hst]
    exact ⟨rfl, Or.inr hm, hJ, fun _ hc => absurd hst hc.1⟩
  · by_cases herr : SAMPLE_ERR s.data = 0
    · have hc : clean s := ⟨hst, herr⟩
      cases hv : (check_safe_start ld s.data s.time).val
      · obtain ⟨a, b, _, d, e, f, _⟩ := update_tap_not_ready B oid ld s hm hc hv
        obtain ⟨k1, k2⟩ := check_safe_start_keeps ld s.data s.time (by rw [hm]; decide) hJ
        refine ⟨a, ?_, ?_, fun _ _ => b⟩
        · rw [d]
          rcases k2 with k | k
          · exact Or.inl k
          · exact Or.inr (by rw [k]; exact hm)
        · rw [e, f]; exact k1
      · have htf : ld.homing.homing_trigger_freq = 0 := by
          by_contra hne
          rcases (check_safe_start_val ld s.data s.time).mp hv with h0 | ⟨_, _, h5⟩
          · exact hJ hne h0
          · exact h5 ⟨by rw [hm]; decide, hne⟩
        have hp : peak_eval B oid ld s :=
          (peak_eval_iff B oid ld s).mpr ⟨hst, hm, herr, htf, hv⟩
        obtain ⟨u1, _⟩ := update_peak B oid ld s hp
        refine ⟨hp.2.2, ?_, ?_, fun h => absurd htf h⟩
        · rw [u1]
          rcases peak_homing_cases ld s with ⟨_, b, _, _⟩ | ⟨_, b⟩
          · exact Or.inr (by rw [b]; exact hm)
          · exact Or.inl b
        · rw [u1]
          intro h
          rcases peak_homing_cases ld s with ⟨_, _, _, d⟩ | ⟨_, b⟩
          · rw [d] at h; exact absurd htf h
          · exfalso
            apply h
            unfold peak_homing
            split_ifs <;> exact htf
    · obtain ⟨u1, _, u3, _, _, _⟩ := update_error_sample B oid ld s hst (Or.inr hm) herr
      have hm0 : (at_switch ld s).homing.mode ≠ 0 := by
        rw [at_switch_homing, hm]; decide
      have hce := check_error_flagged (at_switch ld s) s.data s.time herr hm0
      refine ⟨u3, ?_, ?_, fun _ hc => absurd hc.2 herr⟩
      · rw [u1, hce]
        split_ifs
        · exact Or.inr hm
        · exact Or.inl rfl
      · rw [u1, hce]
        split_ifs <;> exact hJ

/-- A Tap session armed with a start-value threshold other than `0` is never
stopped by the `shutdown("bug")` of `check_sos_tap`, whatever it is fed. -/
theorem tap_session_never_stops (B oid : Nat) (xs : List Sample) :
    ∀ ld : ldc1612_ng F,
      (ld.homing.mode = 0 ∨ ld.homing.mode = HOME_MODE_SOS) →
      (ld.homing.homing_trigger_freq ≠ 0 → ld.homing.safe_start_freq ≠ 0) →
      (run B oid ld xs).fatal = none := by
  induction xs with
  | nil => intro ld _ _; rfl
  | cons s rest ih =>
    intro ld hmode hJ
    rcases hmode with hm | hm
    · exact (run_inactive B oid (s :: rest) ld hm).2.2
    · obtain ⟨a, b, c, _⟩ := tap_step_no_bug B oid ld s hm hJ
      rw [(run_cons_ld B oid ld s rest a).2]
      exact ih _ b c

/-! ## C11: amplitude-too-high errors -/

/-- C11 (failing input): a Home session armed with error threshold 0 receives
a sample with the amplitude error flag while the status word read for it
reports amplitude-too-high (`0x0400`).  The error is counted, the counter
exceeds the threshold, and the session is aborted with the sensor-error
reason `10 + 0`; it is not treated as benign. -/
theorem C11_amplitude_error_aborts_home_session :
    (command_ldc1612_ng_setup_home exampleChannel exampleHomeArgsNoErrors).ld.homing.mode
      = HOME_MODE_HOME ∧
    (command_ldc1612_ng_setup_home exampleChannel exampleHomeArgsNoErrors).ld.homing.error_threshold
      = 0 ∧
    SAMPLE_ERR (2 ^ 28) ≠ 0 ∧ (0x0408 : Nat) &&& STATUS_ERR_AHE ≠ 0 ∧
    (ldc1612_ng_update 12
      (command_ldc1612_ng_setup_home exampleChannel exampleHomeArgsNoErrors).ld 7
      ⟨0x0408, 100, 2 ^ 28⟩).ld.last_status &&& STATUS_ERR_AHE ≠ 0 ∧
    triggers (ldc1612_ng_update 12
      (command_ldc1612_ng_setup_home exampleChannel exampleHomeArgsNoErrors).ld 7
      ⟨0x0408, 100, 2 ^ 28⟩).events = [Event.trigger 5 10 0] ∧
    (ldc1612_ng_update 12
      (command_ldc1612_ng_setup_home exampleChannel exampleHomeArgsNoErrors).ld 7
      ⟨0x0408, 100, 2 ^ 28⟩).ld.homing.mode = 0 ∧
    (ldc1612_ng_update 12
      (command_ldc1612_ng_setup_home exampleChannel exampleHomeArgsNoErrors).ld 7
      ⟨0x0408, 100, 2 ^ 28⟩).ld.homing.error_count = 1 := by
  decide

/-- In every active session the amplitude-too-high exemption of `check_error`
is unreachable: a sample with error flags is counted whatever the latched
status is. -/
theorem check_error_never_benign (ld : ldc1612_ng F) (data time : Nat)
    (herr : SAMPLE_ERR data ≠ 0) (hm : ld.homing.mode ≠ 0) :
    (check_error ld data time).ld.homing.error_count = (ld.homing.error_count + 1) % 256 := by
  rw [check_error_flagged ld data time herr hm]
  split_ifs <;> rfl

/-! ## C12: the Home detector -/

/-- The static fields of the channel are not written by the end of
`ldc1612_ng_update`. -/
theorem update_flush_static (B oid : Nat) (r : SampleStep F) :
    (update_flush B oid r).ld.ts = r.ld.ts ∧
    (update_flush B oid r).ld.success_reason = r.ld.success_reason ∧
    (update_flush B oid r).ld.other_reason_base = r.ld.other_reason_base ∧
    (update_flush B oid r).ld.sensor_cvt = r.ld.sensor_cvt ∧
    (update_flush B oid r).ld.sos_filter = r.ld.sos_filter := by
  unfold update_flush flush_buffer
  split_ifs <;> exact ⟨rfl, rfl, rfl, rfl, rfl⟩

/-- The Home detector on an error-free sample when no start-value threshold
is left, written out. -/
theorem check_homing_open (ld : ldc1612_ng F) (data time : Nat)
    (herr : SAMPLE_ERR data = 0) (hss : ld.homing.safe_start_freq = 0) :
    check_homing ld data time =
      if data > ld.homing.homing_trigger_freq then
        { ld := { ld with homing := { ld.homing with
                    mode := 0, error_count := 0, trigger_time := time } },
          events := [Event.trigger ld.ts (ld.success_reason % 256) 0],
          fatal := none, gate := some true }
      else
        { ld := { ld with homing := { ld.homing with error_count := 0 } },
          events := [], fatal := none, gate := some true } := by
  unfold check_homing
  simp only [check_error_clean ld data time herr]
  rw [if_neg (by simp)]
  rw [check_safe_start_open _ data time (by simpa using hss)]
  simp only []
  rw [if_neg (by simp)]
  split_ifs <;> simp [notify_trigger, trsync_do_trigger]

/-- C12 (counterexample), on Home sessions armed with trigger threshold 3000
and fed raw values `v0 = 2000 < 3000` and then `v1`.  Without a start-value
threshold and `v1 = 3000`, nothing is notified on `v1`: the comparison is
strict.  With start-value threshold 5000 and `v1 = 3500`, nothing is notified
on `v1` either: the gate has not been passed. -/
theorem C12_counterexample_no_trigger_on_v1 :
    (command_ldc1612_ng_setup_home exampleChannel exampleHomeArgs).ld.homing.mode
      = HOME_MODE_HOME ∧
    (command_ldc1612_ng_setup_home exampleChannel exampleHomeArgs).ld.homing.homing_trigger_freq
      = 3000 ∧
    (run 12 7 (command_ldc1612_ng_setup_home exampleChannel exampleHomeArgs).ld
      [⟨8, 100, 2000⟩, ⟨8, 200, 3000⟩]).events = [] ∧
    (run 12 7 (command_ldc1612_ng_setup_home exampleChannel exampleHomeArgs).ld
      [⟨8, 100, 2000⟩, ⟨8, 200, 3000⟩]).ld.homing.mode = HOME_MODE_HOME ∧
    (command_ldc1612_ng_setup_home exampleChannel exampleHomeArgsHighStart).ld.homing.mode
      = HOME_MODE_HOME ∧
    (command_ldc1612_ng_setup_home exampleChannel
      exampleHomeArgsHighStart).ld.homing.homing_trigger_freq = 3000 ∧
    (run 12 7 (command_ldc1612_ng_setup_home exampleChannel exampleHomeArgsHighStart).ld
      [⟨8, 100, 2000⟩, ⟨8, 200, 3500⟩]).events = [] ∧
    (run 12 7 (command_ldc1612_ng_setup_home exampleChannel exampleHomeArgsHighStart).ld
      [⟨8, 100, 2000⟩, ⟨8, 200, 3500⟩]).ld.homing.mode = HOME_MODE_HOME := by
  decide

/-- C12 (amended): in a Home session with trigger threshold `th` in which no
start-value threshold is configured, for every two consecutive error-free
samples `v0`, `v1` with `v0 < th < v1`: nothing is notified on `v0` and the
session stays active, and on `v1` exactly one success notification is emitted,
`trigger_time` is the timestamp of `v1` and the session is Inactive. -/
theorem C12_home_triggers_above_threshold (B oid : Nat) (ld : ldc1612_ng F) (s0 s1 : Sample)
    (hmode : ld.homing.mode = HOME_MODE_HOME)
    (hss : ld.homing.safe_start_freq = 0)
    (hc0 : clean s0) (hc1 : clean s1)
    (h0 : s0.data < ld.homing.homing_trigger_freq)
    (h1 : ld.homing.homing_trigger_freq < s1.data) :
    triggers (ldc1612_ng_update B ld oid s0).events = [] ∧
    (ldc1612_ng_update B ld oid s0).fatal = none ∧
    (ldc1612_ng_update B ld oid s0).ld.homing.mode = HOME_MODE_HOME ∧
    (ldc1612_ng_update B ld oid s0).ld.homing.homing_trigger_freq
      = ld.homing.homing_trigger_freq ∧
    triggers (ldc1612_ng_update B (ldc1612_ng_update B ld oid s0).ld oid s1).events
      = [Event.trigger ld.ts (ld.success_reason % 256) 0] ∧
    (ldc1612_ng_update B (ldc1612_ng_update B ld oid s0).ld oid s1).ld.homing.trigger_time
      = s1.time ∧
    (ldc1612_ng_update B (ldc1612_ng_update B ld oid s0).ld oid s1).ld.homing.mode = 0 ∧
    (ldc1612_ng_update B (ldc1612_ng_update B ld oid s0).ld oid s1).fatal = none := by
  have e0 : ldc1612_ng_update B ld oid s0 =
      update_flush B oid
        { ld := { at_switch ld s0 with homing := { ld.homing with error_count := 0 } },
          events := [], fatal := none, gate := some true } := by
    rw [update_home B oid ld s0 hc0.1 hmode,
      check_homing_open (at_switch ld s0) s0.data s0.time hc0.2 hss,
      if_neg (by rw [at_switch_homing]; omega)]
    rfl
  have hst0 := update_flush_static B oid
    ({ ld := { at_switch ld s0 with homing := { ld.homing with error_count := 0 } },
       events := [], fatal := none, gate := some true } : SampleStep F)
  have hh0 : (ldc1612_ng_update B ld oid s0).ld.homing
      = { ld.homing with error_count := 0 } := by
    rw [e0, update_flush_homing]
  have hts0 : (ldc1612_ng_update B ld oid s0).ld.ts = ld.ts := by
    rw [e0, hst0.1]; rfl
  have hsr0 : (ldc1612_ng_update B ld oid s0).ld.success_reason = ld.success_reason := by
    rw [e0, hst0.2.1]; rfl
  have hm1 : (ldc1612_ng_update B ld oid s0).ld.homing.mode = HOME_MODE_HOME := by
    rw [hh0]; exact hmode
  have hss1 : (ldc1612_ng_update B ld oid s0).ld.homing.safe_start_freq = 0 := by
    rw [hh0]; exact hss
  have htf1 : (ldc1612_ng_update B ld oid s0).ld.homing.homing_trigger_freq
      = ld.homing.homing_trigger_freq := by rw [hh0]
  have e1 := update_home B oid (ldc1612_ng_update B ld oid s0).ld s1 hc1.1 hm1
  rw [check_homing_open (at_switch (ldc1612_ng_update B ld oid s0).ld s1) s1.data s1.time hc1.2
      (by rw [at_switch_homing]; exact hss1),
    if_pos (by rw [at_switch_homing, htf1]; exact h1)] at e1
  refine ⟨?_, ?_, hm1, htf1, ?_, ?_, ?_, ?_⟩
  · rw [e0, update_flush_triggers]; rfl
  · rw [e0, update_flush_fatal]
  · rw [e1, update_flush_triggers]
    simp only [triggers, List.filter, Event.isTrigger]
    have a1 : (at_switch (ldc1612_ng_update B ld oid s0).ld s1).ts = ld.ts := hts0
    have a2 : (at_switch (ldc1612_ng_update B ld oid s0).ld s1).success_reason
        = ld.success_reason := hsr0
    rw [a1, a2]
  · rw [e1, update_flush_homing]
  · rw [e1, update_flush_homing]
  · rw [e1, update_flush_fatal]

/-- C12 (amended) on the Home session armed with trigger threshold 3000 and
raw values 2000 and 3001. -/
theorem C12_home_triggers_above_threshold_witness :
    (command_ldc1612_ng_setup_home exampleChannel exampleHomeArgs).ld.homing.mode
      = HOME_MODE_HOME ∧
    (command_ldc1612_ng_setup_home exampleChannel exampleHomeArgs).ld.homing.safe_start_freq
      = 0 ∧
    (command_ldc1612_ng_setup_home exampleChannel exampleHomeArgs).ld.homing.homing_trigger_freq
      = 3000 ∧
    clean ⟨8, 100, 2000⟩ ∧ clean ⟨8, 200, 3001⟩ ∧
    triggers (ldc1612_ng_update 12
      (command_ldc1612_ng_setup_home exampleChannel exampleHomeArgs).ld 7
      ⟨8, 100, 2000⟩).events = [] ∧
    triggers (ldc1612_ng_update 12 (ldc1612_ng_update 12
      (command_ldc1612_ng_setup_home exampleChannel exampleHomeArgs).ld 7
      ⟨8, 100, 2000⟩).ld 7 ⟨8, 200, 3001⟩).events = [Event.trigger 5 1 0] ∧
    (ldc1612_ng_update 12 (ldc1612_ng_update 12
      (command_ldc1612_ng_setup_home exampleChannel exampleHomeArgs).ld 7
      ⟨8, 100, 2000⟩).ld 7 ⟨8, 200, 3001⟩).ld.homing.trigger_time = 200 := by
  have h := C12_home_triggers_above_threshold 12 7
    (command_ldc1612_ng_setup_home exampleChannel exampleHomeArgs).ld
    ⟨8, 100, 2000⟩ ⟨8, 200, 3001⟩ (by decide) (by decide) (by decide) (by decide)
    (by decide) (by decide)
  exact ⟨by decide, by decide, by decide, by decide, by decide, h.1, h.2.2.2.2.1,
    h.2.2.2.2.2.1⟩

/-! ## C13: the promotion in a Home session -/

/-- C13 (failing input): a Home session armed with trigger threshold 3000 and
start-value threshold 1000.  The error-free sample with raw value 1500 makes
`check_safe_start` promote the trigger threshold: afterwards
`homing_trigger_freq` is `0` and `safe_start_freq` is 3000, in a session whose
mode is still Home.  The next sample, raw 3000, then passes the gate and is
compared with `0`: the session notifies success although the raw value does
not exceed the armed threshold. -/
theorem C13_home_session_promotes_trigger_threshold :
    (command_ldc1612_ng_setup_home exampleChannel exampleHomeArgsStart).ld.homing.mode
      = HOME_MODE_HOME ∧
    (command_ldc1612_ng_setup_home exampleChannel exampleHomeArgsStart).ld.homing.homing_trigger_freq
      = 3000 ∧
    clean ⟨8, 100, 1500⟩ ∧
    (ldc1612_ng_update 12
      (command_ldc1612_ng_setup_home exampleChannel exampleHomeArgsStart).ld 7
      ⟨8, 100, 1500⟩).ld.homing.mode = HOME_MODE_HOME ∧
    (ldc1612_ng_update 12
      (command_ldc1612_ng_setup_home exampleChannel exampleHomeArgsStart).ld 7
      ⟨8, 100, 1500⟩).ld.homing.homing_trigger_freq = 0 ∧
    (ldc1612_ng_update 12
      (command_ldc1612_ng_setup_home exampleChannel exampleHomeArgsStart).ld 7
      ⟨8, 100, 1500⟩).ld.homing.safe_start_freq = 3000 ∧
    (ldc1612_ng_update 12
      (command_ldc1612_ng_setup_home exampleChannel exampleHomeArgsStart).ld 7
      ⟨8, 100, 1500⟩).events = [] ∧
    ¬ ((⟨8, 200, 3000⟩ : Sample).data > 3000) ∧
    triggers (ldc1612_ng_update 12 (ldc1612_ng_update 12
      (command_ldc1612_ng_setup_home exampleChannel exampleHomeArgsStart).ld 7
      ⟨8, 100, 1500⟩).ld 7 ⟨8, 200, 3000⟩).events = [Event.trigger 5 1 0] := by
  decide

/-! ## C20: the arm command when it does not arm -/

/-- The early returns of the arm command, for all arguments.  If the trigger
threshold or the trigger-channel handle is `0`, the command emits nothing, sets
the mode to `0` and leaves every other field of the session record unchanged,
whatever the sampling period and the mode were.  Otherwise, if sampling is not
running or a session is active, it calls the trigger channel once, on the
handle `ld.ts` that the channel stores (not on the handle of the command),
with the 8-bit other-reason base of the command and with mode `0`; afterwards
the mode is `0`, every other field of the session record is unchanged, and so
are the filter bank and the stored reasons; the machine is not stopped. -/
theorem setup_home_refused (ld : ldc1612_ng F) (a : SetupHomeArgs) :
    ((a.trigger_freq = 0 ∨ a.trsync_oid = 0) →
      (command_ldc1612_ng_setup_home ld a).events = [] ∧
      (command_ldc1612_ng_setup_home ld a).ld.homing = { ld.homing with mode := 0 } ∧
      (command_ldc1612_ng_setup_home ld a).fatal = none) ∧
    (a.trigger_freq ≠ 0 → a.trsync_oid ≠ 0 → (ld.rest_ticks = 0 ∨ ld.homing.mode ≠ 0) →
      (command_ldc1612_ng_setup_home ld a).events
        = [Event.trigger ld.ts (a.other_reason_base % 256) 0] ∧
      (command_ldc1612_ng_setup_home ld a).ld.homing = { ld.homing with mode := 0 } ∧
      (command_ldc1612_ng_setup_home ld a).ld.sos_filter = ld.sos_filter ∧
      (command_ldc1612_ng_setup_home ld a).ld.success_reason = ld.success_reason ∧
      (command_ldc1612_ng_setup_home ld a).ld.other_reason_base = ld.other_reason_base ∧
      (command_ldc1612_ng_setup_home ld a).fatal = none) := by
  constructor
  · intro h
    unfold command_ldc1612_ng_setup_home
    simp only []
    rw [if_pos h]
    exact ⟨rfl, rfl, rfl⟩
  · intro h1 h2 h3
    unfold command_ldc1612_ng_setup_home
    simp only []
    rw [if_neg (by simp [h1, h2])]
    by_cases ht : ld.rest_ticks = 0
    · rw [if_pos ht]
      simp [notify_trigger, trsync_do_trigger]
    · rw [if_neg ht]
      have hm : ld.homing.mode > 0 := by
        rcases h3 with h | h
        · exact absurd h ht
        · exact Nat.pos_of_ne_zero h
      rw [if_pos hm]
      simp [notify_trigger, trsync_do_trigger]

/-- C20 (failing input): the arm command with non-zero trigger threshold and
trigger-channel handle 5 on a channel whose sampling is not running and that
stores no trigger channel: a channel that was never started and never armed,
and a channel whose session was finished and whose sampling was then stopped.
In both the one call of the trigger channel is made on the null handle `0`
that the channel stores, not on a trigger channel: no abort notification can
reach the host. -/
theorem C20_abort_call_on_null_trigger_channel :
    exampleNeverStarted.rest_ticks = 0 ∧ exampleNeverStarted.ts = 0 ∧
    exampleNeverStarted.homing.mode = 0 ∧
    exampleHomeArgs.trigger_freq ≠ 0 ∧ exampleHomeArgs.trsync_oid = 5 ∧
    (command_ldc1612_ng_setup_home exampleNeverStarted exampleHomeArgs).events
      = [Event.trigger 0 10 0] ∧
    (command_ldc1612_ng_start_stop
      (command_ldc1612_ng_finish_home
        (command_ldc1612_ng_setup_home exampleChannel exampleHomeArgs).ld 7).ld 7 0).ld.rest_ticks
      = 0 ∧
    (command_ldc1612_ng_start_stop
      (command_ldc1612_ng_finish_home
        (command_ldc1612_ng_setup_home exampleChannel exampleHomeArgs).ld 7).ld 7 0).ld.ts = 0 ∧
    (command_ldc1612_ng_setup_home
      (command_ldc1612_ng_start_stop
        (command_ldc1612_ng_finish_home
          (command_ldc1612_ng_setup_home exampleChannel exampleHomeArgs).ld 7).ld 7 0).ld
      exampleHomeArgs).events = [Event.trigger 0 10 0] := by
  decide

/-! ## C19: the overflow counter -/

theorem pending_after_or (x : Nat) : (x ||| LDC_PENDING) &&& LDC_PENDING ≠ 0 := by
  unfold LDC_PENDING
  rw [Nat.and_one_is_mod]
  have : (x ||| 1) % 2 = 1 := by
    rw [← Nat.and_one_is_mod]
    apply Nat.eq_of_testBit_eq
    intro i
    simp only [Nat.testBit_and, Nat.testBit_or]
    cases Nat.testBit 1 i <;> simp
  omega

/-- One timer event while a read is pending: the counter is incremented as
an 8-bit value and the read stays pending. -/
theorem timer_event_pending (ld : ldc1612_ng F) (pin : Bool)
    (hp : ld.flags &&& LDC_PENDING ≠ 0) :
    (ldc1612_ng_timer_event ld pin).overflows = (ld.overflows + 1) % 256 ∧
    (ldc1612_ng_timer_event ld pin).flags &&& LDC_PENDING ≠ 0 := by
  unfold ldc1612_ng_timer_event
  simp only []
  rw [if_pos hp]
  split_ifs
  · exact ⟨rfl, pending_after_or _⟩
  · exact ⟨rfl, hp⟩

/-- C19 (counterexample): with a read pending and the counter at `0`, after 255
timer events the counter is 255, and the 256-th leaves it at `0`, not at
`min 256 255 = 255`. -/
theorem C19_counterexample_overflow_counter_wraps :
    examplePending.flags &&& LDC_PENDING ≠ 0 ∧ examplePending.overflows = 0 ∧
    (timer_ticks examplePending (List.replicate 255 true)).overflows = 255 ∧
    (timer_ticks examplePending (List.replicate 256 true)).overflows = 0 ∧
    (timer_ticks examplePending (List.replicate 256 true)).overflows ≠ min 256 255 ∧
    (ldc1612_ng_timer_event (timer_ticks examplePending (List.replicate 255 true)) true).overflows
      < (timer_ticks examplePending (List.replicate 255 true)).overflows := by
  decide!

/-- C19 (amended): the overflow counter is an 8-bit counter that wraps.  For
every number `m` of timer events that arrive while a read is pending, starting
from the counter value `0` left by a flush, the counter equals `m mod 256`
(whatever the ready pin reads), so it equals `m` up to 255; a further missed
tick at 255 sets it to `0`. -/
theorem C19_overflow_counter_wraps (ld : ldc1612_ng F) (pins : List Bool)
    (hp : ld.flags &&& LDC_PENDING ≠ 0) (h0 : ld.overflows = 0) :
    (timer_ticks ld pins).overflows = pins.length % 256 ∧
    (pins.length ≤ 255 → (timer_ticks ld pins).overflows = pins.length) ∧
    (timer_ticks ld pins).flags &&& LDC_PENDING ≠ 0 ∧
    (pins.length % 256 = 255 →
      ∀ pin, (ldc1612_ng_timer_event (timer_ticks ld pins) pin).overflows = 0) := by
  have key : ∀ (ps : List Bool) (l : ldc1612_ng F), l.flags &&& LDC_PENDING ≠ 0 →
      (timer_ticks l ps).overflows = (l.overflows + ps.length) % 256 ∨ ps = [] := by
    intro ps
    induction ps with
    | nil => intro l _; right; rfl
    | cons p rest ih =>
      intro l hl
      left
      obtain ⟨a, b⟩ := timer_event_pending l p hl
      have hstep : timer_ticks l (p :: rest) = timer_ticks (ldc1612_ng_timer_event l p) rest := rfl
      rw [hstep]
      rcases ih _ b with h | h
      · rw [h, a, List.length_cons]
        omega
      · rw [h]
        show (ldc1612_ng_timer_event l p).overflows = _
        rw [a, List.length_cons, List.length_nil]
  have hflag : ∀ (ps : List Bool) (l : ldc1612_ng F), l.flags &&& LDC_PENDING ≠ 0 →
      (timer_ticks l ps).flags &&& LDC_PENDING ≠ 0 := by
    intro ps
    induction ps with
    | nil => intro l hl; exact hl
    | cons p rest ih =>
      intro l hl
      exact ih _ (timer_event_pending l p hl).2
  have hov : (timer_ticks ld pins).overflows = pins.length % 256 := by
    rcases key pins ld hp with h | h
    · rw [h, h0, Nat.zero_add]
    · rw [h]
      exact h0
  refine ⟨hov, ?_, hflag pins ld hp, ?_⟩
  · intro hle
    rw [hov]
    exact Nat.mod_eq_of_lt (by omega)
  · intro h255 pin
    rw [(timer_event_pending _ pin (hflag pins ld hp)).1, hov, h255]

/-- C19 (amended) on three missed ticks. -/
theorem C19_overflow_counter_wraps_witness :
    examplePending.flags &&& LDC_PENDING ≠ 0 ∧ examplePending.overflows = 0 ∧
    (timer_ticks examplePending [true, false, true]).overflows = 3 :=
  ⟨by decide, by decide,
    (C19_overflow_counter_wraps examplePending [true, false, true] (by decide) (by decide)).1⟩

/-! ## The load-section command -/

theorem getD_set {α : Type} (l : List α) (i j : Nat) (a d : α) :
    (l.set i a).getD j d = if i = j ∧ i < l.length then a else l.getD j d := by
  simp only [List.getD_eq_getElem?_getD, List.getElem?_set]
  by_cases h : i = j
  · subst h
    by_cases h2 : i < l.length
    · simp [h2]
    · simp [h2]
      have : l[i]? = none := List.getElem?_eq_none (by omega)
      rw [this]
      rfl
  · simp [h]

theorem memcpy_sos_length (sos : List F) (off : Nat) (data : List F) :
    (memcpy_sos sos off data).length = sos.length := by
  simp [memcpy_sos]

/-- Reading back after the copy: inside the list, the six floats at
`off .. off + 5` are the payload, every other float is untouched. -/
theorem memcpy_sos_getD (sos : List F) (off : Nat) (data : List F) (i : Nat)
    (hin : off + 6 ≤ sos.length) :
    (memcpy_sos sos off data).getD i FloatOps.zero =
      if off ≤ i ∧ i < off + 6 then data.getD (i - off) FloatOps.zero
      else sos.getD i FloatOps.zero := by
  unfold memcpy_sos
  simp only [getD_set, List.length_set]
  by_cases h : off ≤ i ∧ i < off + 6
  · rw [if_pos h]
    obtain ⟨c, hc, rfl⟩ : ∃ c, c < 6 ∧ i = off + c := ⟨i - off, by omega, by omega⟩
    have hsub : off + c - off = c := by omega
    rw [hsub]
    interval_cases c
    · simp; omega
    · simp; omega
    · simp; omega
    · simp; omega
    · simp; omega
    · simp; omega
  · rw [if_neg h]
    have h0 : ¬ off = i := by omega
    have h1 : ¬ off + 1 = i := by omega
    have h2 : ¬ off + 2 = i := by omega
    have h3 : ¬ off + 3 = i := by omega
    have h4 : ¬ off + 4 = i := by omega
    have h5 : ¬ off + 5 = i := by omega
    simp [h0, h1, h2, h3, h4, h5]

/-- One 24-byte load with an index below 4, on a bank of 24 coefficients. -/
theorem set_sos_section_load (ld : ldc1612_ng F) (a : SosSectionArgs F)
    (hlen : a.values_len % 256 = 24) (hidx : a.section_idx % 256 < MAX_SOS_SECTIONS)
    (hsos : ld.sos_filter.sos.length = MAX_SOS_SECTIONS * 6) :
    (command_ldc1612_ng_set_sos_section ld a).fatal = none ∧
    (command_ldc1612_ng_set_sos_section ld a).ld.sos_filter.num_sections
      = a.section_idx % 256 + 1 ∧
    (command_ldc1612_ng_set_sos_section ld a).ld.sos_filter.sos.length = MAX_SOS_SECTIONS * 6 ∧
    (∀ j, j < 6 →
      (command_ldc1612_ng_set_sos_section ld a).ld.sos_filter.sos.getD
        (6 * (a.section_idx % 256) + j) FloatOps.zero = a.values.getD j FloatOps.zero) ∧
    (∀ i, (i < 6 * (a.section_idx % 256) ∨ 6 * (a.section_idx % 256) + 6 ≤ i) →
      (command_ldc1612_ng_set_sos_section ld a).ld.sos_filter.sos.getD i FloatOps.zero
        = ld.sos_filter.sos.getD i FloatOps.zero) ∧
    (command_ldc1612_ng_set_sos_section ld a).ld.homing = ld.homing := by
  unfold MAX_SOS_SECTIONS at hidx hsos
  unfold command_ldc1612_ng_set_sos_section
  simp only []
  rw [if_neg (by omega), if_neg (by simp [hlen])]
  have hin : a.section_idx % 256 * 6 + 6 ≤ ld.sos_filter.sos.length := by omega
  refine ⟨rfl, ?_, ?_, ?_, ?_, rfl⟩
  · exact Nat.mod_eq_of_lt (by omega)
  · simp only [memcpy_sos_length]
    unfold MAX_SOS_SECTIONS
    exact hsos
  · intro j hj
    simp only []
    rw [memcpy_sos_getD _ _ _ _ hin, if_pos (by omega)]
    congr 1
    omega
  · intro i hi
    simp only []
    rw [memcpy_sos_getD _ _ _ _ hin, if_neg (by omega)]

/-! ## C15: bounds of the filter bank -/

/-- C15 (failing input): on a bank of `MAX_SOS_SECTIONS * 6 = 24` coefficients, a
24-byte load with section index 4 is accepted; it sets the section count to 5,
above `MAX_SOS_SECTIONS`, and all six indices it writes, 24 to 29, are outside
the coefficient array.  With index 255 the 8-bit section count becomes `0` and
the indices written start at 1530. -/
theorem C15_load_beyond_bank :
    exampleChannel.sos_filter.sos.length = MAX_SOS_SECTIONS * 6 ∧
    (command_ldc1612_ng_set_sos_section exampleChannel ⟨4, 24, [1, 2, 3, 4, 5, 6]⟩).fatal
      = none ∧
    (command_ldc1612_ng_set_sos_section exampleChannel
      ⟨4, 24, [1, 2, 3, 4, 5, 6]⟩).ld.sos_filter.num_sections = 5 ∧
    ¬ ((command_ldc1612_ng_set_sos_section exampleChannel
      ⟨4, 24, [1, 2, 3, 4, 5, 6]⟩).ld.sos_filter.num_sections ≤ MAX_SOS_SECTIONS) ∧
    sos_write_indices 4 = [24, 25, 26, 27, 28, 29] ∧
    (∀ i ∈ sos_write_indices 4, ¬ i < MAX_SOS_SECTIONS * 6) ∧
    (command_ldc1612_ng_set_sos_section exampleChannel ⟨255, 24, [1, 2, 3, 4, 5, 6]⟩).fatal
      = none ∧
    (command_ldc1612_ng_set_sos_section exampleChannel
      ⟨255, 24, [1, 2, 3, 4, 5, 6]⟩).ld.sos_filter.num_sections = 0 ∧
    (∀ i ∈ sos_write_indices 255, ¬ i < MAX_SOS_SECTIONS * 6) := by
  decide

/-- For section indices below `MAX_SOS_SECTIONS` the bounds hold: the section
count is at most `MAX_SOS_SECTIONS` and every index written is inside the
coefficient array. -/
theorem set_sos_section_in_bounds (ld : ldc1612_ng F) (a : SosSectionArgs F)
    (hidx : a.section_idx % 256 < MAX_SOS_SECTIONS)
    (hn : ld.sos_filter.num_sections ≤ MAX_SOS_SECTIONS) :
    (command_ldc1612_ng_set_sos_section ld a).ld.sos_filter.num_sections ≤ MAX_SOS_SECTIONS ∧
    (∀ i ∈ sos_write_indices a.section_idx, i < MAX_SOS_SECTIONS * 6) := by
  unfold MAX_SOS_SECTIONS at hidx hn ⊢
  constructor
  · unfold command_ldc1612_ng_set_sos_section
    simp only []
    split_ifs
    · exact Nat.zero_le _
    · exact hn
    · simp only []
      rw [Nat.mod_eq_of_lt (by omega)]
      omega
  · intro i hi
    unfold sos_write_indices at hi
    simp only [List.mem_map, List.mem_range] at hi
    obtain ⟨j, hj, rfl⟩ := hi
    omega

/-! ## C16: loads out of order -/

/-- C16 (counterexample): after a reset, a load with index 2 is accepted: the
section count becomes 3 and the coefficients change, although sections 0 and 1
were never loaded.  After loads with indices 0 and 1, a second load with index
`0` is accepted too: the section count drops to 1 and section 0 is
overwritten. -/
theorem C16_counterexample_out_of_order_load_accepted :
    (command_ldc1612_ng_set_sos_section exampleChannel ⟨0, 0, []⟩).ld.sos_filter.num_sections
      = 0 ∧
    (command_ldc1612_ng_set_sos_section
      (command_ldc1612_ng_set_sos_section exampleChannel ⟨0, 0, []⟩).ld
      ⟨2, 24, [1, 2, 3, 4, 5, 6]⟩).fatal = none ∧
    (command_ldc1612_ng_set_sos_section
      (command_ldc1612_ng_set_sos_section exampleChannel ⟨0, 0, []⟩).ld
      ⟨2, 24, [1, 2, 3, 4, 5, 6]⟩).ld.sos_filter.num_sections = 3 ∧
    (command_ldc1612_ng_set_sos_section
      (command_ldc1612_ng_set_sos_section exampleChannel ⟨0, 0, []⟩).ld
      ⟨2, 24, [1, 2, 3, 4, 5, 6]⟩).ld.sos_filter.sos
      ≠ (command_ldc1612_ng_set_sos_section exampleChannel ⟨0, 0, []⟩).ld.sos_filter.sos ∧
    (load_sections exampleChannel 0 [[1, 2, 3, 4, 5, 6], [7, 8, 9, 10, 11, 12]]).ld.sos_filter.num_sections
      = 2 ∧
    (command_ldc1612_ng_set_sos_section
      (load_sections exampleChannel 0 [[1, 2, 3, 4, 5, 6], [7, 8, 9, 10, 11, 12]]).ld
      ⟨0, 24, [9, 9, 9, 9, 9, 9]⟩).fatal = none ∧
    (command_ldc1612_ng_set_sos_section
      (load_sections exampleChannel 0 [[1, 2, 3, 4, 5, 6], [7, 8, 9, 10, 11, 12]]).ld
      ⟨0, 24, [9, 9, 9, 9, 9, 9]⟩).ld.sos_filter.num_sections = 1 ∧
    (command_ldc1612_ng_set_sos_section
      (load_sections exampleChannel 0 [[1, 2, 3, 4, 5, 6], [7, 8, 9, 10, 11, 12]]).ld
      ⟨0, 24, [9, 9, 9, 9, 9, 9]⟩).ld.sos_filter.sos.take 6 = [9, 9, 9, 9, 9, 9] := by
  decide!

/-- C16 (amended): a 24-byte load is accepted whatever the section count of
the bank is.  For every bank of 24 coefficients with any section count `n` and
every index `i` in `0..3`, whether `i` continues the order (`i = n`) or breaks
it, the load sets the section count to `i + 1`, stores the payload as the six
coefficients of section `i` and leaves every other coefficient unchanged. -/
theorem C16_load_ignores_order (ld : ldc1612_ng F) (a : SosSectionArgs F) (n : Nat)
    (hn : ld.sos_filter.num_sections = n)
    (hlen : a.values_len % 256 = 24) (hidx : a.section_idx % 256 < MAX_SOS_SECTIONS)
    (hsos : ld.sos_filter.sos.length = MAX_SOS_SECTIONS * 6) :
    (command_ldc1612_ng_set_sos_section ld a).fatal = none ∧
    (command_ldc1612_ng_set_sos_section ld a).ld.sos_filter.num_sections
      = a.section_idx % 256 + 1 ∧
    (∀ j, j < 6 →
      (command_ldc1612_ng_set_sos_section ld a).ld.sos_filter.sos.getD
        (6 * (a.section_idx % 256) + j) FloatOps.zero = a.values.getD j FloatOps.zero) ∧
    (∀ i, (i < 6 * (a.section_idx % 256) ∨ 6 * (a.section_idx % 256) + 6 ≤ i) →
      (command_ldc1612_ng_set_sos_section ld a).ld.sos_filter.sos.getD i FloatOps.zero
        = ld.sos_filter.sos.getD i FloatOps.zero) := by
  obtain ⟨h1, h2, _, h4, h5, _⟩ := set_sos_section_load ld a hlen hidx hsos
  exact ⟨h1, h2, h4, h5⟩

/-- C16 (amended) on the empty example bank and a load with index 2. -/
theorem C16_load_ignores_order_witness :
    exampleChannel.sos_filter.num_sections = 0 ∧ (24 : Nat) % 256 = 24 ∧
    (2 : Nat) % 256 < MAX_SOS_SECTIONS ∧
    exampleChannel.sos_filter.sos.length = MAX_SOS_SECTIONS * 6 ∧
    (command_ldc1612_ng_set_sos_section exampleChannel
      ⟨2, 24, [1, 2, 3, 4, 5, 6]⟩).ld.sos_filter.num_sections = 2 % 256 + 1 :=
  ⟨by decide, by decide, by decide, by decide,
    (C16_load_ignores_order exampleChannel ⟨2, 24, [1, 2, 3, 4, 5, 6]⟩ 0 (by decide)
      (by decide) (by decide) (by decide)).2.1⟩

/-! ## C17: reset and loading in order -/

theorem load_sections_cons (ld : ldc1612_ng F) (k : Nat) (p : List F) (rest : List (List F))
    (h : (command_ldc1612_ng_set_sos_section ld ⟨k, 24, p⟩).fatal = none) :
    (load_sections ld k (p :: rest)).ld
      = (load_sections (command_ldc1612_ng_set_sos_section ld ⟨k, 24, p⟩).ld (k + 1) rest).ld ∧
    (load_sections ld k (p :: rest)).fatal
      = (load_sections (command_ldc1612_ng_set_sos_section ld ⟨k, 24, p⟩).ld (k + 1) rest).fatal := by
  simp only [load_sections]
  rw [if_neg (by simp [h])]
  exact ⟨rfl, rfl⟩

/-- Loading payloads as sections `k, k + 1, ...` on a bank of 24 coefficients,
as long as the last index is below 4. -/
theorem load_sections_in_order (payloads : List (List F)) :
    ∀ (ld : ldc1612_ng F) (k : Nat),
      ld.sos_filter.sos.length = MAX_SOS_SECTIONS * 6 →
      k + payloads.length ≤ MAX_SOS_SECTIONS →
      (load_sections ld k payloads).fatal = none ∧
      (load_sections ld k payloads).ld.sos_filter.sos.length = MAX_SOS_SECTIONS * 6 ∧
      (payloads ≠ [] →
        (load_sections ld k payloads).ld.sos_filter.num_sections = k + payloads.length) ∧
      (∀ i j, i < payloads.length → j < 6 →
        (load_sections ld k payloads).ld.sos_filter.sos.getD (6 * (k + i) + j) FloatOps.zero
          = (payloads.getD i []).getD j FloatOps.zero) ∧
      (∀ m, m < 6 * k →
        (load_sections ld k payloads).ld.sos_filter.sos.getD m FloatOps.zero
          = ld.sos_filter.sos.getD m FloatOps.zero) := by
  induction payloads with
  | nil =>
    intro ld k hsos _
    refine ⟨rfl, hsos, fun h => absurd rfl h, ?_, fun _ _ => rfl⟩
    intro i j hi
    simp at hi
  | cons p rest ih =>
    intro ld k hsos hk
    have hlen : (p :: rest).length = rest.length + 1 := rfl
    rw [hlen] at hk
    have hk4 : k < MAX_SOS_SECTIONS := by omega
    have hkm : k % 256 = k := Nat.mod_eq_of_lt (by unfold MAX_SOS_SECTIONS at hk4; omega)
    obtain ⟨c1, c2, c3, c4, c5, _⟩ := set_sos_section_load ld ⟨k, 24, p⟩ (by rfl)
      (by simp only []; rw [hkm]; exact hk4) hsos
    simp only [hkm] at c2 c4 c5
    obtain ⟨i1, i2, i3, i4, i5⟩ := ih (command_ldc1612_ng_set_sos_section ld ⟨k, 24, p⟩).ld
      (k + 1) c3 (by omega)
    obtain ⟨e1, e2⟩ := load_sections_cons ld k p rest c1
    rw [e1, e2]
    refine ⟨i1, i2, ?_, ?_, ?_⟩
    · intro _
      by_cases hr : rest = []
      · subst hr
        simp only [load_sections, List.length_nil]
        exact c2
      · rw [i3 hr, hlen]
        omega
    · intro i j hi hj
      cases i with
      | zero =>
        rw [i5 (6 * (k + 0) + j) (by omega)]
        exact c4 j hj
      | succ i' =>
        have := i4 i' j (by rw [hlen] at hi; omega) hj
        rw [show 6 * (k + (i' + 1)) + j = 6 * (k + 1 + i') + j by omega, this]
        rfl
    · intro m hm
      rw [i5 m (by omega)]
      exact c5 m (Or.inl hm)

/-- C17: a zero-length load sets the section count to `0` whatever the index
is, and leaves the coefficients alone.  After it, loading the payloads of a
list of `n <= 4` payloads as sections `0, 1, ..., n - 1` with 24-byte loads
gives a bank with exactly `n` sections whose `k`-th six coefficients are the
`k`-th payload.  Each 24-byte load with an index below 4 sets the section
count to `index + 1` and leaves the coefficients of all other sections
unchanged.  A payload length other than `0` and `24` is fatal and changes
nothing. -/
theorem C17_reset_and_load_in_order (ld : ldc1612_ng F) (idx : Nat) (dummy : List F)
    (payloads : List (List F))
    (hsos : ld.sos_filter.sos.length = MAX_SOS_SECTIONS * 6)
    (hn : payloads.length ≤ MAX_SOS_SECTIONS) :
    (command_ldc1612_ng_set_sos_section ld ⟨idx, 0, dummy⟩).fatal = none ∧
    (command_ldc1612_ng_set_sos_section ld ⟨idx, 0, dummy⟩).ld.sos_filter.num_sections = 0 ∧
    (command_ldc1612_ng_set_sos_section ld ⟨idx, 0, dummy⟩).ld.sos_filter.sos
      = ld.sos_filter.sos ∧
    (load_sections (command_ldc1612_ng_set_sos_section ld ⟨idx, 0, dummy⟩).ld 0 payloads).fatal
      = none ∧
    (load_sections (command_ldc1612_ng_set_sos_section ld ⟨idx, 0, dummy⟩).ld 0
      payloads).ld.sos_filter.num_sections = payloads.length ∧
    (∀ k j, k < payloads.length → j < 6 →
      (load_sections (command_ldc1612_ng_set_sos_section ld ⟨idx, 0, dummy⟩).ld 0
        payloads).ld.sos_filter.sos.getD (6 * k + j) FloatOps.zero
        = (payloads.getD k []).getD j FloatOps.zero) ∧
    (∀ (ld1 : ldc1612_ng F) (k : Nat) (p : List F),
      ld1.sos_filter.sos.length = MAX_SOS_SECTIONS * 6 → k < MAX_SOS_SECTIONS →
      (command_ldc1612_ng_set_sos_section ld1 ⟨k, 24, p⟩).fatal = none ∧
      (command_ldc1612_ng_set_sos_section ld1 ⟨k, 24, p⟩).ld.sos_filter.num_sections = k + 1 ∧
      (∀ i, (i < 6 * k ∨ 6 * k + 6 ≤ i) →
        (command_ldc1612_ng_set_sos_section ld1 ⟨k, 24, p⟩).ld.sos_filter.sos.getD i
          FloatOps.zero = ld1.sos_filter.sos.getD i FloatOps.zero)) ∧
    (∀ (ld1 : ldc1612_ng F) (a : SosSectionArgs F),
      a.values_len < 256 → a.values_len ≠ 0 → a.values_len ≠ 24 →
      (command_ldc1612_ng_set_sos_section ld1 a).fatal
        = some "ldc1612_ng: wrong sos section length" ∧
      (command_ldc1612_ng_set_sos_section ld1 a).ld = ld1) := by
  have hreset : command_ldc1612_ng_set_sos_section ld ⟨idx, 0, dummy⟩ =
      { ld := { ld with sos_filter := { ld.sos_filter with num_sections := 0 } },
        events := [], fatal := none } := by
    unfold command_ldc1612_ng_set_sos_section
    simp
  obtain ⟨l1, _, l3, l4, _⟩ := load_sections_in_order payloads
    (command_ldc1612_ng_set_sos_section ld ⟨idx, 0, dummy⟩).ld 0
    (by rw [hreset]; exact hsos) (by omega)
  refine ⟨by rw [hreset], by rw [hreset], by rw [hreset], l1, ?_, ?_, ?_, ?_⟩
  · by_cases hp : payloads = []
    · subst hp
      simp only [load_sections, List.length_nil]
      rw [hreset]
    · rw [l3 hp, Nat.zero_add]
  · intro k j hk hj
    have := l4 k j hk hj
    rw [Nat.zero_add] at this
    exact this
  · intro ld1 k p h1 hk
    have hkm : k % 256 = k := Nat.mod_eq_of_lt (by unfold MAX_SOS_SECTIONS at hk; omega)
    obtain ⟨c1, c2, _, _, c5, _⟩ := set_sos_section_load ld1 ⟨k, 24, p⟩ (by rfl)
      (by simp only []; rw [hkm]; exact hk) h1
    simp only [hkm] at c2 c5
    exact ⟨c1, c2, c5⟩
  · intro ld1 a h1 h2 h3
    unfold command_ldc1612_ng_set_sos_section
    simp only []
    have hm : a.values_len % 256 = a.values_len := Nat.mod_eq_of_lt h1
    rw [hm, if_neg h2, if_pos (by omega)]
    exact ⟨rfl, rfl⟩

/-- C17 on the example bank: a reset with index 9, then two sections. -/
theorem C17_reset_and_load_in_order_witness :
    exampleChannel.sos_filter.sos.length = MAX_SOS_SECTIONS * 6 ∧
    [[(1 : ℚ), 2, 3, 4, 5, 6], [7, 8, 9, 10, 11, 12]].length ≤ MAX_SOS_SECTIONS ∧
    (load_sections (command_ldc1612_ng_set_sos_section exampleChannel ⟨9, 0, []⟩).ld 0
      [[1, 2, 3, 4, 5, 6], [7, 8, 9, 10, 11, 12]]).ld.sos_filter.num_sections = 2 ∧
    (load_sections (command_ldc1612_ng_set_sos_section exampleChannel ⟨9, 0, []⟩).ld 0
      [[1, 2, 3, 4, 5, 6], [7, 8, 9, 10, 11, 12]]).ld.sos_filter.sos.take 12
      = [1, 2, 3, 4, 5, 6, 7, 8, 9, 10, 11, 12] :=
  ⟨by decide, by decide,
    (C17_reset_and_load_in_order exampleChannel 9 []
      [[1, 2, 3, 4, 5, 6], [7, 8, 9, 10, 11, 12]] (by decide) (by decide)).2.2.2.2.1,
    by decide!⟩

/-! ## C14: the cascaded biquad filter -/

/-- The loop of `sosfilter`, started at section `k` with the coefficient
pointer at `6 * k`, is the fold of the section step over `k, k + 1, ...`. -/
theorem sosfilter_loop_eq_fold (sos : List F) (n : Nat) :
    ∀ (k : Nat) (v : F) (st : List F),
      sosfilter_loop sos n k (6 * k) v st
        = (List.range' k n).foldl (sos_section_step sos) (v, st) := by
  induction n with
  | zero => intro k v st; rfl
  | succ n ih =>
    intro k v st
    rw [List.range'_succ, List.foldl_cons]
    simp only [sosfilter_loop]
    rw [show 6 * k + 6 = 6 * (k + 1) by omega, ih]
    rfl

/-- The fold over the sections `k .. k + n - 1` keeps the length of the state
and every entry outside `2k .. 2(k+n) - 1`. -/
theorem section_fold_frame (sos : List F) (n : Nat) :
    ∀ (k : Nat) (v : F) (st : List F),
      ((List.range' k n).foldl (sos_section_step sos) (v, st)).2.length = st.length ∧
      ∀ i, (i < 2 * k ∨ 2 * (k + n) ≤ i) →
        ((List.range' k n).foldl (sos_section_step sos) (v, st)).2.getD i FloatOps.zero
          = st.getD i FloatOps.zero := by
  induction n with
  | zero => intro k v st; exact ⟨rfl, fun _ _ => rfl⟩
  | succ n ih =>
    intro k v st
    rw [List.range'_succ, List.foldl_cons]
    obtain ⟨h1, h2⟩ := ih (k + 1) (sos_section_step sos (v, st) k).1
      (sos_section_step sos (v, st) k).2
    have hl : (sos_section_step sos (v, st) k).2.length = st.length := by
      simp [sos_section_step]
    constructor
    · rw [h1, hl]
    · intro i hi
      rw [h2 i (by omega)]
      simp only [sos_section_step, getD_set]
      rw [if_neg (by omega), if_neg (by omega)]

/-- Two folds over the sections `k .. k + n - 1` from the same input agree on
the output and on the delay entries of these sections when the banks agree on
the coefficients `b0, b1, b2, a1, a2` of these sections and the states agree
on their delay entries. -/
theorem section_fold_congr (sos sos2 : List F) (n : Nat) :
    ∀ (k : Nat) (v : F) (st st2 : List F),
      st2.length = st.length →
      (∀ i, 2 * k ≤ i → i < 2 * (k + n) → st2.getD i FloatOps.zero = st.getD i FloatOps.zero) →
      (∀ m j, k ≤ m → m < k + n → j < 6 → j ≠ 3 →
        sos2.getD (6 * m + j) FloatOps.zero = sos.getD (6 * m + j) FloatOps.zero) →
      ((List.range' k n).foldl (sos_section_step sos2) (v, st2)).1
        = ((List.range' k n).foldl (sos_section_step sos) (v, st)).1 ∧
      ∀ i, 2 * k ≤ i → i < 2 * (k + n) →
        ((List.range' k n).foldl (sos_section_step sos2) (v, st2)).2.getD i FloatOps.zero
          = ((List.range' k n).foldl (sos_section_step sos) (v, st)).2.getD i FloatOps.zero := by
  induction n with
  | zero =>
    intro k v st st2 _ hst _
    exact ⟨rfl, fun i h1 h2 => hst i h1 h2⟩
  | succ n ih =>
    intro k v st st2 hlen hst hsos
    rw [List.range'_succ, List.foldl_cons, List.foldl_cons]
    have c0 := hsos k 0 (Nat.le_refl _) (by omega) (by omega) (by omega)
    have c1 := hsos k 1 (Nat.le_refl _) (by omega) (by omega) (by omega)
    have c2 := hsos k 2 (Nat.le_refl _) (by omega) (by omega) (by omega)
    have c4 := hsos k 4 (Nat.le_refl _) (by omega) (by omega) (by omega)
    have c5 := hsos k 5 (Nat.le_refl _) (by omega) (by omega) (by omega)
    have w1 := hst (2 * k) (Nat.le_refl _) (by omega)
    have w2 := hst (2 * k + 1) (by omega) (by omega)
    rw [Nat.add_zero] at c0
    have hv : (sos_section_step sos2 (v, st2) k).1 = (sos_section_step sos (v, st) k).1 := by
      simp only [sos_section_step, c0, c1, c2, c4, c5, w1, w2]
    have hs : ∀ i, (sos_section_step sos2 (v, st2) k).2.getD i FloatOps.zero
        = (sos_section_step sos (v, st) k).2.getD i FloatOps.zero ∨
        (i < 2 * k ∨ 2 * (k + (n + 1)) ≤ i) := by
      intro i
      by_cases hi : 2 * k ≤ i ∧ i < 2 * (k + (n + 1))
      · left
        simp only [sos_section_step, getD_set, List.length_set, c0, c1, c2, c4, c5, w1, w2, hlen,
          hst i hi.1 hi.2]
      · right
        omega
    have hl2 : (sos_section_step sos2 (v, st2) k).2.length
        = (sos_section_step sos (v, st) k).2.length := by
      simp [sos_section_step, hlen]
    obtain ⟨r1, r2⟩ := ih (k + 1) (sos_section_step sos (v, st) k).1
      (sos_section_step sos (v, st) k).2 (sos_section_step sos2 (v, st2) k).2 hl2
      (fun i h1 h2 => by
        rcases hs i with h | h
        · exact h
        · omega)
      (fun m j h1 h2 h3 h4 => hsos m j (by omega) (by omega) h3 h4)
    have hp2 : sos_section_step sos2 (v, st2) k
        = ((sos_section_step sos (v, st) k).1, (sos_section_step sos2 (v, st2) k).2) :=
      Prod.ext hv rfl
    rw [hp2]
    refine ⟨r1, ?_⟩
    intro i h1 h2
    by_cases hi : 2 * (k + 1) ≤ i
    · exact r2 i hi (by omega)
    · have f2 := (section_fold_frame sos2 n (k + 1) (sos_section_step sos (v, st) k).1
        (sos_section_step sos2 (v, st2) k).2).2 i (by omega)
      have f1 := (section_fold_frame sos n (k + 1) (sos_section_step sos (v, st) k).1
        (sos_section_step sos (v, st) k).2).2 i (by omega)
      rw [f2]
      refine Eq.trans ?_ f1.symm
      rcases hs i with h | h
      · exact h
      · omega

/-- C14: for every bank with `n <= 4` sections, every input and every delay
state, `sosfilter` returns what the fold of the specification's section step
over the sections `0 .. n - 1` returns, output and delay state; for `n = 0` this
is the input and the unchanged state; the length of the state is kept and the
entries at index `>= 2n` are unchanged; and the output and the delay entries
below `2n` are the same for any other bank and state that agree on the
coefficients `b0, b1, b2, a1, a2` of the sections below `n` and on the delay
entries below `2n`, so the `a0` entries and everything that belongs to the
sections `>= n` have no influence. -/
theorem C14_sosfilter_is_section_fold (filter : sosfilter_sos F) (x : F) (state : List F)
    (hn : filter.num_sections ≤ MAX_SOS_SECTIONS)
    (hsos : filter.sos.length = MAX_SOS_SECTIONS * 6)
    (hstate : state.length = MAX_SOS_SECTIONS * 4) :
    sosfilter x filter state = sosfilter_spec filter.num_sections filter.sos x state ∧
    (filter.num_sections = 0 → sosfilter x filter state = (x, state)) ∧
    (sosfilter x filter state).2.length = state.length ∧
    (∀ i, 2 * filter.num_sections ≤ i →
      (sosfilter x filter state).2.getD i FloatOps.zero = state.getD i FloatOps.zero) ∧
    (∀ (filter2 : sosfilter_sos F) (state2 : List F),
      filter2.num_sections = filter.num_sections → state2.length = state.length →
      (∀ k j, k < filter.num_sections → j < 6 → j ≠ 3 →
        filter2.sos.getD (6 * k + j) FloatOps.zero = filter.sos.getD (6 * k + j) FloatOps.zero) →
      (∀ i, i < 2 * filter.num_sections →
        state2.getD i FloatOps.zero = state.getD i FloatOps.zero) →
      (sosfilter x filter2 state2).1 = (sosfilter x filter state).1 ∧
      ∀ i, i < 2 * filter.num_sections →
        (sosfilter x filter2 state2).2.getD i FloatOps.zero
          = (sosfilter x filter state).2.getD i FloatOps.zero) := by
  have heq : ∀ (f : sosfilter_sos F) (st : List F),
      sosfilter x f st = (List.range' 0 f.num_sections).foldl (sos_section_step f.sos) (x, st) := by
    intro f st
    unfold sosfilter
    exact sosfilter_loop_eq_fold f.sos f.num_sections 0 x st
  obtain ⟨f1, f2⟩ := section_fold_frame filter.sos filter.num_sections 0 x state
  refine ⟨?_, ?_, ?_, ?_, ?_⟩
  · rw [heq, sosfilter_spec, List.range_eq_range']
  · intro h0
    rw [heq, h0]
    rfl
  · rw [heq]; exact f1
  · intro i hi
    rw [heq]
    exact f2 i (Or.inr (by omega))
  · intro filter2 state2 hn2 hl2 hc hs
    rw [heq filter2 state2, heq filter state, hn2]
    obtain ⟨r1, r2⟩ := section_fold_congr filter.sos filter2.sos filter.num_sections 0 x state
      state2 hl2 (fun i _ h => hs i (by omega))
      (fun m j _ h2 h3 h4 => hc m j (by omega) h3 h4)
    exact ⟨r1, fun i hi => r2 i (Nat.zero_le _) (by omega)⟩

/-- C14 on a bank of two sections: the filter output for input `1` from the
zero state, and the state it leaves. -/
theorem C14_sosfilter_is_section_fold_witness :
    exampleBank.num_sections ≤ MAX_SOS_SECTIONS ∧
    exampleBank.sos.length = MAX_SOS_SECTIONS * 6 ∧
    (List.replicate 16 (0 : ℚ)).length = MAX_SOS_SECTIONS * 4 ∧
    sosfilter 1 exampleBank (List.replicate 16 0)
      = sosfilter_spec exampleBank.num_sections exampleBank.sos 1 (List.replicate 16 0) ∧
    (sosfilter 1 exampleBank (List.replicate 16 0)).1 = 2 ∧
    (sosfilter 1 exampleBank (List.replicate 16 0)).2 = [1, 0, 1, 0] ++ List.replicate 12 0 :=
  ⟨by decide, by decide, by decide,
    (C14_sosfilter_is_section_fold exampleBank 1 (List.replicate 16 0) (by decide) (by decide)
      (by decide)).1,
    by decide!, by decide!⟩

/-! ## C18: the sample buffer -/

theorem check_homing_keeps_buffer (ld : ldc1612_ng F) (data time : Nat) :
    (check_homing ld data time).ld.buf_next = ld.buf_next ∧
    (check_homing ld data time).ld.seq_next = ld.seq_next ∧
    (check_homing ld data time).ld.overflows = ld.overflows ∧
    (check_homing ld data time).ld.buffer = ld.buffer := by
  have he := check_error_frame ld data time
  have hg := check_safe_start_frame (check_error ld data time).ld data time
  unfold check_homing
  simp only []
  split_ifs
  · rw [he]; exact ⟨rfl, rfl, rfl, rfl⟩
  · rw [hg, he]; exact ⟨rfl, rfl, rfl, rfl⟩
  · simp only [notify_trigger]
    rw [hg, he]; exact ⟨rfl, rfl, rfl, rfl⟩
  · rw [hg, he]; exact ⟨rfl, rfl, rfl, rfl⟩

theorem check_sos_tap_keeps_buffer (ld : ldc1612_ng F) (data time : Nat) :
    (check_sos_tap ld data time).ld.buf_next = ld.buf_next ∧
    (check_sos_tap ld data time).ld.seq_next = ld.seq_next ∧
    (check_sos_tap ld data time).ld.overflows = ld.overflows ∧
    (check_sos_tap ld data time).ld.buffer = ld.buffer := by
  have he := check_error_frame ld data time
  unfold check_sos_tap
  simp only []
  split_ifs
  · rw [he]; exact ⟨rfl, rfl, rfl, rfl⟩
  all_goals (rw [check_safe_start_frame, he]; exact ⟨rfl, rfl, rfl, rfl⟩)

theorem update_switch_keeps_buffer (ld : ldc1612_ng F) (s : Sample) :
    (update_switch ld s).ld.buf_next = ld.buf_next ∧
    (update_switch ld s).ld.seq_next = ld.seq_next ∧
    (update_switch ld s).ld.overflows = ld.overflows ∧
    (update_switch ld s).ld.buffer = ld.buffer := by
  unfold update_switch
  split_ifs
  · exact check_homing_keeps_buffer _ _ _
  · exact check_sos_tap_keeps_buffer _ _ _
  · exact ⟨rfl, rfl, rfl, rfl⟩

theorem data_events_append (a b : List Event) :
    data_events (a ++ b) = data_events a ++ data_events b := by
  simp [data_events]

theorem data_events_single (oid seq ov : Nat) (payload : List Nat) :
    data_events [Event.data oid seq ov payload] = [Event.data oid seq ov payload] := rfl

theorem update_switch_no_data (ld : ldc1612_ng F) (s : Sample) :
    data_events (update_switch ld s).events = [] := by
  rcases update_switch_quiet ld s with h | ⟨⟨ts, r, h⟩, _⟩
  · rw [h]; rfl
  · rw [h]; rfl

/-- What one processed sample does to the buffer, as long as the 8-bit slot
counter does not wrap: the pair is stored; below capacity nothing is sent, at
capacity the stored words are sent with the sequence number and the overflow
count, and the counters are reset. -/
theorem update_buffer_step (B oid : Nat) (ld : ldc1612_ng F) (s : Sample)
    (hst : s.status &&& STATUS_UNREADCONV0 ≠ 0)
    (hf : (ldc1612_ng_update B ld oid s).fatal = none)
    (hb : ld.buf_next + 2 ≤ 255) :
    (ldc1612_ng_update B ld oid s).ld.buffer
      = (ld.buffer.set ld.buf_next s.time).set (ld.buf_next + 1) s.data ∧
    (ld.buf_next + 2 < B →
      data_events (ldc1612_ng_update B ld oid s).events = [] ∧
      (ldc1612_ng_update B ld oid s).ld.buf_next = ld.buf_next + 2 ∧
      (ldc1612_ng_update B ld oid s).ld.seq_next = ld.seq_next ∧
      (ldc1612_ng_update B ld oid s).ld.overflows = ld.overflows) ∧
    (B ≤ ld.buf_next + 2 →
      data_events (ldc1612_ng_update B ld oid s).events =
        [Event.data oid ld.seq_next ld.overflows
          (((ld.buffer.set ld.buf_next s.time).set (ld.buf_next + 1) s.data).take
            (ld.buf_next + 2))] ∧
      (ldc1612_ng_update B ld oid s).ld.buf_next = 0 ∧
      (ldc1612_ng_update B ld oid s).ld.seq_next = (ld.seq_next + 1) % 256 ∧
      (ldc1612_ng_update B ld oid s).ld.overflows = 0) := by
  have e : ldc1612_ng_update B ld oid s
      = update_flush B oid (update_switch (at_switch ld s) s) := by
    unfold ldc1612_ng_update
    simp only []
    rw [if_neg hst]
    rfl
  rw [e, update_flush_fatal] at hf
  obtain ⟨k1, k2, k3, k4⟩ := update_switch_keeps_buffer (at_switch ld s) s
  have hnd := update_switch_no_data (at_switch ld s) s
  have m1 : (ld.buf_next + 1) % 256 = ld.buf_next + 1 := Nat.mod_eq_of_lt (by omega)
  have m2 : (ld.buf_next + 1 + 1) % 256 = ld.buf_next + 2 := Nat.mod_eq_of_lt (by omega)
  have a1 : (at_switch ld s).buf_next = ld.buf_next + 2 := by
    show ((ld.buf_next + 1) % 256 + 1) % 256 = _
    rw [m1, m2]
  have a2 : (at_switch ld s).buffer
      = (ld.buffer.set ld.buf_next s.time).set (ld.buf_next + 1) s.data := by
    show (ld.buffer.set ld.buf_next s.time).set ((ld.buf_next + 1) % 256) s.data = _
    rw [m1]
  have a3 : (at_switch ld s).seq_next = ld.seq_next := rfl
  have a4 : (at_switch ld s).overflows = ld.overflows := rfl
  rw [a1] at k1
  rw [a2] at k4
  rw [a3] at k2
  rw [a4] at k3
  rw [e]
  unfold update_flush
  rw [if_neg (by simp [hf])]
  refine ⟨?_, ?_, ?_⟩
  · unfold flush_buffer
    split_ifs <;> exact k4
  · intro hlt
    rw [if_neg (by rw [k1]; omega)]
    exact ⟨hnd, k1, k2, k3⟩
  · intro hge
    rw [if_pos (by rw [k1]; exact hge)]
    unfold flush_buffer
    rw [if_neg (by rw [k1]; omega)]
    simp [data_events_append, data_events_single, hnd, k1, k2, k3, k4]

theorem timer_event_keeps (ld : ldc1612_ng F) (pin : Bool) :
    (ldc1612_ng_timer_event ld pin).buf_next = ld.buf_next ∧
    (ldc1612_ng_timer_event ld pin).seq_next = ld.seq_next ∧
    (ldc1612_ng_timer_event ld pin).buffer = ld.buffer ∧
    (ldc1612_ng_timer_event ld pin).homing = ld.homing := by
  unfold ldc1612_ng_timer_event
  simp only []
  split_ifs <;> exact ⟨rfl, rfl, rfl, rfl⟩

theorem timer_ticks_keeps (pins : List Bool) :
    ∀ ld : ldc1612_ng F,
      (timer_ticks ld pins).buf_next = ld.buf_next ∧
      (timer_ticks ld pins).seq_next = ld.seq_next ∧
      (timer_ticks ld pins).buffer = ld.buffer ∧
      (timer_ticks ld pins).homing = ld.homing := by
  induction pins with
  | nil => intro ld; exact ⟨rfl, rfl, rfl, rfl⟩
  | cons p rest ih =>
    intro ld
    obtain ⟨a, b, c, d⟩ := ih (ldc1612_ng_timer_event ld p)
    obtain ⟨a0, b0, c0, d0⟩ := timer_event_keeps ld p
    have hstep : timer_ticks ld (p :: rest) = timer_ticks (ldc1612_ng_timer_event ld p) rest := rfl
    rw [hstep, a, b, c, d, a0, b0, c0, d0]
    exact ⟨rfl, rfl, rfl, rfl⟩

theorem timer_ticks_pending_of_pending (pins : List Bool) :
    ∀ ld : ldc1612_ng F, ld.flags &&& LDC_PENDING ≠ 0 →
      (timer_ticks ld pins).flags &&& LDC_PENDING ≠ 0 := by
  induction pins with
  | nil => intro ld h; exact h
  | cons p rest ih =>
    intro ld h
    exact ih _ (timer_event_pending ld p h).2

/-- A timer event that finds the ready pin asserted leaves a read pending. -/
theorem timer_event_asserted (ld : ldc1612_ng F) :
    (ldc1612_ng_timer_event ld true).flags &&& LDC_PENDING ≠ 0 := by
  unfold ldc1612_ng_timer_event
  simp only []
  rw [if_pos (Or.inr trivial)]
  exact pending_after_or _

theorem timer_ticks_pending (pins : List Bool) :
    ∀ ld : ldc1612_ng F, true ∈ pins → (timer_ticks ld pins).flags &&& LDC_PENDING ≠ 0 := by
  induction pins with
  | nil => intro ld h; cases h
  | cons p rest ih =>
    intro ld h
    have hstep : timer_ticks ld (p :: rest) = timer_ticks (ldc1612_ng_timer_event ld p) rest := rfl
    rw [hstep]
    cases p with
    | true => exact timer_ticks_pending_of_pending rest _ (timer_event_asserted ld)
    | false =>
      apply ih
      simpa using h

theorem task_processed (B oid : Nat) (ld : ldc1612_ng F) (e : List Bool × Sample)
    (he : processed e) :
    ldc1612_ng_task B (timer_ticks ld e.1) oid e.2
      = ldc1612_ng_update B (timer_ticks ld e.1) oid e.2 := by
  unfold ldc1612_ng_task
  rw [if_neg (timer_ticks_pending e.1 ld he.1)]

theorem run_timed_cons_fatal (B oid : Nat) (ld : ldc1612_ng F) (e : List Bool × Sample)
    (rest : List (List Bool × Sample))
    (h : (ldc1612_ng_task B (timer_ticks ld e.1) oid e.2).fatal ≠ none) :
    (run_timed B oid ld (e :: rest)).fatal
      = (ldc1612_ng_task B (timer_ticks ld e.1) oid e.2).fatal := by
  simp only [run_timed]
  rw [if_pos h]

theorem run_timed_cons_ok (B oid : Nat) (ld : ldc1612_ng F) (e : List Bool × Sample)
    (rest : List (List Bool × Sample))
    (h : (ldc1612_ng_task B (timer_ticks ld e.1) oid e.2).fatal = none) :
    run_timed B oid ld (e :: rest) =
      { ld := (run_timed B oid (ldc1612_ng_task B (timer_ticks ld e.1) oid e.2).ld rest).ld,
        events := (ldc1612_ng_task B (timer_ticks ld e.1) oid e.2).events ++
          (run_timed B oid (ldc1612_ng_task B (timer_ticks ld e.1) oid e.2).ld rest).events,
        fatal := (run_timed B oid (ldc1612_ng_task B (timer_ticks ld e.1) oid e.2).ld rest).fatal } := by
  simp only [run_timed]
  rw [if_neg (by simp [h])]

theorem run_timed_cons_fatal_none (B oid : Nat) (ld : ldc1612_ng F) (e : List Bool × Sample)
    (rest : List (List Bool × Sample))
    (h : (run_timed B oid ld (e :: rest)).fatal = none) :
    (ldc1612_ng_task B (timer_ticks ld e.1) oid e.2).fatal = none := by
  by_contra hf
  rw [run_timed_cons_fatal B oid ld e rest hf] at h
  exact hf h

theorem run_timed_prefix_fatal (B oid : Nat) (xs ys : List (List Bool × Sample)) :
    ∀ ld : ldc1612_ng F, (run_timed B oid ld (xs ++ ys)).fatal = none →
      (run_timed B oid ld xs).fatal = none := by
  induction xs with
  | nil => intro ld _; rfl
  | cons e rest ih =>
    intro ld h
    rw [List.cons_append] at h
    have h1 := run_timed_cons_fatal_none B oid ld e _ h
    rw [run_timed_cons_ok B oid ld e _ h1] at h
    rw [run_timed_cons_ok B oid ld e _ h1]
    exact ih _ h

theorem run_timed_append (B oid : Nat) (xs ys : List (List Bool × Sample)) :
    ∀ ld : ldc1612_ng F, (run_timed B oid ld xs).fatal = none →
      (run_timed B oid ld (xs ++ ys)).events =
        (run_timed B oid ld xs).events
          ++ (run_timed B oid (run_timed B oid ld xs).ld ys).events ∧
      (run_timed B oid ld (xs ++ ys)).ld
        = (run_timed B oid (run_timed B oid ld xs).ld ys).ld ∧
      (run_timed B oid ld (xs ++ ys)).fatal
        = (run_timed B oid (run_timed B oid ld xs).ld ys).fatal := by
  induction xs with
  | nil => intro ld _; simp [run_timed]
  | cons e rest ih =>
    intro ld hf
    have hf2 := run_timed_cons_fatal_none B oid ld e rest hf
    rw [run_timed_cons_ok B oid ld e rest hf2] at hf
    obtain ⟨i1, i2, i3⟩ := ih _ hf
    rw [List.cons_append, run_timed_cons_ok B oid ld e _ hf2,
      run_timed_cons_ok B oid ld e _ hf2]
    simp only [i1, i2, i3, List.append_assoc, and_self]

theorem sample_words_append (xs ys : List (List Bool × Sample)) :
    sample_words (xs ++ ys) = sample_words xs ++ sample_words ys := by
  induction xs with
  | nil => rfl
  | cons e rest ih => simp [sample_words, ih]

theorem take_set_set (t d : Nat) (l : List Nat) :
    ∀ b : Nat, b + 2 ≤ l.length →
      ((l.set b t).set (b + 1) d).take (b + 2) = l.take b ++ [t, d] := by
  induction l with
  | nil => intro b h; simp at h
  | cons x xs ih =>
    intro b h
    cases b with
    | zero =>
      cases xs with
      | nil => simp at h
      | cons y ys => simp
    | succ b =>
      have h2 : b + 2 ≤ xs.length := by simpa using h
      have := ih b h2
      simpa using this

/-- One processed sample seen from the task: the pair is stored behind the
words already buffered; below capacity nothing is sent, at capacity one data
message carries the buffered words, the sequence number and the overflow count
of that moment. -/
theorem task_buffer_step (B oid : Nat) (ld : ldc1612_ng F) (e : List Bool × Sample)
    (he : processed e)
    (hf : (ldc1612_ng_task B (timer_ticks ld e.1) oid e.2).fatal = none)
    (hb : ld.buf_next + 2 ≤ 254) (hlen : ld.buf_next + 2 ≤ ld.buffer.length) :
    (ldc1612_ng_task B (timer_ticks ld e.1) oid e.2).ld.buffer.length = ld.buffer.length ∧
    (ld.buf_next + 2 < B →
      data_events (ldc1612_ng_task B (timer_ticks ld e.1) oid e.2).events = [] ∧
      (ldc1612_ng_task B (timer_ticks ld e.1) oid e.2).ld.buf_next = ld.buf_next + 2 ∧
      (ldc1612_ng_task B (timer_ticks ld e.1) oid e.2).ld.seq_next = ld.seq_next ∧
      (ldc1612_ng_task B (timer_ticks ld e.1) oid e.2).ld.buffer.take (ld.buf_next + 2)
        = ld.buffer.take ld.buf_next ++ [e.2.time, e.2.data]) ∧
    (B ≤ ld.buf_next + 2 →
      data_events (ldc1612_ng_task B (timer_ticks ld e.1) oid e.2).events =
        [Event.data oid ld.seq_next (timer_ticks ld e.1).overflows
          (ld.buffer.take ld.buf_next ++ [e.2.time, e.2.data])] ∧
      (ldc1612_ng_task B (timer_ticks ld e.1) oid e.2).ld.buf_next = 0 ∧
      (ldc1612_ng_task B (timer_ticks ld e.1) oid e.2).ld.seq_next = (ld.seq_next + 1) % 256 ∧
      (ldc1612_ng_task B (timer_ticks ld e.1) oid e.2).ld.overflows = 0) := by
  rw [task_processed B oid ld e he] at hf ⊢
  obtain ⟨t1, t2, t3, _⟩ := timer_ticks_keeps e.1 ld
  obtain ⟨u1, u2, u3⟩ := update_buffer_step B oid (timer_ticks ld e.1) e.2 he.2 hf
    (by rw [t1]; omega)
  rw [t1, t3] at u1
  rw [t1, t2] at u2
  rw [t1, t2, t3] at u3
  have hts := take_set_set e.2.time e.2.data ld.buffer ld.buf_next hlen
  refine ⟨?_, ?_, ?_⟩
  · rw [u1]; simp
  · intro hlt
    obtain ⟨v1, v2, v3, _⟩ := u2 hlt
    exact ⟨v1, v2, v3, by rw [u1]; exact hts⟩
  · intro hge
    obtain ⟨v1, v2, v3, v4⟩ := u3 hge
    rw [hts] at v1
    exact ⟨v1, v2, v3, v4⟩

/-- While the buffer stays below its capacity, a run of processed samples sends
no data message and appends the pairs to the buffered words in arrival order. -/
theorem run_timed_fill (B oid : Nat) (xs : List (List Bool × Sample)) :
    ∀ ld : ldc1612_ng F, (∀ e ∈ xs, processed e) →
      (run_timed B oid ld xs).fatal = none →
      ld.buf_next + 2 * xs.length < B → B ≤ 254 → B ≤ ld.buffer.length →
      data_events (run_timed B oid ld xs).events = [] ∧
      (run_timed B oid ld xs).ld.buf_next = ld.buf_next + 2 * xs.length ∧
      (run_timed B oid ld xs).ld.seq_next = ld.seq_next ∧
      (run_timed B oid ld xs).ld.buffer.length = ld.buffer.length ∧
      (run_timed B oid ld xs).ld.buffer.take (ld.buf_next + 2 * xs.length)
        = ld.buffer.take ld.buf_next ++ sample_words xs := by
  induction xs with
  | nil =>
    intro ld _ _ _ _ _
    exact ⟨rfl, rfl, rfl, rfl, by simp [run_timed, sample_words]⟩
  | cons e rest ih =>
    intro ld hp hf hlt hB hlen
    have he : processed e := hp e (List.mem_cons_self _ _)
    have hrest : ∀ x ∈ rest, processed x := fun x hx => hp x (List.mem_cons_of_mem _ hx)
    have hf1 := run_timed_cons_fatal_none B oid ld e rest hf
    rw [run_timed_cons_ok B oid ld e rest hf1] at hf ⊢
    simp only [List.length_cons] at hlt
    obtain ⟨s0, s1, _⟩ := task_buffer_step B oid ld e he hf1 (by omega) (by omega)
    obtain ⟨v1, v2, v3, v4⟩ := s1 (by omega)
    obtain ⟨i1, i2, i3, i4, i5⟩ := ih _ hrest hf (by rw [v2]; omega) hB (by rw [s0]; exact hlen)
    rw [v2] at i2 i5
    refine ⟨?_, ?_, ?_, ?_, ?_⟩
    · show data_events (_ ++ _) = []
      rw [data_events_append, v1, i1]; rfl
    · show (run_timed B oid _ rest).ld.buf_next = _
      rw [i2, List.length_cons]; omega
    · show (run_timed B oid _ rest).ld.seq_next = _
      rw [i3, v3]
    · show (run_timed B oid _ rest).ld.buffer.length = _
      rw [i4, s0]
    · show (run_timed B oid _ rest).ld.buffer.take _ = _
      have hidx : ld.buf_next + 2 * (e :: rest).length = ld.buf_next + 2 + 2 * rest.length := by
        rw [List.length_cons]; omega
      rw [hidx, i5, v4]
      simp [sample_words]

theorem start_fresh (ld : ldc1612_ng F) (oid rest_ticks : Nat) (hrt : rest_ticks ≠ 0) :
    (command_ldc1612_ng_start_stop ld oid rest_ticks).ld.buf_next = 0 ∧
    (command_ldc1612_ng_start_stop ld oid rest_ticks).ld.seq_next = 0 ∧
    (command_ldc1612_ng_start_stop ld oid rest_ticks).ld.overflows = 0 ∧
    (command_ldc1612_ng_start_stop ld oid rest_ticks).ld.buffer = ld.buffer := by
  unfold command_ldc1612_ng_start_stop
  simp only []
  rw [if_neg hrt]
  exact ⟨rfl, rfl, rfl, rfl⟩

theorem run_timed_single (B oid : Nat) (ld : ldc1612_ng F) (e : List Bool × Sample)
    (h : (ldc1612_ng_task B (timer_ticks ld e.1) oid e.2).fatal = none) :
    (run_timed B oid ld [e]).ld = (ldc1612_ng_task B (timer_ticks ld e.1) oid e.2).ld ∧
    (run_timed B oid ld [e]).events = (ldc1612_ng_task B (timer_ticks ld e.1) oid e.2).events ∧
    (run_timed B oid ld [e]).fatal = none := by
  rw [run_timed_cons_ok B oid ld e [] h]
  exact ⟨rfl, by simp [run_timed], rfl⟩

/-- C18: a channel is started (a start command with a non-zero rest period), so
that buffer index, sequence number and overflow counter are 0, and then
processes `capacity + 1` samples (`pre`, then `c`, then `y`), each one read
because the ready pin was asserted at a timer event and the status reports an
unread conversion, without the machine being stopped; the buffer has
`BUF_COUNT32_MAX = 2 * capacity` words with `2 ≤ capacity` and
`BUF_COUNT32_MAX ≤ 254`. Then no data message is sent before the
`capacity`-th sample; the `capacity`-th sample sends exactly one, with
sequence number 0, the overflow count of that moment, and the first `capacity`
(timestamp, raw value) pairs in arrival order; the flush leaves the overflow
counter at 0; and after the next sample there is still exactly that one data
message, the buffer holds the two words of the last pair only, and the
sequence number is 1. -/
theorem C18_one_flush_at_capacity (B oid cap rest_ticks : Nat) (ld0 : ldc1612_ng F)
    (pre : List (List Bool × Sample)) (c y : List Bool × Sample)
    (hB : B = 2 * cap) (hcap : 2 ≤ cap) (hmax : B ≤ 254)
    (hbuf : ld0.buffer.length = B) (hrt : rest_ticks ≠ 0)
    (hlen : pre.length + 1 = cap)
    (hproc : ∀ e ∈ pre ++ [c, y], processed e)
    (hfat : (run_timed B oid (command_ldc1612_ng_start_stop ld0 oid rest_ticks).ld
      (pre ++ [c, y])).fatal = none) :
    ((command_ldc1612_ng_start_stop ld0 oid rest_ticks).ld.buf_next = 0 ∧
      (command_ldc1612_ng_start_stop ld0 oid rest_ticks).ld.seq_next = 0 ∧
      (command_ldc1612_ng_start_stop ld0 oid rest_ticks).ld.overflows = 0) ∧
    data_events (run_timed B oid (command_ldc1612_ng_start_stop ld0 oid rest_ticks).ld
      pre).events = [] ∧
    data_events (run_timed B oid (command_ldc1612_ng_start_stop ld0 oid rest_ticks).ld
      (pre ++ [c])).events =
      [Event.data oid 0
        (timer_ticks (run_timed B oid (command_ldc1612_ng_start_stop ld0 oid rest_ticks).ld
          pre).ld c.1).overflows
        (sample_words (pre ++ [c]))] ∧
    (sample_words (pre ++ [c])).length = 2 * cap ∧
    (run_timed B oid (command_ldc1612_ng_start_stop ld0 oid rest_ticks).ld
      (pre ++ [c])).ld.overflows = 0 ∧
    data_events (run_timed B oid (command_ldc1612_ng_start_stop ld0 oid rest_ticks).ld
      (pre ++ [c, y])).events =
      [Event.data oid 0
        (timer_ticks (run_timed B oid (command_ldc1612_ng_start_stop ld0 oid rest_ticks).ld
          pre).ld c.1).overflows
        (sample_words (pre ++ [c]))] ∧
    (run_timed B oid (command_ldc1612_ng_start_stop ld0 oid rest_ticks).ld
      (pre ++ [c, y])).ld.buf_next = 2 ∧
    (run_timed B oid (command_ldc1612_ng_start_stop ld0 oid rest_ticks).ld
      (pre ++ [c, y])).ld.buffer.take 2 = [y.2.time, y.2.data] ∧
    (run_timed B oid (command_ldc1612_ng_start_stop ld0 oid rest_ticks).ld
      (pre ++ [c, y])).ld.seq_next = 1 := by
  obtain ⟨f1, f2, f3, f4⟩ := start_fresh ld0 oid rest_ticks hrt
  generalize (command_ldc1612_ng_start_stop ld0 oid rest_ticks).ld = S at f1 f2 f3 f4 hfat ⊢
  have hpre : ∀ e ∈ pre, processed e := fun e he => hproc e (List.mem_append_left _ he)
  have hc : processed c := hproc c (by simp)
  have hy : processed y := hproc y (by simp)
  have hfpre := run_timed_prefix_fatal B oid pre [c, y] S hfat
  obtain ⟨p1, p2, p3, p4, p5⟩ := run_timed_fill B oid pre S hpre hfpre
    (by rw [f1]; omega) hmax (by rw [f4, hbuf])
  rw [f1, Nat.zero_add] at p2 p5
  rw [f2] at p3
  rw [f4, hbuf] at p4
  rw [List.take_zero, List.nil_append] at p5
  obtain ⟨a1, a2, a3⟩ := run_timed_append B oid pre [c, y] S hfpre
  rw [a3] at hfat
  have hfc := run_timed_cons_fatal_none B oid _ c [y] hfat
  rw [run_timed_cons_ok B oid _ c [y] hfc] at hfat
  have hfy := run_timed_cons_fatal_none B oid _ y [] hfat
  obtain ⟨c0, _, c2⟩ := task_buffer_step B oid (run_timed B oid S pre).ld c hc hfc
    (by rw [p2]; omega) (by rw [p2, p4]; omega)
  obtain ⟨d1, d2, d3, d4⟩ := c2 (by rw [p2]; omega)
  rw [p2, p5, p3] at d1
  rw [p3] at d3
  obtain ⟨_, y1, _⟩ := task_buffer_step B oid
    (ldc1612_ng_task B (timer_ticks (run_timed B oid S pre).ld c.1) oid c.2).ld y hy hfy
    (by rw [d2]; omega) (by rw [d2, c0, p4]; omega)
  obtain ⟨e1, e2, e3, e4⟩ := y1 (by rw [d2]; omega)
  rw [d2] at e2 e4
  rw [d3] at e3
  rw [List.take_zero, List.nil_append] at e4
  obtain ⟨b1, b2, b3⟩ := run_timed_append B oid pre [c] S hfpre
  obtain ⟨s1, s2, s3⟩ := run_timed_single B oid (run_timed B oid S pre).ld c hfc
  obtain ⟨t1, t2, t3⟩ := run_timed_single B oid
    (ldc1612_ng_task B (timer_ticks (run_timed B oid S pre).ld c.1) oid c.2).ld y hfy
  have hcy : run_timed B oid (run_timed B oid S pre).ld [c, y] =
      { ld := (run_timed B oid
          (ldc1612_ng_task B (timer_ticks (run_timed B oid S pre).ld c.1) oid c.2).ld [y]).ld,
        events := (ldc1612_ng_task B (timer_ticks (run_timed B oid S pre).ld c.1) oid c.2).events
          ++ (run_timed B oid
            (ldc1612_ng_task B (timer_ticks (run_timed B oid S pre).ld c.1) oid c.2).ld
              [y]).events,
        fatal := (run_timed B oid
          (ldc1612_ng_task B (timer_ticks (run_timed B oid S pre).ld c.1) oid c.2).ld
            [y]).fatal } :=
    run_timed_cons_ok B oid _ c [y] hfc
  have hw : sample_words (pre ++ [c]) = sample_words pre ++ [c.2.time, c.2.data] := by
    rw [sample_words_append]; rfl
  have hwl : ∀ xs : List (List Bool × Sample), (sample_words xs).length = 2 * xs.length := by
    intro xs
    induction xs with
    | nil => rfl
    | cons x r ih => simp only [sample_words, List.length_cons, ih]; omega
  refine ⟨⟨f1, f2, f3⟩, p1, ?_, ?_, ?_, ?_, ?_, ?_, ?_⟩
  · rw [b1, data_events_append, p1, s2, d1, hw]; rfl
  · rw [hwl, List.length_append, List.length_singleton]; omega
  · rw [b2, s1]; exact d4
  · rw [a1, hcy, data_events_append, data_events_append, p1, d1, t2, e1, hw]; rfl
  · rw [a2, hcy]
    show (run_timed B oid _ [y]).ld.buf_next = 2
    rw [t1]; exact e2
  · rw [a2, hcy]
    show (run_timed B oid _ [y]).ld.buffer.take 2 = _
    rw [t1]; exact e4
  · rw [a2, hcy]
    show (run_timed B oid _ [y]).ld.seq_next = 1
    rw [t1]; exact e3

/-- C18 on the example channel with a buffer of 12 words: seven samples, the
sixth read after a missed timer event; the one data message carries the six
first pairs, sequence number 0 and overflow count 1. -/
theorem C18_one_flush_at_capacity_witness :
    (12 = 2 * 6 ∧ 2 ≤ 6 ∧ 12 ≤ 254 ∧ exampleChannel.buffer.length = 12 ∧ 1000 ≠ 0 ∧
      exampleFill.length + 1 = 6 ∧
      (∀ e ∈ exampleFill ++ [exampleSixth, exampleSeventh], processed e) ∧
      (run_timed 12 7 (command_ldc1612_ng_start_stop exampleChannel 7 1000).ld
        (exampleFill ++ [exampleSixth, exampleSeventh])).fatal = none) ∧
    data_events (run_timed 12 7 (command_ldc1612_ng_start_stop exampleChannel 7 1000).ld
      (exampleFill ++ [exampleSixth, exampleSeventh])).events =
      [Event.data 7 0
        (timer_ticks (run_timed 12 7 (command_ldc1612_ng_start_stop exampleChannel 7 1000).ld
          exampleFill).ld exampleSixth.1).overflows
        (sample_words (exampleFill ++ [exampleSixth]))] ∧
    data_events (run_timed 12 7 (command_ldc1612_ng_start_stop exampleChannel 7 1000).ld
      (exampleFill ++ [exampleSixth, exampleSeventh])).events =
      [Event.data 7 0 1
        [100, 1001, 200, 1002, 300, 1003, 400, 1004, 500, 1005, 600, 1006]] ∧
    (run_timed 12 7 (command_ldc1612_ng_start_stop exampleChannel 7 1000).ld
      (exampleFill ++ [exampleSixth, exampleSeventh])).ld.buffer.take 2 = [700, 1007] :=
  ⟨⟨by decide, by decide, by decide, by decide, by decide, by decide, by decide!, by decide!⟩,
    (C18_one_flush_at_capacity 12 7 6 1000 exampleChannel exampleFill exampleSixth
      exampleSeventh (by decide) (by decide) (by decide) (by decide) (by decide) (by decide)
      (by decide!) (by decide!)).2.2.2.2.2.1,
    by decide!,
    (C18_one_flush_at_capacity 12 7 6 1000 exampleChannel exampleFill exampleSixth
      exampleSeventh (by decide) (by decide) (by decide) (by decide) (by decide) (by decide)
      (by decide!) (by decide!)).2.2.2.2.2.2.2.1⟩

/-! ## C21: a fresh session at every arm -/

/-- C21: a successful arm (sampling running, no session active, non-zero
trigger threshold and trigger channel).  With mode Home or Tap the machine is
not stopped, nothing is emitted, and the session record is: mode the
requested 8-bit mode, the three thresholds and the error threshold the
arguments, the tap threshold the argument scaled by `1/65536` in a Tap session
and `0` in a Home session, and `error_count`, `error`, `trigger_time`,
`tap_start_time`, every filter delay entry, `frequency_offset`,
`tap_start_value` and `last_value` all `0`; the coefficient bank is unchanged;
and the session record is the same from every other channel state that allows
the arm, so nothing of an earlier session is left.  With any other mode the
machine is stopped. -/
theorem C21_arm_builds_fresh_session (ld : ldc1612_ng F) (a : SetupHomeArgs)
    (hticks : ld.rest_ticks ≠ 0) (hidle : ld.homing.mode = 0)
    (hfreq : a.trigger_freq ≠ 0) (hts : a.trsync_oid ≠ 0) :
    ((a.mode % 256 = HOME_MODE_HOME ∨ a.mode % 256 = HOME_MODE_SOS) →
      (command_ldc1612_ng_setup_home ld a).fatal = none ∧
      (command_ldc1612_ng_setup_home ld a).events = [] ∧
      (command_ldc1612_ng_setup_home ld a).ld.homing.mode = a.mode % 256 ∧
      (command_ldc1612_ng_setup_home ld a).ld.homing.homing_trigger_freq = a.trigger_freq ∧
      (command_ldc1612_ng_setup_home ld a).ld.homing.safe_start_freq = a.start_freq ∧
      (command_ldc1612_ng_setup_home ld a).ld.homing.safe_start_time = a.start_time ∧
      (command_ldc1612_ng_setup_home ld a).ld.homing.error_threshold = a.err_max % 256 ∧
      (command_ldc1612_ng_setup_home ld a).ld.homing.sos_tap.tap_threshold
        = (if a.mode % 256 = HOME_MODE_SOS then
            FloatOps.div (FloatOps.ofInt (toInt32 a.tap_threshold)) (FloatOps.ofNat 65536)
          else FloatOps.zero) ∧
      (command_ldc1612_ng_setup_home ld a).ld.homing.error_count = 0 ∧
      (command_ldc1612_ng_setup_home ld a).ld.homing.error = 0 ∧
      (command_ldc1612_ng_setup_home ld a).ld.homing.trigger_time = 0 ∧
      (command_ldc1612_ng_setup_home ld a).ld.homing.tap_start_time = 0 ∧
      (command_ldc1612_ng_setup_home ld a).ld.homing.sos_tap.state
        = List.replicate (MAX_SOS_SECTIONS * 4) FloatOps.zero ∧
      (command_ldc1612_ng_setup_home ld a).ld.homing.sos_tap.frequency_offset = FloatOps.zero ∧
      (command_ldc1612_ng_setup_home ld a).ld.homing.sos_tap.tap_start_value = FloatOps.zero ∧
      (command_ldc1612_ng_setup_home ld a).ld.homing.sos_tap.last_value = FloatOps.zero ∧
      (command_ldc1612_ng_setup_home ld a).ld.sos_filter = ld.sos_filter ∧
      (∀ ld2 : ldc1612_ng F, ld2.rest_ticks ≠ 0 → ld2.homing.mode = 0 →
        (command_ldc1612_ng_setup_home ld2 a).ld.homing
          = (command_ldc1612_ng_setup_home ld a).ld.homing)) ∧
    (a.mode % 256 ≠ HOME_MODE_HOME → a.mode % 256 ≠ HOME_MODE_SOS →
      (command_ldc1612_ng_setup_home ld a).fatal = some "bad homing mode") := by
  have key : ∀ l : ldc1612_ng F, l.rest_ticks ≠ 0 → l.homing.mode = 0 →
      command_ldc1612_ng_setup_home l a =
        (if a.mode % 256 = HOME_MODE_HOME then
          { ld := { l with
              homing := { (homing_zero : ldc1612_ng_homing F) with
                safe_start_freq := a.start_freq, safe_start_time := a.start_time,
                homing_trigger_freq := a.trigger_freq, error_threshold := a.err_max % 256,
                mode := a.mode % 256 },
              ts := a.trsync_oid, success_reason := a.trigger_reason % 256,
              other_reason_base := a.other_reason_base % 256 },
            events := [], fatal := none }
        else if a.mode % 256 = HOME_MODE_SOS then
          { ld := { l with
              homing := { (homing_zero : ldc1612_ng_homing F) with
                safe_start_freq := a.start_freq, safe_start_time := a.start_time,
                homing_trigger_freq := a.trigger_freq, error_threshold := a.err_max % 256,
                mode := a.mode % 256,
                sos_tap := { (homing_zero : ldc1612_ng_homing F).sos_tap with
                  tap_threshold := FloatOps.div (FloatOps.ofInt (toInt32 a.tap_threshold))
                    (FloatOps.ofNat 65536) } },
              ts := a.trsync_oid, success_reason := a.trigger_reason % 256,
              other_reason_base := a.other_reason_base % 256 },
            events := [], fatal := none }
        else
          { ld := { l with
              homing := { (homing_zero : ldc1612_ng_homing F) with
                safe_start_freq := a.start_freq, safe_start_time := a.start_time,
                homing_trigger_freq := a.trigger_freq, error_threshold := a.err_max % 256,
                mode := a.mode % 256 },
              ts := a.trsync_oid, success_reason := a.trigger_reason % 256,
              other_reason_base := a.other_reason_base % 256 },
            events := [], fatal := some "bad homing mode" }) := by
    intro l h1 h2
    unfold command_ldc1612_ng_setup_home
    simp only []
    rw [if_neg (by simp [hfreq, hts]), if_neg h1, if_neg (by simp [h2])]
  constructor
  · intro hmode
    rcases hmode with h | h
    · have e := key ld hticks hidle
      rw [if_pos h] at e
      have hns : ¬ a.mode % 256 = HOME_MODE_SOS := by rw [h]; decide
      rw [e, if_neg hns]
      refine ⟨rfl, rfl, rfl, rfl, rfl, rfl, rfl, rfl, rfl, rfl, rfl, rfl, rfl, rfl, rfl, rfl,
        rfl, ?_⟩
      intro ld2 g1 g2
      have e2 := key ld2 g1 g2
      rw [if_pos h] at e2
      rw [e2]
    · have hnh : ¬ a.mode % 256 = HOME_MODE_HOME := by rw [h]; decide
      have e := key ld hticks hidle
      rw [if_neg hnh, if_pos h] at e
      rw [e, if_pos h]
      refine ⟨rfl, rfl, rfl, rfl, rfl, rfl, rfl, rfl, rfl, rfl, rfl, rfl, rfl, rfl, rfl, rfl,
        rfl, ?_⟩
      intro ld2 g1 g2
      have e2 := key ld2 g1 g2
      rw [if_neg hnh, if_pos h] at e2
      rw [e2]
  · intro h1 h2
    rw [key ld hticks hidle, if_neg h1, if_neg h2]

/-- C21 on a channel that carries the leftovers of an earlier session: arming
a Tap session gives the same session record as arming on a channel that never
had one. -/
theorem C21_arm_builds_fresh_session_witness :
    exampleLeftover.rest_ticks ≠ 0 ∧ exampleLeftover.homing.mode = 0 ∧
    exampleTapArgs.trigger_freq ≠ 0 ∧ exampleTapArgs.trsync_oid ≠ 0 ∧
    (exampleTapArgs.mode % 256 = HOME_MODE_HOME ∨ exampleTapArgs.mode % 256 = HOME_MODE_SOS) ∧
    exampleLeftover.homing ≠ exampleChannel.homing ∧
    (command_ldc1612_ng_setup_home exampleLeftover exampleTapArgs).ld.homing.error_count = 0 ∧
    (command_ldc1612_ng_setup_home exampleLeftover exampleTapArgs).ld.homing.sos_tap.state
      = List.replicate (MAX_SOS_SECTIONS * 4) FloatOps.zero ∧
    (command_ldc1612_ng_setup_home exampleChannel exampleTapArgs).ld.homing
      = (command_ldc1612_ng_setup_home exampleLeftover exampleTapArgs).ld.homing :=
  ⟨by decide, by decide, by decide, by decide, by decide, by decide!,
    ((C21_arm_builds_fresh_session exampleLeftover exampleTapArgs (by decide) (by decide)
      (by decide) (by decide)).1 (by decide)).2.2.2.2.2.2.2.2.1,
    ((C21_arm_builds_fresh_session exampleLeftover exampleTapArgs (by decide) (by decide)
      (by decide) (by decide)).1 (by decide)).2.2.2.2.2.2.2.2.2.2.2.2.1,
    ((C21_arm_builds_fresh_session exampleLeftover exampleTapArgs (by decide) (by decide)
      (by decide) (by decide)).1 (by decide)).2.2.2.2.2.2.2.2.2.2.2.2.2.2.2.2.2
      exampleChannel (by decide) (by decide)⟩

/-! ## C22: the frequency offset and the filter before the gate opens -/

theorem check_safe_start_trigger_freq_zero (ld : ldc1612_ng F) (data time : Nat)
    (h : ld.homing.homing_trigger_freq = 0) :
    (check_safe_start ld data time).ld.homing.homing_trigger_freq = 0 := by
  unfold check_safe_start
  simp only []
  split_ifs with h1 h2 h3 h4
  · exact h
  · exact h
  · exact h
  · exact absurd h h4.2
  · exact h

/-- A call of `check_safe_start` in an active session that leaves the
trigger-value threshold at `0`, having found it configured, is the promotion. -/
theorem check_safe_start_consumes (ld : ldc1612_ng F) (data time : Nat)
    (hm : ld.homing.mode ≠ 0) (htf : ld.homing.homing_trigger_freq ≠ 0)
    (hp : (check_safe_start ld data time).ld.homing.homing_trigger_freq = 0) :
    check_safe_start ld data time =
      { val := false,
        ld := { ld with homing := { ld.homing with
                  safe_start_freq := ld.homing.homing_trigger_freq,
                  homing_trigger_freq := 0 } },
        events := [] } := by
  by_cases h0 : ld.homing.safe_start_freq = 0
  · rw [check_safe_start_open ld data time h0] at hp
    exact absurd hp htf
  · by_cases h1 : data < ld.homing.safe_start_freq
    · rw [check_safe_start_below ld data time h0 h1] at hp
      exact absurd hp htf
    · by_cases h2 : too_early ld.homing.safe_start_time time
      · rw [check_safe_start_early ld data time h0 (by omega) h2] at hp
        exact absurd hp htf
      · exact check_safe_start_promote ld data time h0 (Nat.le_of_not_lt h1) h2 hm htf

theorem check_sos_tap_promotion (ld : ldc1612_ng F) (data time : Nat)
    (hm : ld.homing.mode = HOME_MODE_SOS) (herr : SAMPLE_ERR data = 0)
    (htf : ld.homing.homing_trigger_freq ≠ 0)
    (hp : (check_sos_tap ld data time).ld.homing.homing_trigger_freq = 0) :
    (check_sos_tap ld data time).ld.homing.sos_tap.frequency_offset = converted_freq ld data ∧
    (check_sos_tap ld data time).ld.homing.sos_tap.state = ld.homing.sos_tap.state ∧
    (check_sos_tap ld data time).ld.homing.mode = HOME_MODE_SOS ∧
    (check_sos_tap ld data time).fatal = none ∧
    (check_sos_tap ld data time).events = [] ∧
    (check_sos_tap ld data time).gate = some false ∧
    (check_sos_tap ld data time).ld.sensor_cvt = ld.sensor_cvt ∧
    (check_sos_tap ld data time).ld.sos_filter = ld.sos_filter := by
  have hm0 : ld.homing.mode ≠ 0 := by rw [hm]; decide
  unfold check_sos_tap at hp ⊢
  simp only [check_error_clean ld data time herr] at hp ⊢
  rw [if_neg (by simp), if_pos (by simpa using htf)] at hp
  rw [if_neg (by simp), if_pos (by simpa using htf)]
  split_ifs at hp ⊢ with hv
  · have hc := check_safe_start_consumes _ data time (by exact hm0) (by exact htf) hp
    rw [hc] at hv
    simp at hv
  · have hc := check_safe_start_consumes _ data time (by exact hm0) (by exact htf) hp
    rw [hc]
    exact ⟨rfl, rfl, hm, rfl, rfl, rfl, rfl, rfl⟩

/-- Once the trigger-value threshold has been consumed, `check_sos_tap` writes
neither it nor the frequency offset. -/
theorem check_sos_tap_offset_kept (ld : ldc1612_ng F) (data time : Nat)
    (h : ld.homing.homing_trigger_freq = 0) :
    (check_sos_tap ld data time).ld.homing.homing_trigger_freq = 0 ∧
    (check_sos_tap ld data time).ld.homing.sos_tap.frequency_offset
      = ld.homing.sos_tap.frequency_offset ∧
    (check_sos_tap ld data time).ld.sensor_cvt = ld.sensor_cvt ∧
    (check_sos_tap ld data time).ld.sos_filter = ld.sos_filter := by
  have he := check_error_frame ld data time
  have hehtf : (check_error ld data time).ld.homing.homing_trigger_freq = 0 := by
    rw [he]; exact h
  unfold check_sos_tap
  simp only []
  split_ifs with h1 h2
  · exact ⟨hehtf, by rw [he], by rw [he], by rw [he]⟩
  · exact absurd hehtf h2
  · exact absurd hehtf h2
  all_goals
    refine ⟨check_safe_start_trigger_freq_zero _ data time hehtf, ?_, ?_, ?_⟩ <;>
      (rw [check_safe_start_frame, he]; try rfl)

/-- The Home detector never writes the frequency offset, and leaves a
trigger-value threshold `0` at `0`. -/
theorem check_homing_offset_kept (ld : ldc1612_ng F) (data time : Nat)
    (h : ld.homing.homing_trigger_freq = 0) :
    (check_homing ld data time).ld.homing.homing_trigger_freq = 0 ∧
    (check_homing ld data time).ld.homing.sos_tap.frequency_offset
      = ld.homing.sos_tap.frequency_offset ∧
    (check_homing ld data time).ld.sensor_cvt = ld.sensor_cvt ∧
    (check_homing ld data time).ld.sos_filter = ld.sos_filter := by
  have he := check_error_frame ld data time
  have hehtf : (check_error ld data time).ld.homing.homing_trigger_freq = 0 := by
    rw [he]; exact h
  unfold check_homing
  simp only []
  split_ifs
  · exact ⟨hehtf, by rw [he], by rw [he], by rw [he]⟩
  all_goals
    refine ⟨check_safe_start_trigger_freq_zero _ data time hehtf, ?_, ?_, ?_⟩ <;>
      (rw [check_safe_start_frame, he]; try rfl)

theorem update_offset_kept (B oid : Nat) (ld : ldc1612_ng F) (s : Sample)
    (h : ld.homing.homing_trigger_freq = 0) :
    (ldc1612_ng_update B ld oid s).ld.homing.homing_trigger_freq = 0 ∧
    (ldc1612_ng_update B ld oid s).ld.homing.sos_tap.frequency_offset
      = ld.homing.sos_tap.frequency_offset ∧
    (ldc1612_ng_update B ld oid s).ld.sensor_cvt = ld.sensor_cvt ∧
    (ldc1612_ng_update B ld oid s).ld.sos_filter = ld.sos_filter := by
  by_cases hst : s.status &&& STATUS_UNREADCONV0 = 0
  · rw [update_not_ready B oid ld s hst]
    exact ⟨h, rfl, rfl, rfl⟩
  · by_cases hh : ld.homing.mode = HOME_MODE_HOME
    · rw [update_home B oid ld s hst hh, update_flush_homing,
        (update_flush_static B oid _).2.2.2.1, (update_flush_static B oid _).2.2.2.2]
      exact check_homing_offset_kept (at_switch ld s) s.data s.time h
    · by_cases ht : ld.homing.mode = HOME_MODE_SOS
      · rw [update_tap B oid ld s hst ht, update_flush_homing,
          (update_flush_static B oid _).2.2.2.1, (update_flush_static B oid _).2.2.2.2]
        exact check_sos_tap_offset_kept (at_switch ld s) s.data s.time h
      · rw [update_other B oid ld s hst hh ht, update_flush_homing,
          (update_flush_static B oid _).2.2.2.1, (update_flush_static B oid _).2.2.2.2]
        exact ⟨h, rfl, rfl, rfl⟩

theorem run_offset_kept (B oid : Nat) (post : List Sample) :
    ∀ ld : ldc1612_ng F, ld.homing.homing_trigger_freq = 0 →
      (run B oid ld post).ld.homing.homing_trigger_freq = 0 ∧
      (run B oid ld post).ld.homing.sos_tap.frequency_offset
        = ld.homing.sos_tap.frequency_offset ∧
      (run B oid ld post).ld.sensor_cvt = ld.sensor_cvt ∧
      (run B oid ld post).ld.sos_filter = ld.sos_filter := by
  induction post with
  | nil => intro ld h; exact ⟨h, rfl, rfl, rfl⟩
  | cons s rest ih =>
    intro ld h
    obtain ⟨u1, u2, u3, u4⟩ := update_offset_kept B oid ld s h
    by_cases hf : (ldc1612_ng_update B ld oid s).fatal = none
    · rw [(run_cons_ld B oid ld s rest hf).1]
      obtain ⟨i1, i2, i3, i4⟩ := ih _ u1
      exact ⟨i1, i2.trans u2, i3.trans u3, i4.trans u4⟩
    · rw [run_cons_fatal B oid ld s rest hf]
      exact ⟨u1, u2, u3, u4⟩

/-- After the promotion every error-free sample of a Tap session goes through
the filter, whatever the gate then says. -/
theorem check_sos_tap_filters (ld : ldc1612_ng F) (data time : Nat)
    (herr : SAMPLE_ERR data = 0) (htf : ld.homing.homing_trigger_freq = 0) :
    (check_sos_tap ld data time).ld.homing.sos_tap.state = (tap_filter ld data).2 ∧
    (check_sos_tap ld data time).fatal = none ∧
    ((check_sos_tap ld data time).gate = some true ∨
      (check_sos_tap ld data time).gate = some false) := by
  unfold check_sos_tap
  simp only [check_error_clean ld data time herr]
  rw [if_neg (by simp), if_neg (by simpa using htf)]
  split_ifs
  all_goals
    refine ⟨?_, rfl, by simp⟩
    rw [check_safe_start_frame]
    rfl

/-- C22: in a Tap session in which the trigger-value threshold is still
configured, let the error-free sample `s` consume the promotion (after it the
trigger-value threshold is `0`).  Then `s` sets `frequency_offset` to its
converted frequency and leaves the filter delay state as it was (it is not
filtered), and the session stays active.  After every sequence `post` of later
data-ready events, `frequency_offset` still has that value.  Every error-free
sample `x` that arrives then, the session being active, leaves the delay state
that `sosfilter` computes for the input `converted frequency of x -
frequency_offset`, whether the gate reports ready or not, and does not stop
the machine; and when the gate does not report ready, the running peak, the
peak timestamp, the previous filtered value and `trigger_time` are
unchanged. -/
theorem C22_offset_fixed_and_filter_runs_behind_gate (B oid : Nat) (ld : ldc1612_ng F)
    (s : Sample)
    (hm : ld.homing.mode = HOME_MODE_SOS)
    (htf : ld.homing.homing_trigger_freq ≠ 0)
    (hc : clean s)
    (hp : (ldc1612_ng_update B ld oid s).ld.homing.homing_trigger_freq = 0) :
    (ldc1612_ng_update B ld oid s).ld.homing.sos_tap.frequency_offset
      = converted_freq ld s.data ∧
    (ldc1612_ng_update B ld oid s).ld.homing.sos_tap.state = ld.homing.sos_tap.state ∧
    (ldc1612_ng_update B ld oid s).ld.homing.mode = HOME_MODE_SOS ∧
    (ldc1612_ng_update B ld oid s).fatal = none ∧
    ∀ post : List Sample,
      (run B oid (ldc1612_ng_update B ld oid s).ld post).ld.homing.sos_tap.frequency_offset
        = converted_freq ld s.data ∧
      ∀ x : Sample, clean x →
        (run B oid (ldc1612_ng_update B ld oid s).ld post).ld.homing.mode = HOME_MODE_SOS →
        (ldc1612_ng_update B (run B oid (ldc1612_ng_update B ld oid s).ld post).ld oid
            x).ld.homing.sos_tap.state
          = (sosfilter (FloatOps.sub (converted_freq ld x.data) (converted_freq ld s.data))
              ld.sos_filter
              (run B oid (ldc1612_ng_update B ld oid s).ld post).ld.homing.sos_tap.state).2 ∧
        (ldc1612_ng_update B (run B oid (ldc1612_ng_update B ld oid s).ld post).ld oid
            x).ld.homing.sos_tap.frequency_offset = converted_freq ld s.data ∧
        (ldc1612_ng_update B (run B oid (ldc1612_ng_update B ld oid s).ld post).ld oid
            x).fatal = none ∧
        (¬ gate_ready B oid (run B oid (ldc1612_ng_update B ld oid s).ld post).ld x →
          (ldc1612_ng_update B (run B oid (ldc1612_ng_update B ld oid s).ld post).ld oid
              x).ld.homing.sos_tap.tap_start_value
            = (run B oid (ldc1612_ng_update B ld oid s).ld
                post).ld.homing.sos_tap.tap_start_value ∧
          (ldc1612_ng_update B (run B oid (ldc1612_ng_update B ld oid s).ld post).ld oid
              x).ld.homing.tap_start_time
            = (run B oid (ldc1612_ng_update B ld oid s).ld post).ld.homing.tap_start_time ∧
          (ldc1612_ng_update B (run B oid (ldc1612_ng_update B ld oid s).ld post).ld oid
              x).ld.homing.sos_tap.last_value
            = (run B oid (ldc1612_ng_update B ld oid s).ld post).ld.homing.sos_tap.last_value ∧
          (ldc1612_ng_update B (run B oid (ldc1612_ng_update B ld oid s).ld post).ld oid
              x).ld.homing.trigger_time
            = (run B oid (ldc1612_ng_update B ld oid s).ld post).ld.homing.trigger_time) := by
  have hu := update_tap B oid ld s hc.1 hm
  have hp1 : (check_sos_tap (at_switch ld s) s.data s.time).ld.homing.homing_trigger_freq = 0 := by
    rw [hu, update_flush_homing] at hp
    exact hp
  obtain ⟨q1, q2, q3, q4, _, _, q7, q8⟩ :=
    check_sos_tap_promotion (at_switch ld s) s.data s.time hm hc.2 htf hp1
  have r1 : (ldc1612_ng_update B ld oid s).ld.homing.sos_tap.frequency_offset
      = converted_freq ld s.data := by
    rw [hu, update_flush_homing]; exact q1
  have r2 : (ldc1612_ng_update B ld oid s).ld.sensor_cvt = ld.sensor_cvt := by
    rw [hu, (update_flush_static B oid _).2.2.2.1]; exact q7
  have r3 : (ldc1612_ng_update B ld oid s).ld.sos_filter = ld.sos_filter := by
    rw [hu, (update_flush_static B oid _).2.2.2.2]; exact q8
  refine ⟨r1, ?_, ?_, ?_, ?_⟩
  · rw [hu, update_flush_homing]; exact q2
  · rw [hu, update_flush_homing]; exact q3
  · rw [hu, update_flush_fatal]; exact q4
  · intro post
    obtain ⟨k1, k2, k3, k4⟩ := run_offset_kept B oid post (ldc1612_ng_update B ld oid s).ld hp
    rw [r1] at k2
    rw [r2] at k3
    rw [r3] at k4
    generalize (run B oid (ldc1612_ng_update B ld oid s).ld post).ld = L at k1 k2 k3 k4 ⊢
    refine ⟨k2, ?_⟩
    intro x hx hmL
    have hux := update_tap B oid L x hx.1 hmL
    obtain ⟨f1, f2, f3⟩ := check_sos_tap_filters (at_switch L x) x.data x.time hx.2 k1
    have e1 : tap_filter (at_switch L x) x.data
        = sosfilter (FloatOps.sub (FloatOps.mul (FloatOps.ofNat x.data) L.sensor_cvt)
            L.homing.sos_tap.frequency_offset) L.sos_filter L.homing.sos_tap.state := rfl
    rw [e1, k2, k3, k4] at f1
    refine ⟨?_, ?_, ?_, ?_⟩
    · rw [hux, update_flush_homing]; exact f1
    · rw [(update_offset_kept B oid L x k1).2.1]; exact k2
    · rw [hux, update_flush_fatal]; exact f2
    · intro hg
      have hg1 : ¬ ((check_sos_tap (at_switch L x) x.data x.time).gate = some true ∧
          (check_sos_tap (at_switch L x) x.data x.time).fatal = none) := by
        intro hh
        apply hg
        unfold gate_ready
        rw [hux, update_flush_gate]
        exact hh.1
      obtain ⟨g1, g2, g3, g4⟩ := check_sos_tap_frame (at_switch L x) x.data x.time hg1
      rw [hux, update_flush_homing]
      exact ⟨g2, g1, g3, g4⟩

/-- C22 on the Tap session armed with thresholds 1000 and 2000 on the
two-section bank, conversion factor `1/2`: the sample with raw value 1500
consumes the promotion and fixes the offset `750`; the offset is the same after
the next sample (raw 1600, gate closed), which has gone through the filter. -/
theorem C22_offset_fixed_and_filter_runs_behind_gate_witness :
    exampleTapArmedBank.homing.mode = HOME_MODE_SOS ∧
    exampleTapArmedBank.homing.homing_trigger_freq ≠ 0 ∧
    clean ⟨8, 100, 1500⟩ ∧
    (ldc1612_ng_update 12 exampleTapArmedBank 7 ⟨8, 100, 1500⟩).ld.homing.homing_trigger_freq
      = 0 ∧
    converted_freq exampleTapArmedBank 1500 = 750 ∧
    (run 12 7 (ldc1612_ng_update 12 exampleTapArmedBank 7 ⟨8, 100, 1500⟩).ld
      [⟨8, 200, 1600⟩]).ld.homing.sos_tap.frequency_offset
      = converted_freq exampleTapArmedBank 1500 ∧
    ¬ gate_ready 12 7 (ldc1612_ng_update 12 exampleTapArmedBank 7 ⟨8, 100, 1500⟩).ld
      ⟨8, 200, 1600⟩ ∧
    (run 12 7 (ldc1612_ng_update 12 exampleTapArmedBank 7 ⟨8, 100, 1500⟩).ld
      [⟨8, 200, 1600⟩]).ld.homing.sos_tap.state
      ≠ (ldc1612_ng_update 12 exampleTapArmedBank 7 ⟨8, 100, 1500⟩).ld.homing.sos_tap.state :=
  ⟨by decide!, by decide!, by decide, by decide!, by decide!,
    ((C22_offset_fixed_and_filter_runs_behind_gate 12 7 exampleTapArmedBank ⟨8, 100, 1500⟩
      (by decide!) (by decide!) (by decide) (by decide!)).2.2.2.2 [⟨8, 200, 1600⟩]).1,
    by decide!, by decide!⟩

/-! ## C23: the buffer index -/

theorem flush_buffer_buf_next (ld : ldc1612_ng F) (oid : Nat) :
    (flush_buffer ld oid).ld.buf_next = 0 := by
  unfold flush_buffer
  split_ifs with h
  · exact h
  · rfl

theorem start_stop_buf_next (ld : ldc1612_ng F) (oid rest_ticks : Nat) :
    (command_ldc1612_ng_start_stop ld oid rest_ticks).ld.buf_next = 0 := by
  unfold command_ldc1612_ng_start_stop
  simp only []
  split_ifs
  · exact flush_buffer_buf_next _ oid
  · rfl

theorem setup_home_buf_next (ld : ldc1612_ng F) (a : SetupHomeArgs) :
    (command_ldc1612_ng_setup_home ld a).ld.buf_next = ld.buf_next := by
  unfold command_ldc1612_ng_setup_home
  simp only []
  split_ifs <;> rfl

/-- One call of `ldc1612_ng_update` from a state with an even index below
`BUF_COUNT32_MAX`: the index stays even and at most `BUF_COUNT32_MAX`, and it is
below `BUF_COUNT32_MAX` unless a detector stopped the machine before the flush. -/
theorem update_buf_next (B oid : Nat) (ld : ldc1612_ng F) (s : Sample)
    (heven : B % 2 = 0) (h254 : B ≤ 254) (hok : buf_next_ok B ld) :
    (ldc1612_ng_update B ld oid s).ld.buf_next % 2 = 0 ∧
    (ldc1612_ng_update B ld oid s).ld.buf_next ≤ B ∧
    ((ldc1612_ng_update B ld oid s).fatal = none →
      (ldc1612_ng_update B ld oid s).ld.buf_next < B) := by
  obtain ⟨hev, hlt⟩ := hok
  by_cases hst : s.status &&& STATUS_UNREADCONV0 = 0
  · rw [update_not_ready B oid ld s hst]
    exact ⟨hev, Nat.le_of_lt hlt, fun _ => hlt⟩
  · have e : ldc1612_ng_update B ld oid s
        = update_flush B oid (update_switch (at_switch ld s) s) := by
      unfold ldc1612_ng_update
      simp only []
      rw [if_neg hst]
      rfl
    have m1 : (ld.buf_next + 1) % 256 = ld.buf_next + 1 := Nat.mod_eq_of_lt (by omega)
    have m2 : (ld.buf_next + 1 + 1) % 256 = ld.buf_next + 2 := Nat.mod_eq_of_lt (by omega)
    have a1 : (at_switch ld s).buf_next = ld.buf_next + 2 := by
      show ((ld.buf_next + 1) % 256 + 1) % 256 = _
      rw [m1, m2]
    have k1 := (update_switch_keeps_buffer (at_switch ld s) s).1
    rw [a1] at k1
    rw [e]
    unfold update_flush
    split_ifs with hf hge
    · rw [k1]
      exact ⟨by omega, by omega, fun h => absurd h hf⟩
    · rw [flush_buffer_buf_next]
      exact ⟨rfl, Nat.zero_le _, fun _ => by omega⟩
    · rw [k1]
      rw [k1] at hge
      exact ⟨by omega, by omega, fun _ => by omega⟩

theorem channel_op_buf_next (B oid : Nat) (ld : ldc1612_ng F) (op : ChannelOp)
    (heven : B % 2 = 0) (h254 : B ≤ 254) (hok : buf_next_ok B ld) :
    (channel_op B oid ld op).ld.buf_next % 2 = 0 ∧
    (channel_op B oid ld op).ld.buf_next ≤ B ∧
    ((channel_op B oid ld op).fatal = none → (channel_op B oid ld op).ld.buf_next < B) := by
  have hpos : 0 < B := by
    have := hok.2
    omega
  cases op with
  | start_stop rest_ticks =>
    have hb : (channel_op B oid ld (ChannelOp.start_stop rest_ticks)).ld.buf_next = 0 :=
      start_stop_buf_next ld oid rest_ticks
    rw [hb]
    exact ⟨rfl, Nat.zero_le _, fun _ => hpos⟩
  | timer_event pin =>
    have hb : (channel_op B oid ld (ChannelOp.timer_event pin)).ld.buf_next = ld.buf_next :=
      (timer_event_keeps ld pin).1
    rw [hb]
    exact ⟨hok.1, Nat.le_of_lt hok.2, fun _ => hok.2⟩
  | task s =>
    show (ldc1612_ng_task B ld oid s).ld.buf_next % 2 = 0 ∧
      (ldc1612_ng_task B ld oid s).ld.buf_next ≤ B ∧
      ((ldc1612_ng_task B ld oid s).fatal = none → (ldc1612_ng_task B ld oid s).ld.buf_next < B)
    unfold ldc1612_ng_task
    split_ifs
    · exact ⟨hok.1, Nat.le_of_lt hok.2, fun _ => hok.2⟩
    · exact update_buf_next B oid ld s heven h254 hok
  | update s => exact update_buf_next B oid ld s heven h254 hok
  | flush =>
    have hb : (channel_op B oid ld ChannelOp.flush).ld.buf_next = 0 :=
      flush_buffer_buf_next ld oid
    rw [hb]
    exact ⟨rfl, Nat.zero_le _, fun _ => hpos⟩
  | setup_home a =>
    have hb : (channel_op B oid ld (ChannelOp.setup_home a)).ld.buf_next = ld.buf_next :=
      setup_home_buf_next ld a
    rw [hb]
    exact ⟨hok.1, Nat.le_of_lt hok.2, fun _ => hok.2⟩
  | finish_home => exact ⟨hok.1, Nat.le_of_lt hok.2, fun _ => hok.2⟩

theorem run_ops_buf_next (B oid : Nat) (heven : B % 2 = 0) (h254 : B ≤ 254)
    (ops : List ChannelOp) :
    ∀ ld : ldc1612_ng F, buf_next_ok B ld →
      (run_ops B oid ld ops).ld.buf_next % 2 = 0 ∧
      (run_ops B oid ld ops).ld.buf_next ≤ B ∧
      ((run_ops B oid ld ops).fatal = none → (run_ops B oid ld ops).ld.buf_next < B) := by
  induction ops with
  | nil => intro ld hok; exact ⟨hok.1, Nat.le_of_lt hok.2, fun _ => hok.2⟩
  | cons op rest ih =>
    intro ld hok
    obtain ⟨c1, c2, c3⟩ := channel_op_buf_next B oid ld op heven h254 hok
    simp only [run_ops]
    split_ifs with hf
    · exact ⟨c1, c2, c3⟩
    · have hf1 : (channel_op B oid ld op).fatal = none := by simpa using hf
      exact ih _ ⟨c1, c3 hf1⟩

/-- C23: let `BUF_COUNT32_MAX` be even and between 2 and 254.  A start or a
stop from any state, and a flush, leave `buf_next = 0`.  From every state in
which `buf_next` is even and below `BUF_COUNT32_MAX`: the two indices that an
update writes are below `BUF_COUNT32_MAX`, and the two 8-bit increments give
`buf_next + 2` without wrapping; and after every sequence of starts, stops,
timer events, task runs, updates, flushes and session commands, `buf_next` is
even and at most `BUF_COUNT32_MAX`, and it is below `BUF_COUNT32_MAX` whenever
the sequence was not ended by a `shutdown`. -/
theorem C23_buffer_index_invariant (B oid : Nat) (ld : ldc1612_ng F)
    (heven : B % 2 = 0) (h2 : 2 ≤ B) (h254 : B ≤ 254) :
    (∀ rest_ticks : Nat,
      (command_ldc1612_ng_start_stop ld oid rest_ticks).ld.buf_next = 0 ∧
      buf_next_ok B (command_ldc1612_ng_start_stop ld oid rest_ticks).ld) ∧
    ((flush_buffer ld oid).ld.buf_next = 0 ∧ buf_next_ok B (flush_buffer ld oid).ld) ∧
    (buf_next_ok B ld →
      (∀ i ∈ buffer_write_indices ld, i < B) ∧
      (∀ s : Sample, (update_store ld s).buf_next = ld.buf_next + 2) ∧
      (∀ s : Sample,
        ((ldc1612_ng_update B ld oid s).fatal = none →
          buf_next_ok B (ldc1612_ng_update B ld oid s).ld) ∧
        (ldc1612_ng_update B ld oid s).ld.buf_next % 2 = 0 ∧
        (ldc1612_ng_update B ld oid s).ld.buf_next ≤ B) ∧
      (∀ ops : List ChannelOp,
        ((run_ops B oid ld ops).fatal = none → buf_next_ok B (run_ops B oid ld ops).ld) ∧
        (run_ops B oid ld ops).ld.buf_next % 2 = 0 ∧
        (run_ops B oid ld ops).ld.buf_next ≤ B)) := by
  refine ⟨?_, ?_, ?_⟩
  · intro rt
    have h0 := start_stop_buf_next ld oid rt
    exact ⟨h0, by unfold buf_next_ok; rw [h0]; exact ⟨rfl, by omega⟩⟩
  · have h0 := flush_buffer_buf_next ld oid
    exact ⟨h0, by unfold buf_next_ok; rw [h0]; exact ⟨rfl, by omega⟩⟩
  · intro hok
    obtain ⟨hev, hlt⟩ := hok
    refine ⟨?_, ?_, ?_, ?_⟩
    · intro i hi
      simp only [buffer_write_indices, List.mem_cons, List.mem_singleton, List.not_mem_nil,
        or_false] at hi
      rcases hi with h | h
      · rw [h]; exact hlt
      · rw [h, Nat.mod_eq_of_lt (by omega)]; omega
    · intro s
      show ((ld.buf_next + 1) % 256 + 1) % 256 = _
      rw [Nat.mod_eq_of_lt (by omega : ld.buf_next + 1 < 256),
        Nat.mod_eq_of_lt (by omega : ld.buf_next + 1 + 1 < 256)]
    · intro s
      obtain ⟨u1, u2, u3⟩ := update_buf_next B oid ld s heven h254 ⟨hev, hlt⟩
      exact ⟨fun hf => ⟨u1, u3 hf⟩, u1, u2⟩
    · intro ops
      obtain ⟨u1, u2, u3⟩ := run_ops_buf_next B oid heven h254 ops ld ⟨hev, hlt⟩
      exact ⟨fun hf => ⟨u1, u3 hf⟩, u1, u2⟩

/-- C23 on the example channel with a buffer of 12 words: after a start and
seven samples, with a session armed in between, the machine is not stopped and
the index is 2. -/
theorem C23_buffer_index_invariant_witness :
    (12 % 2 = 0 ∧ 2 ≤ 12 ∧ 12 ≤ 254 ∧ buf_next_ok 12 exampleChannel ∧
      (run_ops 12 7 exampleChannel exampleOps).fatal = none) ∧
    buf_next_ok 12 (run_ops 12 7 exampleChannel exampleOps).ld ∧
    (run_ops 12 7 exampleChannel exampleOps).ld.buf_next = 2 :=
  ⟨⟨by decide, by decide, by decide, by decide, by decide!⟩,
    (((C23_buffer_index_invariant 12 7 exampleChannel (by decide) (by decide)
      (by decide)).2.2 (by decide)).2.2.2 exampleOps).1 (by decide!),
    by decide!⟩

end Ldc1612
